import Mathlib

/-!
UNMA 2025 registration: the step-merge engine, payment reconciliation and the
contribution policy.

A shallow embedding of

* `unma2025-backend/src/controllers/registrations.controller.js`
  (`saveRegistrationStep`, `transactionRegister`, `processPayment`), and
* `unma2025-frontend/src/components/registration/AlumniRegistrationForm.jsx`
  (`handlePayment`).

JSON values are a small inductive type, JavaScript objects are association
lists in insertion order, the MongoDB collections are lists inside a `Store`,
and a request handler is a function from the store and the request to the new
store and the response.  Sources of nondeterminism (the clock, the random
suffix of a transaction id, mail delivery) are explicit arguments.
-/

set_option autoImplicit false

namespace Unma

/-! ## JSON values and JavaScript objects -/

/-- A JSON value as it arrives in a request body.  Numbers are the
integer-valued ones; `undefined` is the absence of a value (`Option.none`). -/
inductive JVal where
  | null : JVal
  | bool (b : Bool) : JVal
  | num (n : Int) : JVal
  | str (s : String) : JVal
  | arr (items : List JVal) : JVal
  | obj (fields : List (String × JVal)) : JVal

/-- A JavaScript object: its own enumerable properties in insertion order. -/
abbrev Obj := List (String × JVal)

/-- Property read `o[k]`; `none` is `undefined`. -/
def Obj.get? : Obj → String → Option JVal
  | [], _ => none
  | (k', v) :: rest, k => if k' = k then some v else Obj.get? rest k

/-- The keys of an object, `Object.keys(o)`. -/
def Obj.keys (o : Obj) : List String := o.map Prod.fst

/-- Property write `o[k] = v`: an existing property keeps its position and takes
the new value, a new property is appended. -/
def setField : Obj → String → JVal → Obj
  | [], k, v => [(k, v)]
  | (k', v') :: rest, k, v =>
      if k' = k then (k', v) :: rest else (k', v') :: setField rest k v

/-- Spread `...src` into an object under construction: every own property of
`src` is written in order; spreading `undefined` or `null` writes nothing. -/
def spread (target : Obj) (src : Option Obj) : Obj :=
  match src with
  | none => target
  | some s => s.foldl (fun acc p => setField acc p.1 p.2) target

/-- The object literal `{ ...a, ...b }`.  The copy of `a` is `a` itself (an
object has each key once), then the properties of `b` are written over it. -/
def mergeSection (a b : Option Obj) : Obj :=
  spread (a.getD []) b

/-- JavaScript truthiness of a possibly undefined value. -/
def truthy : Option JVal → Bool
  | none => false
  | some .null => false
  | some (.bool b) => b
  | some (.num n) => n != 0
  | some (.str s) => s != ""
  | some (.arr _) => true
  | some (.obj _) => true

/-- Strict inequality `v !== "lit"` against a string literal. -/
def strictNeStr (v : Option JVal) (lit : String) : Bool :=
  match v with
  | some (.str s) => s != lit
  | _ => true

/-! ## The stored documents -/

/-- The nine named sections of `formDataStructured`; a section is an object or
absent (`undefined`/`null`). -/
structure FormDataStructured where
  verification : Option Obj
  personalInfo : Option Obj
  professional : Option Obj
  eventAttendance : Option Obj
  sponsorship : Option Obj
  transportation : Option Obj
  accommodation : Option Obj
  optional : Option Obj
  financial : Option Obj

/-- A document of the `Registration` collection.  The schema file
(`models/Registration.js`) is not part of the source tree: the store keeps the
values it is given, `email` and `contactNumber` are strings, and a field that
was never set is `none`. -/
structure Registration where
  id : Nat
  registrationType : Option JVal
  name : Option JVal
  email : String
  contactNumber : String
  country : Option JVal
  school : Option JVal
  yearOfPassing : Option JVal
  emailVerified : Option JVal
  captchaVerified : Option JVal
  verificationQuizPassed : Option JVal
  isAttending : Option JVal
  attendees : Option JVal
  willContribute : Option JVal
  contributionAmount : Option JVal
  formSubmissionComplete : Option JVal
  paymentStatus : Option JVal
  paymentId : Option JVal
  paymentDetails : Option JVal
  registrationDate : Option Nat
  lastUpdated : Option Nat
  currentStep : Option JVal
  step1Complete : Bool
  step2Complete : Bool
  step3Complete : Bool
  step4Complete : Bool
  step5Complete : Bool
  step6Complete : Bool
  step7Complete : Bool
  step8Complete : Bool
  formDataStructured : Option FormDataStructured

/-- A document of the `OtpVerification` collection. -/
structure OtpVerification where
  id : Nat
  email : String
  contactNumber : String
  otp : String
  createdAt : Nat
  verified : Bool
  verifiedAt : Option Nat
  attempts : Nat
  ipAddress : Option String
  userAgent : Option String

/-- A document of the `Transaction` collection. -/
structure Transaction where
  transactionId : String
  registrationId : Option Nat
  name : Option JVal
  email : Option JVal
  contact : Option JVal
  amount : Int
  paymentMethod : Option JVal
  paymentGatewayResponse : Option JVal
  isAnonymous : Bool
  status : String
  purpose : String
  notes : Option JVal
  completedAt : Option Nat

/-- The three collections and the next fresh document id. -/
structure Store where
  registrations : List Registration
  otps : List OtpVerification
  transactions : List Transaction
  nextId : Nat

/-- `Registration.findOne({ email: v })`: the first document whose e-mail is the
string `v`.  Every stored e-mail is a string, so `undefined` and `null` find
nothing; other non-string query values (which Mongoose would cast, or read as
query operators) are outside the model and find nothing either. -/
def findOneByEmail (regs : List Registration) (v : Option JVal) : Option Registration :=
  match v with
  | some (.str e) => regs.find? (fun r => r.email == e)
  | _ => none

/-- `Registration.findById(id)`. -/
def findById (regs : List Registration) (id : Nat) : Option Registration :=
  regs.find? (fun r => r.id == id)

/-- The write half of `findByIdAndUpdate` / `save()`: the first document with
the given id is replaced by its image under `f`. -/
def updateById (id : Nat) (f : Registration → Registration) :
    List Registration → List Registration
  | [] => []
  | r :: rs => if r.id == id then f r :: rs else r :: updateById id f rs

/-! ## `saveRegistrationStep` -/

/-- What the body of a handler can throw into its `catch` block. -/
inductive Thrown where
  | typeError
  | duplicateKey
  | validationError
  | castError

/-- The `stepData` of a save-step request.  Only `formDataStructured` is read;
the other root-level keys (`rootLevelData`) are destructured and never used. -/
structure StepData where
  formDataStructured : Option FormDataStructured

/-- The body of a save-step request; `step` is a JSON integer or absent. -/
structure StepBody where
  step : Option Int
  stepData : Option StepData
  verificationToken : Option String

/-- The JSON response of `saveRegistrationStep`. -/
structure StepResponse where
  status : Nat
  message : String
  registrationId : Option Nat
  currentStep : Option Int
  isComplete : Option Bool
  confirmationEmailSent : Option Bool

/-- The result of a handler: the store afterwards, the response, and what
happened to the confirmation e-mail: `none` when none was attempted,
`some true` when it was sent, `some false` when the attempt threw and the error
was logged. -/
structure Outcome (ρ : Type) where
  store : Store
  response : ρ
  mail : Option Bool

/-- The object `cleanedData`: the root-level keys that are written.  A key that
is absent, or whose value is `undefined`, is `none`; `stepComplete` is the `N`
of the computed key `step{N}Complete`. -/
structure CleanedData where
  lastUpdated : Nat
  stepComplete : Int
  name : Option JVal
  email : Option JVal
  contactNumber : Option JVal
  country : Option JVal
  school : Option JVal
  yearOfPassing : Option JVal
  emailVerified : Option JVal
  captchaVerified : Option JVal
  verificationQuizPassed : Option JVal
  isAttending : Option JVal
  attendees : Option JVal
  willContribute : Option JVal
  contributionAmount : Option JVal
  formSubmissionComplete : Option JVal
  formDataStructured : Option FormDataStructured
  currentStep : Option JVal

/-- An error response. -/
def stepError (status : Nat) (message : String) : StepResponse :=
  { status := status, message := message, registrationId := none,
    currentStep := none, isComplete := none, confirmationEmailSent := none }

/-- Lines 899-905: `stateUT` and `district` are blanked outside India, and
`district` outside Kerala, by assignments to the payload object. -/
def normalizePersonalInfo (pi : Obj) : Obj :=
  let pi1 :=
    if strictNeStr (Obj.get? pi "country") "IN" then
      setField (setField pi "stateUT" (.str "")) "district" (.str "")
    else pi
  if strictNeStr (Obj.get? pi1 "stateUT") "Kerala" then
    setField pi1 "district" (.str "")
  else pi1

/-- Lines 898-906: at step 1 the handler rewrites the payload in place.  Reading
`stepData.formDataStructured.personalInfo` throws when a link is missing. -/
def normalizeStep1 (body : StepBody) : Except Thrown StepBody :=
  if body.step = some 1 then
    match body.stepData with
    | none => .error .typeError
    | some sd =>
      match sd.formDataStructured with
      | none => .error .typeError
      | some fds =>
        match fds.personalInfo with
        | none => .error .typeError
        | some pi =>
          let fds2 : FormDataStructured :=
            { fds with personalInfo := some (normalizePersonalInfo pi) }
          let sd2 : StepData := { sd with formDataStructured := some fds2 }
          .ok { body with stepData := some sd2 }
  else .ok body

/-- Lines 927-966: the root-level fields a step is authoritative for. -/
def buildCleanedData (now : Nat) (step : Int) (fds : FormDataStructured)
    (emailExists : Bool) : CleanedData :=
  let base : CleanedData :=
    { lastUpdated := now, stepComplete := step, name := none, email := none,
      contactNumber := none, country := none, school := none, yearOfPassing := none,
      emailVerified := none, captchaVerified := none, verificationQuizPassed := none,
      isAttending := none, attendees := none, willContribute := none,
      contributionAmount := none, formSubmissionComplete := none,
      formDataStructured := none, currentStep := none }
  if step = 1 ∧ emailExists = false then
    let c1 :=
      match fds.personalInfo with
      | some pi =>
        { base with
          name := Obj.get? pi "name", email := Obj.get? pi "email",
          contactNumber := Obj.get? pi "contactNumber", country := Obj.get? pi "country",
          school := Obj.get? pi "school", yearOfPassing := Obj.get? pi "yearOfPassing" }
      | none => base
    match fds.verification with
    | some v =>
      { c1 with
        emailVerified := Obj.get? v "emailVerified",
        captchaVerified := Obj.get? v "captchaVerified",
        verificationQuizPassed := Obj.get? v "quizPassed" }
    | none => c1
  else if step = 3 ∧ fds.eventAttendance.isSome then
    let ea := fds.eventAttendance.getD []
    { base with isAttending := Obj.get? ea "isAttending", attendees := Obj.get? ea "attendees" }
  else if step = 8 ∧ fds.financial.isSome then
    let fin := fds.financial.getD []
    { base with
      willContribute := Obj.get? fin "willContribute",
      contributionAmount := Obj.get? fin "contributionAmount",
      formSubmissionComplete := some (.bool true) }
  else base

/-- Lines 1000-1037: the stored form and the incoming form are merged section by
section, each with one object spread. -/
def mergeFormDataStructured (existing incoming : FormDataStructured) : FormDataStructured :=
  { verification := some (mergeSection existing.verification incoming.verification),
    personalInfo := some (mergeSection existing.personalInfo incoming.personalInfo),
    professional := some (mergeSection existing.professional incoming.professional),
    eventAttendance := some (mergeSection existing.eventAttendance incoming.eventAttendance),
    sponsorship := some (mergeSection existing.sponsorship incoming.sponsorship),
    transportation := some (mergeSection existing.transportation incoming.transportation),
    accommodation := some (mergeSection existing.accommodation incoming.accommodation),
    optional := some (mergeSection existing.optional incoming.optional),
    financial := some (mergeSection existing.financial incoming.financial) }

/-- The computed key `step{N}Complete: true`. -/
def setStepComplete (n : Int) (r : Registration) : Registration :=
  if n = 1 then { r with step1Complete := true }
  else if n = 2 then { r with step2Complete := true }
  else if n = 3 then { r with step3Complete := true }
  else if n = 4 then { r with step4Complete := true }
  else if n = 5 then { r with step5Complete := true }
  else if n = 6 then { r with step6Complete := true }
  else if n = 7 then { r with step7Complete := true }
  else if n = 8 then { r with step8Complete := true }
  else r

/-- Overwrite a field by a key of `$set`; a key that is absent or `undefined`
leaves the stored value alone. -/
def setOpt {α : Type} (new old : Option α) : Option α :=
  match new with
  | some v => some v
  | none => old

/-- Overwrite a string-typed field by a key of `$set`. -/
def setStr (new : Option JVal) (old : String) : String :=
  match new with
  | some (.str v) => v
  | _ => old

/-- The update `{ $set: cleanedData }` applied to a stored document. -/
def applySet (c : CleanedData) (r : Registration) : Registration :=
  setStepComplete c.stepComplete
    { r with
      lastUpdated := some c.lastUpdated,
      name := setOpt c.name r.name,
      email := setStr c.email r.email,
      contactNumber := setStr c.contactNumber r.contactNumber,
      country := setOpt c.country r.country,
      school := setOpt c.school r.school,
      yearOfPassing := setOpt c.yearOfPassing r.yearOfPassing,
      emailVerified := setOpt c.emailVerified r.emailVerified,
      captchaVerified := setOpt c.captchaVerified r.captchaVerified,
      verificationQuizPassed := setOpt c.verificationQuizPassed r.verificationQuizPassed,
      isAttending := setOpt c.isAttending r.isAttending,
      attendees := setOpt c.attendees r.attendees,
      willContribute := setOpt c.willContribute r.willContribute,
      contributionAmount := setOpt c.contributionAmount r.contributionAmount,
      formSubmissionComplete := setOpt c.formSubmissionComplete r.formSubmissionComplete,
      formDataStructured := setOpt c.formDataStructured r.formDataStructured,
      currentStep := setOpt c.currentStep r.currentStep }

/-- A document with no field set. -/
def blankRegistration (id : Nat) : Registration :=
  { id := id, registrationType := none, name := none, email := "", contactNumber := "",
    country := none, school := none, yearOfPassing := none, emailVerified := none,
    captchaVerified := none, verificationQuizPassed := none, isAttending := none,
    attendees := none, willContribute := none, contributionAmount := none,
    formSubmissionComplete := none, paymentStatus := none, paymentId := none,
    paymentDetails := none, registrationDate := none, lastUpdated := none,
    currentStep := none, step1Complete := false, step2Complete := false,
    step3Complete := false, step4Complete := false, step5Complete := false,
    step6Complete := false, step7Complete := false, step8Complete := false,
    formDataStructured := none }

/-- Lines 1108-1124: `registrationData`, the spread of `cleanedData` followed by
the fields of the first step and the defaults. -/
def registrationData (id now : Nat) (c : CleanedData) (fds : FormDataStructured)
    (pi : Obj) (email contact : String) : Registration :=
  { applySet c (blankRegistration id) with
    registrationType :=
      if truthy (Obj.get? pi "registrationType") then Obj.get? pi "registrationType"
      else some (.str "Alumni"),
    name := Obj.get? pi "name",
    email := email,
    contactNumber := contact,
    country := Obj.get? pi "country",
    school := Obj.get? pi "school",
    yearOfPassing := Obj.get? pi "yearOfPassing",
    emailVerified := some (.bool true),
    isAttending := some (.bool false),
    willContribute := some (.bool false),
    registrationDate := some now,
    currentStep := some (.num 1),
    formDataStructured := some fds }

/-- `OtpVerification.findOne({ email, contactNumber, verified: true })`. -/
def findVerifiedOtp (otps : List OtpVerification) (email contact : Option JVal) :
    Option OtpVerification :=
  match email, contact with
  | some (.str e), some (.str c) =>
      otps.find? (fun o => o.email == e && o.contactNumber == c && o.verified)
  | _, _ => none

/-- Modelled from the spec: the unique indexes of the `Registration` collection
(`models/Registration.js` is not in the source tree).  "`email` and
`contactNumber` carry uniqueness constraints on Registration": inserting a
document whose e-mail or contact number is already stored raises error 11000. -/
def violatesUnique (regs : List Registration) (email contact : String) : Bool :=
  regs.any (fun r => r.email == email || r.contactNumber == contact)

/-- `Registration.create(doc)`. -/
def createRegistration (s : Store) (doc : Registration) : Except Thrown Store :=
  if violatesUnique s.registrations doc.email doc.contactNumber then .error .duplicateKey
  else .ok { s with registrations := s.registrations ++ [doc], nextId := s.nextId + 1 }

/-- Lines 991-1042: `cleanedData` as sent in `$set` on the update path, with the
merged form (the payload itself when nothing is stored) and `currentStep`. -/
def updateCleanedData (now : Nat) (step : Int) (fds : FormDataStructured)
    (existing : Registration) : CleanedData :=
  let cleaned := buildCleanedData now step fds true
  let merged :=
    match existing.formDataStructured with
    | none => fds
    | some stored => mergeFormDataStructured stored fds
  { cleaned with formDataStructured := some merged, currentStep := some (.num step) }

/-- Lines 969-1077: the update path, taken when a registration with the
payload e-mail exists. -/
def updateExisting (s : Store) (now : Nat) (mailOk : Bool) (step : Int)
    (fds : FormDataStructured) (existing : Registration) :
    Except Thrown (Outcome StepResponse) :=
  let cleaned2 := updateCleanedData now step fds existing
  match findById s.registrations existing.id with
  | none => .error .typeError
  | some doc =>
    let updated := applySet cleaned2 doc
    let sent := decide (step = 8) && truthy updated.formSubmissionComplete
    let s2 : Store :=
      { s with registrations := updateById existing.id (applySet cleaned2) s.registrations }
    .ok { store := s2,
          response :=
            { status := 200,
              message := "Step " ++ toString step ++ " saved successfully",
              registrationId := some updated.id,
              currentStep := some step,
              isComplete := some (truthy updated.formSubmissionComplete),
              confirmationEmailSent := some sent },
          mail := if sent then some mailOk else none }

/-- Lines 1080-1145: the creation path, taken when no registration has the
payload e-mail. -/
def createNew (s : Store) (now : Nat) (step : Int) (fds : FormDataStructured)
    (pi : Obj) : Except Thrown (Outcome StepResponse) :=
  if step = 1 then
    if !truthy (Obj.get? pi "email") || !truthy (Obj.get? pi "contactNumber") then
      .ok { store := s, mail := none,
            response := stepError 400
              "Email and contact number are required for the first step" }
    else
      match findVerifiedOtp s.otps (Obj.get? pi "email") (Obj.get? pi "contactNumber") with
      | none =>
        .ok { store := s, mail := none,
              response := stepError 401
                "OTP verification required before creating registration" }
      | some _ =>
        match Obj.get? pi "email", Obj.get? pi "contactNumber" with
        | some (.str email), some (.str contact) =>
          let cleaned := buildCleanedData now step fds false
          let doc := registrationData s.nextId now cleaned fds pi email contact
          match createRegistration s doc with
          | .error e => .error e
          | .ok s2 =>
            .ok { store := s2, mail := none,
                  response :=
                    { status := 201,
                      message := "Registration created and first step saved successfully",
                      registrationId := some doc.id,
                      currentStep := some step,
                      isComplete := some false,
                      confirmationEmailSent := none } }
        | _, _ => .error .validationError
  else
    .ok { store := s, mail := none,
          response := stepError 400
            "Cannot create registration starting from step other than 1" }

/-- The `try` block of `saveRegistrationStep`. -/
def saveRegistrationStepTry (s : Store) (now : Nat) (mailOk : Bool) (body0 : StepBody) :
    Except Thrown (Outcome StepResponse) :=
  match normalizeStep1 body0 with
  | .error e => .error e
  | .ok body =>
    match body.step with
    | none =>
      .ok { store := s, mail := none, response := stepError 400 "Invalid step number" }
    | some step =>
      if step = 0 ∨ step < 1 ∨ step > 8 then
        .ok { store := s, mail := none,
              response := stepError 400 "Invalid step number" }
      else
        match body.stepData with
        | none =>
          .ok { store := s, mail := none,
                response := stepError 400 "No data provided for this step" }
        | some sd =>
          match sd.formDataStructured with
          | none => .error .typeError
          | some fds =>
            match fds.personalInfo with
            | none => .error .typeError
            | some pi =>
              match findOneByEmail s.registrations (Obj.get? pi "email") with
              | some existing => updateExisting s now mailOk step fds existing
              | none => createNew s now step fds pi

/-- The `catch` block of `saveRegistrationStep`: nothing was written. -/
def saveRegistrationStepCatch (s : Store) (e : Thrown) : Outcome StepResponse :=
  { store := s, mail := none,
    response :=
      match e with
      | .duplicateKey =>
          stepError 400 "A registration with this email or contact number already exists"
      | .validationError => stepError 400 "Validation error"
      | _ => stepError 500 "Internal server error" }

/-- The handler `saveRegistrationStep(req, res)`: `now` is the clock, `mailOk`
whether the confirmation e-mail helper returns rather than throws, `id` the
route parameter (read and never used), `body` the request body. -/
def saveRegistrationStep (s : Store) (now : Nat) (mailOk : Bool) (id : String)
    (body : StepBody) : Outcome StepResponse :=
  let _ := id
  match saveRegistrationStepTry s now mailOk body with
  | .ok out => out
  | .error e => saveRegistrationStepCatch s e

/-! ## `transactionRegister` and `processPayment` -/

/-- The body of a payment request, after the destructuring defaults
`isAnonymous = false` and `purpose = "registration"` have not yet been applied. -/
structure PaymentBody where
  amount : Int
  name : Option JVal
  email : Option JVal
  contact : Option JVal
  paymentMethod : Option JVal
  paymentGatewayResponse : Option JVal
  isAnonymous : Option Bool
  purpose : Option String
  notes : Option JVal

/-- The JSON response of the two payment handlers. -/
structure PaymentResponse where
  status : Nat
  message : String
  transactionId : Option String
  registrationId : Option Nat
  amount : Option Int
  paymentEmailSent : Option Bool

/-- An error response of a payment handler. -/
def paymentError (status : Nat) (message : String) : PaymentResponse :=
  { status := status, message := message, transactionId := none,
    registrationId := none, amount := none, paymentEmailSent := none }

/-- The generated id `TXN-<Date.now()>-<random below 10000>`. -/
def makeTransactionId (now rand : Nat) : String :=
  "TXN-" ++ toString now ++ "-" ++ toString rand

/-- Lines 1235-1241: the `$set` of `transactionRegister`. -/
def transactionSet (transactionId : String) (amount : Int) (now : Nat)
    (r : Registration) : Registration :=
  { r with
    paymentStatus := some (.str "Completed"),
    paymentId := some (.str transactionId),
    contributionAmount := some (.num amount),
    willContribute := some (.bool true),
    lastUpdated := some now }

/-- The handler `transactionRegister(req, res)`.  `id` is the route parameter,
`none` when it is not a well-formed document id (the update then throws a cast
error after the transaction has been written). -/
def transactionRegister (s : Store) (now rand : Nat) (mailOk : Bool) (id : Option Nat)
    (body : PaymentBody) : Outcome PaymentResponse :=
  let isAnonymous := body.isAnonymous.getD false
  let purpose := body.purpose.getD "registration"
  let transactionId := makeTransactionId now rand
  let transaction : Transaction :=
    { transactionId := transactionId, registrationId := id, name := body.name,
      email := body.email, contact := body.contact, amount := body.amount,
      paymentMethod := body.paymentMethod,
      paymentGatewayResponse := body.paymentGatewayResponse,
      isAnonymous := isAnonymous, status := "completed", purpose := purpose,
      notes := body.notes, completedAt := none }
  let s1 : Store := { s with transactions := s.transactions ++ [transaction] }
  let ok : PaymentResponse :=
    { status := 200, message := "Transaction registered successfully",
      transactionId := some transactionId, registrationId := id,
      amount := some body.amount, paymentEmailSent := none }
  if purpose = "registration" then
    match id with
    | none => { store := s1, mail := none, response := paymentError 500 "Internal server error" }
    | some i =>
      let upd := transactionSet transactionId body.amount now
      let registration := (findById s1.registrations i).map upd
      let s2 : Store := { s1 with registrations := updateById i upd s1.registrations }
      { store := s2,
        mail := if registration.isSome && !isAnonymous then some mailOk else none,
        response := ok }
  else { store := s1, mail := none, response := ok }

/-- Lines 595-602: the fields `processPayment` assigns before `save()`.  The
gateway response is kept as the value itself rather than as its JSON text. -/
def processPaymentSet (transactionId : String) (body : PaymentBody) (now : Nat)
    (r : Registration) : Registration :=
  { r with
    paymentStatus := some (.str "Completed"),
    paymentId := some (.str transactionId),
    paymentDetails := body.paymentGatewayResponse,
    willContribute := some (.bool true),
    contributionAmount := some (.num body.amount),
    lastUpdated := some now }

/-- The handler `processPayment(req, res)`. -/
def processPayment (s : Store) (now rand : Nat) (mailOk : Bool) (id : Option Nat)
    (body : PaymentBody) : Outcome PaymentResponse :=
  let isAnonymous := body.isAnonymous.getD false
  let purpose := body.purpose.getD "registration"
  match id with
  | none => { store := s, mail := none, response := paymentError 400 "Invalid registration ID" }
  | some i =>
    match findById s.registrations i with
    | none => { store := s, mail := none, response := paymentError 404 "Registration not found" }
    | some registration =>
      let transactionId := makeTransactionId now rand
      let transaction : Transaction :=
        { transactionId := transactionId, registrationId := some i,
          name := registration.name, email := some (.str registration.email),
          contact := some (.str registration.contactNumber), amount := body.amount,
          paymentMethod := body.paymentMethod,
          paymentGatewayResponse := body.paymentGatewayResponse,
          isAnonymous := isAnonymous, status := "completed", purpose := purpose,
          notes := body.notes, completedAt := some now }
      let upd := processPaymentSet transactionId body now
      let s2 : Store :=
        { s with
          transactions := s.transactions ++ [transaction],
          registrations := updateById i upd s.registrations }
      { store := s2,
        mail := if !isAnonymous then some mailOk else none,
        response :=
          { status := 200, message := "Payment processed successfully",
            transactionId := some transactionId, registrationId := some i,
            amount := some body.amount, paymentEmailSent := some (!isAnonymous) } }

/-! ## `handlePayment` (the contribution policy of the registration form) -/

/-- One age bracket of the attendee counter: vegetarian and non-vegetarian
counts, each possibly unset. -/
structure Group where
  veg : Option Int
  nonVeg : Option Int

/-- The form value `attendees`. -/
structure Attendees where
  adults : Option Group
  teens : Option Group
  children : Option Group
  toddlers : Option Group

/-- The form state `handlePayment` reads: `contributionAmount` is the watched
amount, `yearOfPassing` the result of `parseInt` (`none` for `NaN`). -/
structure PaymentForm where
  contributionAmount : Option Int
  hasPreviousContribution : Bool
  attendees : Option Attendees
  yearOfPassing : Option Int
  isAttending : Bool

/-- What `handlePayment` does. -/
inductive PaymentAction where
  | invalidAmount
  | financialDifficultyDialog
  | proceedWithPayment (amount : Int)
deriving DecidableEq

/-- The expression `x || 0` on a count. -/
def orZero (x : Option Int) : Int := x.getD 0

/-- The expression `(attendees?.g?.veg || 0) + (attendees?.g?.nonVeg || 0)`. -/
def groupCount (g : Option Group) : Int :=
  orZero (g.bind Group.veg) + orZero (g.bind Group.nonVeg)

/-- Line 1101: `yearOfPassing >= 2022 && yearOfPassing <= 2025`. -/
def isRecentGraduate (yearOfPassing : Option Int) : Bool :=
  match yearOfPassing with
  | some y => decide (y ≥ 2022) && decide (y ≤ 2025)
  | none => false

/-- Lines 1103-1115: `totalExpense`. -/
def totalExpense (attendees : Option Attendees) (yearOfPassing : Option Int) : Int :=
  let adultCount := groupCount (attendees.bind Attendees.adults)
  let teenCount := groupCount (attendees.bind Attendees.teens)
  let childCount := groupCount (attendees.bind Attendees.children)
  if isRecentGraduate yearOfPassing then
    (adultCount - 1) * 500 + 350 + teenCount * 350 + childCount * 350
  else
    adultCount * 500 + teenCount * 350 + childCount * 350

/-- Lines 1087-1128: `handlePayment`, as the action taken and the value written
to the form field `proposedAmount` (`none` when it is not written). -/
def handlePayment (f : PaymentForm) : PaymentAction × Option Int :=
  let contributionAmount := orZero f.contributionAmount
  if contributionAmount ≤ 0 then (.invalidAmount, none)
  else if !f.hasPreviousContribution then
    let total := totalExpense f.attendees f.yearOfPassing
    if f.isAttending ∧ contributionAmount > 0 ∧ contributionAmount < total then
      (.financialDifficultyDialog, some total)
    else (.proceedWithPayment contributionAmount, some total)
  else (.proceedWithPayment contributionAmount, none)

/-! ## `sendOtp` and `verifyOtp` -/

/-- The body of a verification request: the three fields are strings, `none`
when the field is missing. -/
structure OtpBody where
  email : Option String
  contactNumber : Option String
  otp : Option String

/-- JavaScript truthiness of a possibly missing string. -/
def truthyStr : Option String → Bool
  | none => false
  | some v => v != ""

/-- The JSON response of `sendOtp`. -/
structure SendOtpResponse where
  status : Nat
  message : String
  otpId : Option Nat
  otp : Option String

/-- The JSON response of `verifyOtp`; `registrationId` is `none` for `null`. -/
structure VerifyOtpResponse where
  status : Nat
  message : String
  verified : Option Bool
  verificationToken : Option String
  existingRegistration : Option Bool
  registrationId : Option Nat

/-- An error response of `sendOtp`. -/
def sendOtpError (status : Nat) (message : String) : SendOtpResponse :=
  { status := status, message := message, otpId := none, otp := none }

/-- An error response of `verifyOtp`. -/
def verifyOtpError (status : Nat) (message : String) : VerifyOtpResponse :=
  { status := status, message := message, verified := none, verificationToken := none,
    existingRegistration := none, registrationId := none }

/-- The filter `{ $or: [{ email }, { contactNumber }] }` on a verification
record. -/
def otpMatches (email contact : String) (o : OtpVerification) : Bool :=
  o.email == email || o.contactNumber == contact

/-- `OtpVerification.findOne({ $or: [{ email }, { contactNumber }] })`. -/
def findOneOtp (otps : List OtpVerification) (email contact : String) :
    Option OtpVerification :=
  otps.find? (otpMatches email contact)

/-- `doc.save()` on the document a `findOne` with filter `p` returned: that
document, the first match, is written back in place. -/
def saveFound (p : OtpVerification → Bool) (doc : OtpVerification) :
    List OtpVerification → List OtpVerification
  | [] => []
  | o :: os => if p o then doc :: os else o :: saveFound p doc os

/-- `doc.deleteOne()` on the document a `findOne` with filter `p` returned. -/
def deleteFound (p : OtpVerification → Bool) :
    List OtpVerification → List OtpVerification
  | [] => []
  | o :: os => if p o then os else o :: deleteFound p os

/-- Modelled from the spec: the schema defaults of a new verification record
(`models/OtpVerification.js` is not in the source tree).  "`attempts` resets to
0 whenever a new code is issued", `verified` is false until a code is checked,
and `createdAt` is the time of creation. -/
def newOtpVerification (id : Nat) (email contact otp : String) (now : Nat)
    (ipAddress userAgent : Option String) : OtpVerification :=
  { id := id, email := email, contactNumber := contact, otp := otp, createdAt := now,
    verified := false, verifiedAt := none, attempts := 0,
    ipAddress := ipAddress, userAgent := userAgent }

/-- Lines 397-402: the fields `sendOtp` assigns to an existing record. -/
def reissue (found : OtpVerification) (otp : String) (now : Nat)
    (ipAddress userAgent : Option String) : OtpVerification :=
  { found with
    otp := otp, createdAt := now, verified := false, attempts := 0,
    ipAddress := ipAddress, userAgent := userAgent }

/-- The handler `sendOtp(req, res)`.  `otp` is the value of `generateOTP()`,
`emailOk` and `whatsappOk` tell whether `sendEmail` and `sendWhatsAppOtp` return
rather than throw, `production` whether `NODE_ENV` is `"production"`.  The
record is written before the two dispatches are awaited. -/
def sendOtp (s : Store) (now : Nat) (otp : String) (ipAddress userAgent : Option String)
    (emailOk whatsappOk production : Bool) (body : OtpBody) : Outcome SendOtpResponse :=
  if !truthyStr body.email || !truthyStr body.contactNumber then
    { store := s, mail := none,
      response := sendOtpError 400 "Email and contact number are required" }
  else
    let email := body.email.getD ""
    let contact := body.contactNumber.getD ""
    let doc : OtpVerification :=
      match findOneOtp s.otps email contact with
      | some found => reissue found otp now ipAddress userAgent
      | none => newOtpVerification s.nextId email contact otp now ipAddress userAgent
    let s1 : Store :=
      match findOneOtp s.otps email contact with
      | some _ => { s with otps := saveFound (otpMatches email contact) doc s.otps }
      | none => { s with otps := s.otps ++ [doc], nextId := s.nextId + 1 }
    if emailOk && whatsappOk then
      { store := s1, mail := some true,
        response :=
          { status := 200, message := "OTP sent successfully", otpId := some doc.id,
            otp := if production then none else some otp } }
    else
      { store := s1, mail := some false,
        response := sendOtpError 500 "Internal server error" }

/-- Line 474: `createdAt.getTime() + 60 * 60 * 1000 < now.getTime()`, times in
milliseconds. -/
def otpExpired (o : OtpVerification) (now : Nat) : Bool :=
  decide (o.createdAt + 60 * 60 * 1000 < now)

/-- `Registration.findOne({ $or: [{ email }, { contactNumber }] })`. -/
def findOneByEmailOrContact (regs : List Registration) (email contact : String) :
    Option Registration :=
  regs.find? (fun r => r.email == email || r.contactNumber == contact)

/-- The handler `verifyOtp(req, res)`; `token` is the value of
`crypto.randomBytes(32).toString("hex")`. -/
def verifyOtp (s : Store) (now : Nat) (token : String) (body : OtpBody) :
    Outcome VerifyOtpResponse :=
  if !truthyStr body.email || !truthyStr body.contactNumber || !truthyStr body.otp then
    { store := s, mail := none,
      response := verifyOtpError 400 "Email, contact number and OTP are required" }
  else
    let email := body.email.getD ""
    let contact := body.contactNumber.getD ""
    let otp := body.otp.getD ""
    match findOneOtp s.otps email contact with
    | none =>
      { store := s, mail := none,
        response :=
          verifyOtpError 404 "No OTP verification found with this email or contact number" }
    | some found =>
      if otpExpired found now then
        { store := s, mail := none, response := verifyOtpError 400 "OTP has expired" }
      else
        let attempts := found.attempts + 1
        if attempts > 5 then
          { store := { s with otps := deleteFound (otpMatches email contact) s.otps },
            mail := none,
            response :=
              verifyOtpError 400 "Maximum attempts exceeded. Please request a new OTP." }
        else if found.otp != otp then
          let doc : OtpVerification := { found with attempts := attempts }
          { store := { s with otps := saveFound (otpMatches email contact) doc s.otps },
            mail := none,
            response :=
              verifyOtpError 401
                ("Invalid OTP. " ++ toString (5 - attempts) ++ " attempts remaining.") }
        else
          let doc : OtpVerification :=
            { found with attempts := attempts, verified := true, verifiedAt := some now }
          let registration := findOneByEmailOrContact s.registrations email contact
          { store := { s with otps := saveFound (otpMatches email contact) doc s.otps },
            mail := none,
            response :=
              { status := 200, message := "OTP verified successfully",
                verified := some true, verificationToken := some token,
                existingRegistration := some registration.isSome,
                registrationId := registration.map Registration.id } }

/-! ## `FinancialDifficultyDialog` and the hardship fallback of the form -/

/-- The part of the registration form's state that the hardship flow touches:
two form values, the dialog flag, and a log of what was sent to the backend
(`savedSteps` for `saveStepToBackend`, `transactions` for
`registrationsApi.transactionRegister`). -/
structure FormState where
  registrationStatus : String
  paymentStatus : Option String
  showFinancialDifficultyDialog : Bool
  hasPreviousContribution : Bool
  currentStep : Nat
  savedSteps : List Nat
  transactions : Nat
  errorToasts : Nat
deriving DecidableEq

/-- Lines 966-987 and 909-963 of the form: `handleSubmitForm`, which refuses
unless a contribution was paid or the payment status is
`"financial-difficulty"`, and otherwise submits through `onSubmit`, which saves
the current step. -/
def handleSubmitForm (st : FormState) : FormState :=
  if !st.hasPreviousContribution && st.paymentStatus != some "financial-difficulty" then
    { st with errorToasts := st.errorToasts + 1 }
  else
    { st with savedSteps := st.savedSteps ++ [st.currentStep] }

/-- The callback props of a component: attribute name and handler. -/
abbrev Props := List (String × (FormState → FormState))

/-- Lines 3314-3339 of the form: the callbacks it passes to
`FinancialDifficultyDialog`, under the attribute names `onClose`, `onConfirm`
and `onAddMoreAmount`. -/
def formDialogProps : Props :=
  [("onClose", fun st => { st with showFinancialDifficultyDialog := false }),
   ("onConfirm", fun st =>
      handleSubmitForm
        { st with registrationStatus := "incomplete",
                  paymentStatus := some "financial-difficulty" }),
   ("onAddMoreAmount", fun st => { st with showFinancialDifficultyDialog := false })]

/-- Calling a destructured prop: a prop that was not passed is `undefined`, and
calling it throws a `TypeError`. -/
def callProp (props : Props) (name : String) (st : FormState) : Except Thrown FormState :=
  match props.lookup name with
  | some f => .ok (f st)
  | none => .error .typeError

/-- The result of a dialog handler: its own flag `showSecondDialog`, the form
state, and whether a callback threw. -/
structure DialogResult where
  showSecondDialog : Bool
  form : FormState
  threw : Bool
deriving DecidableEq

/-- `handleFirstDialogCancel` ("Submit Despite Financial Difficulty"): the
second dialog is shown. -/
def handleFirstDialogCancel (st : FormState) : DialogResult :=
  { showSecondDialog := true, form := st, threw := false }

/-- `handleSecondDialogConfirm` ("Submit with Current Amount"): the dialog is
closed through `onClose`, a toast is shown, and then the destructured prop
`onProceedWithPayment` is called. -/
def handleSecondDialogConfirm (props : Props) (st : FormState) : DialogResult :=
  match callProp props "onClose" st with
  | .error _ => { showSecondDialog := false, form := st, threw := true }
  | .ok st1 =>
    match callProp props "onProceedWithPayment" st1 with
    | .ok st2 => { showSecondDialog := false, form := st2, threw := false }
    | .error _ => { showSecondDialog := false, form := st1, threw := true }

/-- Lines 1465-1468 of the form: the options of the `yearOfPassing` select,
`Array.from({ length: 2026 - 1993 }, (_, i) => 1993 + i)`. -/
def yearOptions : List Int :=
  (List.range (2026 - 1993)).map (fun (i : Nat) => 1993 + (i : Int))

/-! ## Auxiliary definitions used in the statements -/

/-- The value of the last occurrence of a key in a list of properties. -/
def Obj.getLast? : Obj → String → Option JVal
  | [], _ => none
  | (k', v) :: rest, k =>
      match Obj.getLast? rest k with
      | some w => some w
      | none => if k' = k then some v else none

/-- The names of the nine sections. -/
inductive SectionName where
  | verification | personalInfo | professional | eventAttendance | sponsorship
  | transportation | accommodation | optional | financial
deriving DecidableEq

/-- The section of a form with a given name. -/
def FormDataStructured.get (F : FormDataStructured) : SectionName → Option Obj
  | .verification => F.verification
  | .personalInfo => F.personalInfo
  | .professional => F.professional
  | .eventAttendance => F.eventAttendance
  | .sponsorship => F.sponsorship
  | .transportation => F.transportation
  | .accommodation => F.accommodation
  | .optional => F.optional
  | .financial => F.financial

/-- The payload form as the handler merges it: the form received, with the
step-1 rewrite of `personalInfo` applied when the step is 1. -/
def payloadAsMerged (n : Int) (P : FormDataStructured) : FormDataStructured :=
  if n = 1 then
    match P.personalInfo with
    | some pi => { P with personalInfo := some (normalizePersonalInfo pi) }
    | none => P
  else P

/-- A stored document with its `lastUpdated` timestamp blanked, for comparing
documents up to that timestamp. -/
def eraseLastUpdated (r : Registration) : Registration :=
  { r with lastUpdated := none }

/-- One payment-recording call on a registration: through `processPayment` or
through `transactionRegister`, with its clock, random suffix, mail result and
body. -/
structure PayCall where
  viaProcessPayment : Bool
  now : Nat
  rand : Nat
  mailOk : Bool
  body : PaymentBody

/-- The purpose of a call after the destructuring default. -/
def PayCall.purpose (c : PayCall) : String := c.body.purpose.getD "registration"

/-- Run one payment-recording call for registration `i`. -/
def recordPayment (s : Store) (i : Nat) (c : PayCall) : Outcome PaymentResponse :=
  if c.viaProcessPayment then processPayment s c.now c.rand c.mailOk (some i) c.body
  else transactionRegister s c.now c.rand c.mailOk (some i) c.body

/-- Run a sequence of payment-recording calls for registration `i`, returning
the final store and the status of every response. -/
def recordPayments (s : Store) (i : Nat) : List PayCall → Store × List Nat
  | [] => (s, [])
  | c :: cs =>
    let out := recordPayment s i c
    let rest := recordPayments out.store i cs
    (rest.1, out.response.status :: rest.2)

/-- The stored `contributionAmount` of the first registration with id `i`. -/
def storedContribution (s : Store) (i : Nat) : Option JVal :=
  match findById s.registrations i with
  | none => none
  | some r => r.contributionAmount

/-- A payment body with an amount and the defaults for everything else. -/
def payBody (amount : Int) : PaymentBody :=
  { amount := amount, name := none, email := none, contact := none,
    paymentMethod := some (.str "razorpay"), paymentGatewayResponse := none,
    isAnonymous := none, purpose := some "registration", notes := none }

/-! ## Concrete data for the instances and counterexamples -/

/-- A stored `personalInfo` section. -/
def exPersonalInfo : Obj :=
  [("email", .str "a@x.com"), ("name", .str "Asha"), ("country", .str "IN"),
   ("stateUT", .str "Kerala"), ("district", .str "Kollam")]

/-- A stored form with three sections filled in. -/
def exForm : FormDataStructured :=
  { verification := none,
    personalInfo := some exPersonalInfo,
    professional := some [("profession", .str "Engineer"), ("keySkills", .str "Lean")],
    eventAttendance := none,
    sponsorship := none,
    transportation := some [("modeOfTransport", .str "Train"), ("groupSize", .num 2)],
    accommodation := none,
    optional := none,
    financial := none }

/-- A registration that has saved step 1 and has 500 recorded as contribution. -/
def exRegistration : Registration :=
  { blankRegistration 1 with
    email := "a@x.com", contactNumber := "+911234567890",
    name := some (.str "Asha"), contributionAmount := some (.num 500),
    currentStep := some (.num 1), step1Complete := true,
    formDataStructured := some exForm }

/-- A store holding that registration only: no verification record, no
transaction. -/
def exStore : Store :=
  { registrations := [exRegistration], otps := [], transactions := [], nextId := 2 }

/-- A form with no section but `personalInfo`. -/
def formOfPersonalInfo (pi : Obj) : FormDataStructured :=
  { verification := none, personalInfo := some pi, professional := none,
    eventAttendance := none, sponsorship := none, transportation := none,
    accommodation := none, optional := none, financial := none }

/-- A save-step request body for a given step and form. -/
def stepBody (n : Int) (P : FormDataStructured) : StepBody :=
  { step := some n, stepData := some { formDataStructured := some P },
    verificationToken := none }

/-- A verified verification record for a new e-mail and the contact number of
the example registration. -/
def exOtp : OtpVerification :=
  { id := 5, email := "b@x.com", contactNumber := "+911234567890", otp := "123456",
    createdAt := 0, verified := true, verifiedAt := some 1, attempts := 1,
    ipAddress := none, userAgent := none }

/-- The example store with that verification record. -/
def exStoreVerified : Store := { exStore with otps := [exOtp] }

/-- The first-step payload of a given e-mail and contact number. -/
def step1Form (email contact : String) : FormDataStructured :=
  formOfPersonalInfo
    [("name", .str "Mallory"), ("email", .str email), ("contactNumber", .str contact),
     ("country", .str "IN"), ("stateUT", .str "Kerala"), ("district", .str "Kollam")]

/-- A step-3 payload: the lookup e-mail and an `eventAttendance` section. -/
def exStep3Form : FormDataStructured :=
  { formOfPersonalInfo [("email", .str "a@x.com")] with
    eventAttendance := some [("isAttending", .bool true), ("attendees", .obj [])] }

/-- The form value `attendees` for given natural counts (vegetarian and
non-vegetarian adults, teens, children, toddlers). -/
def mkAttendees (av an tv tn cv cn dv dn : Nat) : Attendees :=
  { adults := some { veg := some av, nonVeg := some an },
    teens := some { veg := some tv, nonVeg := some tn },
    children := some { veg := some cv, nonVeg := some cn },
    toddlers := some { veg := some dv, nonVeg := some dn } }

/-- The form state of a first payment. -/
def firstPayment (amount : Option Int) (attendees : Attendees) (year : Option Int)
    (isAttending : Bool) : PaymentForm :=
  { contributionAmount := amount, hasPreviousContribution := false,
    attendees := some attendees, yearOfPassing := year, isAttending := isAttending }

/-- The value of field `f` of section `S` in the stored form of the first
registration with id `i`. -/
def storedField (s : Store) (i : Nat) (S : SectionName) (f : String) : Option JVal :=
  match findById s.registrations i with
  | none => none
  | some r =>
    match r.formDataStructured with
    | none => none
    | some F => Obj.get? ((F.get S).getD []) f

/-- One call of the verification gate: a `sendOtp` or a `verifyOtp` request
with the values of its environment. -/
inductive OtpCall where
  | send (now : Nat) (otp : String) (ipAddress userAgent : Option String)
      (emailOk whatsappOk production : Bool) (body : OtpBody)
  | verify (now : Nat) (token : String) (body : OtpBody)

/-- The store after one call of the verification gate. -/
def runOtpCall (s : Store) : OtpCall → Store
  | .send now otp ip ua emailOk whatsappOk production body =>
      (sendOtp s now otp ip ua emailOk whatsappOk production body).store
  | .verify now token body => (verifyOtp s now token body).store

/-- The store after a sequence of calls of the verification gate. -/
def runOtpCalls (s : Store) (calls : List OtpCall) : Store :=
  calls.foldl runOtpCall s

/-- The store with no document. -/
def emptyStore : Store :=
  { registrations := [], otps := [], transactions := [], nextId := 1 }

/-- One `saveRegistrationStep` request with the values of its environment. -/
structure StepCall where
  now : Nat
  mailOk : Bool
  id : String
  body : StepBody

/-- The store after a sequence of `saveRegistrationStep` requests. -/
def runSteps (s : Store) (calls : List StepCall) : Store :=
  calls.foldl (fun st c => (saveRegistrationStep st c.now c.mailOk c.id c.body).store) s

/-- The stored `currentStep` of the first registration with id `i`. -/
def storedCurrentStep (s : Store) (i : Nat) : Option JVal :=
  match findById s.registrations i with
  | none => none
  | some r => r.currentStep

/-- A verification request for a pair and a code. -/
def otpBody (email contact otp : String) : OtpBody :=
  { email := some email, contactNumber := some contact, otp := some otp }

/-- The stores after a run of `verifyOtp` calls with the given times, tokens
and codes for one pair. -/
def verifyAll (s : Store) (email contact : String) (tries : List (Nat × String × String)) :
    Store :=
  tries.foldl (fun st t => (verifyOtp st t.1 t.2.1 (otpBody email contact t.2.2)).store) s

/-- Five `verifyOtp` tries with the wrong code 000000, at times 2000..6000 ms. -/
def fiveWrong : List (Nat × String × String) :=
  [(2000, "t1", "000000"), (3000, "t2", "000000"), (4000, "t3", "000000"),
   (5000, "t4", "000000"), (6000, "t5", "000000")]

/-- A run of the gate from the empty store: a code is issued, two wrong codes
are tried, and a new code is requested. -/
def exGateRun : List OtpCall :=
  [.send 1000 "123456" none none true true true (otpBody "n@x.com" "+915555555555" ""),
   .verify 2000 "t1" (otpBody "n@x.com" "+915555555555" "000000"),
   .verify 3000 "t2" (otpBody "n@x.com" "+915555555555" "111111"),
   .send 4000 "654321" none none true false true (otpBody "n@x.com" "+915555555555" "")]

/-- The record stored after that run. -/
def exGateRecord : OtpVerification :=
  ((runOtpCalls emptyStore exGateRun).otps.head?).getD exOtp

/-- The store after two successful `sendOtp` calls for one pair: code `c1` at
time `t1`, then code `c2` at time `t2`. -/
def requestTwice (s : Store) (email contact : String) (ip ua : Option String)
    (production : Bool) (t1 : Nat) (c1 : String) (t2 : Nat) (c2 : String) : Store :=
  (sendOtp
    (sendOtp s t1 c1 ip ua true true production
      { email := some email, contactNumber := some contact, otp := none }).store
    t2 c2 ip ua true true production
    { email := some email, contactNumber := some contact, otp := none }).store

/-- A freshly issued verification record: code 123456 issued at time 1000 ms. -/
def exOtpIssued : OtpVerification :=
  newOtpVerification 7 "n@x.com" "+915555555555" "123456" 1000 none none

/-- A store holding that record only. -/
def exStoreIssued : Store :=
  { registrations := [], otps := [exOtpIssued], transactions := [], nextId := 8 }

/-- A store with a verified record for a new e-mail and no registration. -/
def exStoreGate : Store :=
  { registrations := [],
    otps := [{ exOtp with email := "n@x.com", contactNumber := "+915555555555" }],
    transactions := [], nextId := 8 }

/-- A step-8 payload for the e-mail `n@x.com`. -/
def exStep8Form : FormDataStructured :=
  { formOfPersonalInfo [("email", .str "n@x.com")] with
    financial := some [("willContribute", .bool true), ("contributionAmount", .num 2000)] }

/-- The two requests of a short registration: step 1 for `n@x.com`, then
step 8. -/
def exShortRun : List StepCall :=
  [⟨10, true, "new", stepBody 1 (step1Form "n@x.com" "+915555555555")⟩,
   ⟨20, true, "8", stepBody 8 exStep8Form⟩]

/-- The registration stored after that run. -/
def exCompleted : Registration :=
  ((runSteps exStoreGate exShortRun).registrations.head?).getD (blankRegistration 0)

/-- The form on step 8 when the hardship dialog has just been opened: the
default `registrationStatus` "complete", no payment status, no contribution
made yet, nothing saved, no transaction. -/
def exHardshipForm : FormState :=
  { registrationStatus := "complete", paymentStatus := none,
    showFinancialDifficultyDialog := true, hasPreviousContribution := false,
    currentStep := 8, savedSteps := [], transactions := 0, errorToasts := 0 }

/-- The props of the form with its `onConfirm` handler also passed under the
name the dialog reads, `onProceedWithPayment`. -/
def rewiredDialogProps : Props :=
  match formDialogProps.lookup "onConfirm" with
  | some f => ("onProceedWithPayment", f) :: formDialogProps
  | none => formDialogProps

/-- A payment form for a first contribution by an attending alumnus of the
given year with the given number of adults. -/
def yearForm (y amount : Int) (adults : Nat) : PaymentForm :=
  { contributionAmount := some amount, hasPreviousContribution := false,
    attendees := some (mkAttendees adults 0 0 0 0 0 0 0),
    yearOfPassing := some y, isAttending := true }

/-- The store after a code was requested for `a@x.com` with one contact number
at time 1000 and then, at time 2000, for the same e-mail with another contact
number. -/
def exRebindStore : Store :=
  (sendOtp
    (sendOtp emptyStore 1000 "111111" none none true true true
      (otpBody "a@x.com" "+911111111111" "")).store
    2000 "222222" none none true true true (otpBody "a@x.com" "+912222222222" "")).store

/-- What a verification record binds and carries: e-mail, contact number, code,
attempts, verified. -/
def otpSummary (o : OtpVerification) : String × String × String × Nat × Bool :=
  (o.email, o.contactNumber, o.otp, o.attempts, o.verified)

/-- Property read `v[g]` on a possibly undefined value: defined only when the
value is an object that has the property. -/
def subField (v : Option JVal) (g : String) : Option JVal :=
  match v with
  | some (.obj o) => Obj.get? o g
  | _ => none

/-- A stored form whose `accommodation.hotelRequirements` is an object with two
sub-fields. -/
def exNestedForm : FormDataStructured :=
  { exForm with
    accommodation :=
      some [("hotelRequirements", .obj [("adults", .num 2), ("children", .num 1)])] }

/-- The example registration with that form. -/
def exNestedRegistration : Registration :=
  { exRegistration with formDataStructured := some exNestedForm }

/-- A store holding that registration only. -/
def exNestedStore : Store :=
  { registrations := [exNestedRegistration], otps := [], transactions := [], nextId := 2 }

/-- A step-6 payload whose `accommodation.hotelRequirements` carries `adults`
only. -/
def exNestedPayload : FormDataStructured :=
  { formOfPersonalInfo [("email", .str "a@x.com")] with
    accommodation := some [("hotelRequirements", .obj [("adults", .num 3)])] }

/-- The flag `step{k}Complete` of a stored document (`false` for a `k` outside
1..8). -/
def stepFlag (k : Int) (r : Registration) : Bool :=
  if k = 1 then r.step1Complete
  else if k = 2 then r.step2Complete
  else if k = 3 then r.step3Complete
  else if k = 4 then r.step4Complete
  else if k = 5 then r.step5Complete
  else if k = 6 then r.step6Complete
  else if k = 7 then r.step7Complete
  else if k = 8 then r.step8Complete
  else false

/-- The root-level fields that no save of a step 2..8 is authoritative for. -/
def untouchedFields (r : Registration) :
    Nat × Option JVal × Option JVal × String × String × Option JVal × Option JVal ×
    Option JVal × Option JVal × Option JVal × Option JVal × Option JVal × Option JVal ×
    Option JVal × Option Nat :=
  (r.id, r.registrationType, r.name, r.email, r.contactNumber, r.country, r.school,
   r.yearOfPassing, r.emailVerified, r.captchaVerified, r.verificationQuizPassed,
   r.paymentStatus, r.paymentId, r.paymentDetails, r.registrationDate)

/-- The number a stored amount stands for, as in `contributionAmount || 0`. -/
def amountOf : Option JVal → Int
  | some (.num n) => n
  | _ => 0

/-- A step-8 payload for `a@x.com` with a contribution of 100. -/
def exLowerForm : FormDataStructured :=
  { formOfPersonalInfo [("email", .str "a@x.com")] with
    financial := some [("willContribute", .bool true), ("contributionAmount", .num 100)] }

/-- No two verification records share an e-mail or a contact number. -/
def distinctIds (l : List OtpVerification) : Prop :=
  l.Pairwise (fun a b => a.email ≠ b.email ∧ a.contactNumber ≠ b.contactNumber)

/-- The store after a code was requested for (`a@x.com`, `+911111111111`) at
time 1000 and for (`b@x.com`, `+912222222222`) at time 1500. -/
def exTwoRecords : Store :=
  (sendOtp
    (sendOtp emptyStore 1000 "111111" none none true true true
      (otpBody "a@x.com" "+911111111111" "")).store
    1500 "222222" none none true true true (otpBody "b@x.com" "+912222222222" "")).store

/-- That store after five wrong codes and then the first record's code, all for
the pair (`a@x.com`, `+912222222222`). -/
def exTwoRecordsAfterSix : Store :=
  (verifyOtp (verifyAll exTwoRecords "a@x.com" "+912222222222" fiveWrong) 7000 "t6"
    (otpBody "a@x.com" "+912222222222" "111111")).store

/-! ## Lemmas on objects -/

theorem get?_setField (o : Obj) (k k' : String) (v : JVal) :
    Obj.get? (setField o k v) k' = if k = k' then some v else Obj.get? o k' := by
  induction o with
  | nil => simp [setField, Obj.get?]
  | cons p rest ih =>
    obtain ⟨a, b⟩ := p
    by_cases hak : a = k
    · subst hak
      by_cases h : a = k' <;> simp [setField, Obj.get?, h]
    · by_cases h : a = k'
      · subst h
        have : ¬ k = a := fun e => hak e.symm
        simp [setField, Obj.get?, hak, this]
      · simp [setField, Obj.get?, hak, h, ih]

theorem setField_same (o : Obj) (k : String) (v : JVal)
    (h : Obj.get? o k = some v) : setField o k v = o := by
  induction o with
  | nil => simp [Obj.get?] at h
  | cons p rest ih =>
    obtain ⟨a, b⟩ := p
    by_cases hak : a = k
    · simp [Obj.get?, hak] at h
      simp [setField, hak, h]
    · simp [Obj.get?, hak] at h
      simp [setField, hak, ih h]

theorem setField_setField (o : Obj) (k : String) (v w : JVal) :
    setField (setField o k v) k w = setField o k w := by
  induction o with
  | nil => simp [setField]
  | cons p rest ih =>
    obtain ⟨a, b⟩ := p
    by_cases hak : a = k <;> simp [setField, hak, ih]

theorem mem_keys_setField (o : Obj) (k j : String) (w : JVal)
    (h : k ∈ Obj.keys o ∨ k = j) : k ∈ Obj.keys (setField o j w) := by
  induction o with
  | nil =>
    rcases h with h | h
    · simp [Obj.keys] at h
    · simp [setField, Obj.keys, h]
  | cons p rest ih =>
    obtain ⟨a, b⟩ := p
    by_cases haj : a = j
    · rcases h with h | h
      · simpa [setField, haj, Obj.keys] using h
      · simp [setField, haj, Obj.keys, h]
    · simp only [setField, haj, if_false, Obj.keys, List.map_cons, List.mem_cons]
      rcases h with h | h
      · simp only [Obj.keys, List.map_cons, List.mem_cons] at h
        rcases h with h | h
        · exact Or.inl h
        · exact Or.inr (ih (Or.inl h))
      · exact Or.inr (ih (Or.inr h))

theorem setField_comm (o : Obj) (k j : String) (v w : JVal) (hkj : k ≠ j)
    (hk : k ∈ Obj.keys o) :
    setField (setField o k v) j w = setField (setField o j w) k v := by
  induction o with
  | nil => simp [Obj.keys] at hk
  | cons p rest ih =>
    obtain ⟨a, b⟩ := p
    by_cases hak : a = k
    · subst hak
      simp [setField, hkj]
    · by_cases haj : a = j
      · subst haj
        simp [setField, hak]
      · have hk2 : k ∈ Obj.keys rest := by
          simp only [Obj.keys, List.map_cons, List.mem_cons] at hk
          rcases hk with hk | hk
          · exact absurd hk.symm hak
          · exact hk
        simp [setField, hak, haj, ih hk2]

theorem getLast?_none_of_not_mem (b : Obj) (k : String) (h : k ∉ Obj.keys b) :
    Obj.getLast? b k = none := by
  induction b with
  | nil => rfl
  | cons p rest ih =>
    obtain ⟨a, c⟩ := p
    simp only [Obj.keys, List.map_cons, List.mem_cons, not_or] at h
    have hr : Obj.getLast? rest k = none := ih h.2
    have hak : ¬ a = k := fun e => h.1 e.symm
    simp [Obj.getLast?, hr, hak]

theorem getLast?_isSome_of_mem (b : Obj) (k : String) (h : k ∈ Obj.keys b) :
    ∃ v, Obj.getLast? b k = some v := by
  induction b with
  | nil => simp [Obj.keys] at h
  | cons p rest ih =>
    obtain ⟨a, c⟩ := p
    cases hr : Obj.getLast? rest k with
    | some w => exact ⟨w, by simp [Obj.getLast?, hr]⟩
    | none =>
      simp only [Obj.keys, List.map_cons, List.mem_cons] at h
      rcases h with h | h
      · subst h
        exact ⟨c, by simp [Obj.getLast?, hr]⟩
      · obtain ⟨v, hv⟩ := ih h
        rw [hv] at hr
        cases hr

theorem getLast?_eq_get?_of_nodup (b : Obj) (k : String) (hb : (Obj.keys b).Nodup) :
    Obj.getLast? b k = Obj.get? b k := by
  induction b with
  | nil => rfl
  | cons p rest ih =>
    obtain ⟨a, c⟩ := p
    simp only [Obj.keys, List.map_cons, List.nodup_cons] at hb
    by_cases hak : a = k
    · subst hak
      have hr : Obj.getLast? rest a = none := getLast?_none_of_not_mem rest a hb.1
      simp [Obj.getLast?, Obj.get?, hr]
    · have := ih hb.2
      simp only [Obj.getLast?, Obj.get?, hak, if_false, this]
      cases Obj.get? rest k <;> rfl

theorem mem_keys_of_get? (o : Obj) (k : String) (v : JVal) (h : Obj.get? o k = some v) :
    k ∈ Obj.keys o := by
  induction o with
  | nil => simp [Obj.get?] at h
  | cons p rest ih =>
    obtain ⟨a, c⟩ := p
    by_cases hak : a = k
    · simp [Obj.keys, hak]
    · simp only [Obj.get?, hak, if_false] at h
      simp [Obj.keys, List.mem_cons]
      exact Or.inr (by simpa [Obj.keys] using ih h)

/-- Reading a key after a spread: the last value written for it, else the value
in the target. -/
theorem get?_spread (a b : Obj) (k : String) :
    Obj.get? (spread a (some b)) k =
      match Obj.getLast? b k with
      | some v => some v
      | none => Obj.get? a k := by
  induction b generalizing a with
  | nil => simp [spread, Obj.getLast?]
  | cons p rest ih =>
    obtain ⟨j, w⟩ := p
    have hstep : spread a (some ((j, w) :: rest)) = spread (setField a j w) (some rest) := by
      simp [spread]
    rw [hstep, ih, get?_setField]
    cases hr : Obj.getLast? rest k with
    | some x => simp [Obj.getLast?, hr]
    | none => by_cases hjk : j = k <;> simp [Obj.getLast?, hr, hjk]

theorem get?_spread_of_not_mem (a b : Obj) (k : String) (h : k ∉ Obj.keys b) :
    Obj.get? (spread a (some b)) k = Obj.get? a k := by
  rw [get?_spread, getLast?_none_of_not_mem b k h]

theorem spread_shadow (a rest : Obj) (k : String) (v : JVal) (hk : k ∈ Obj.keys a)
    (hr : k ∈ Obj.keys rest) :
    spread (setField a k v) (some rest) = spread a (some rest) := by
  induction rest generalizing a with
  | nil => simp [Obj.keys] at hr
  | cons p rest ih =>
    obtain ⟨j, w⟩ := p
    have h1 : ∀ t : Obj, spread t (some ((j, w) :: rest)) = spread (setField t j w) (some rest) := by
      intro t; simp [spread]
    rw [h1, h1]
    by_cases hjk : j = k
    · subst hjk
      rw [setField_setField]
    · have hkj : k ≠ j := fun e => hjk e.symm
      have hr2 : k ∈ Obj.keys rest := by
        simp only [Obj.keys, List.map_cons, List.mem_cons] at hr
        rcases hr with hr | hr
        · exact absurd hr hkj
        · exact hr
      rw [setField_comm a k j v w hkj hk]
      exact ih (setField a j w) (mem_keys_setField a k j w (Or.inl hk)) hr2

theorem spread_fixed (b m : Obj)
    (h : ∀ k, k ∈ Obj.keys b → Obj.get? m k = Obj.getLast? b k) :
    spread m (some b) = m := by
  induction b with
  | nil => simp [spread]
  | cons p rest ih =>
    obtain ⟨j, w⟩ := p
    have h1 : spread m (some ((j, w) :: rest)) = spread (setField m j w) (some rest) := by
      simp [spread]
    have hrest : ∀ k, k ∈ Obj.keys rest → Obj.get? m k = Obj.getLast? rest k := by
      intro k hk
      have hk2 : k ∈ Obj.keys ((j, w) :: rest) := by
        simp only [Obj.keys, List.map_cons, List.mem_cons]
        exact Or.inr (by simpa [Obj.keys] using hk)
      obtain ⟨x, hx⟩ := getLast?_isSome_of_mem rest k hk
      rw [h k hk2, hx]
      simp [Obj.getLast?, hx]
    have hj : j ∈ Obj.keys ((j, w) :: rest) := by simp [Obj.keys]
    rw [h1]
    by_cases hjr : j ∈ Obj.keys rest
    · obtain ⟨x, hx⟩ := getLast?_isSome_of_mem ((j, w) :: rest) j hj
      have hjm : j ∈ Obj.keys m := mem_keys_of_get? m j x (by rw [h j hj, hx])
      rw [spread_shadow m rest j w hjm hjr]
      exact ih hrest
    · have hl : Obj.getLast? ((j, w) :: rest) j = some w := by
        simp [Obj.getLast?, getLast?_none_of_not_mem rest j hjr]
      rw [setField_same m j w (by rw [h j hj, hl])]
      exact ih hrest

/-- Writing the same properties a second time changes nothing. -/
theorem spread_idem (a : Obj) (b : Option Obj) : spread (spread a b) b = spread a b := by
  cases b with
  | none => rfl
  | some l =>
    apply spread_fixed
    intro k hk
    obtain ⟨x, hx⟩ := getLast?_isSome_of_mem l k hk
    rw [get?_spread, hx]

theorem mergeSection_idem (a b : Option Obj) :
    mergeSection (some (mergeSection a b)) b = mergeSection a b := by
  simp only [mergeSection, Option.getD_some]
  exact spread_idem _ b

theorem mergeFormDataStructured_idem (F P : FormDataStructured) :
    mergeFormDataStructured (mergeFormDataStructured F P) P = mergeFormDataStructured F P := by
  simp only [mergeFormDataStructured, mergeSection_idem]

/-! ## Lemmas on the store -/

theorem setStepComplete_id (n : Int) (r : Registration) : (setStepComplete n r).id = r.id := by
  unfold setStepComplete; split_ifs <;> rfl

theorem setStepComplete_email (n : Int) (r : Registration) :
    (setStepComplete n r).email = r.email := by
  unfold setStepComplete; split_ifs <;> rfl

theorem setStepComplete_form (n : Int) (r : Registration) :
    (setStepComplete n r).formDataStructured = r.formDataStructured := by
  unfold setStepComplete; split_ifs <;> rfl

theorem applySet_id (c : CleanedData) (r : Registration) : (applySet c r).id = r.id := by
  simp [applySet, setStepComplete_id]

theorem applySet_form (c : CleanedData) (r : Registration) :
    (applySet c r).formDataStructured = setOpt c.formDataStructured r.formDataStructured := by
  simp [applySet, setStepComplete_form]

theorem updateCleanedData_email (now : Nat) (n : Int) (P : FormDataStructured)
    (r : Registration) : (updateCleanedData now n P r).email = none := by
  unfold updateCleanedData buildCleanedData
  simp only [Bool.true_eq_false, and_false, if_false]
  split_ifs <;> rfl

theorem findById_updateById (f : Registration → Registration) (hf : ∀ r, (f r).id = r.id)
    (i : Nat) (l : List Registration) :
    findById (updateById i f l) i = (findById l i).map f := by
  induction l with
  | nil => rfl
  | cons x xs ih =>
    by_cases hx : x.id = i
    · simp [updateById, findById, hx, hf]
    · have hx2 : (x.id == i) = false := by simpa using hx
      simpa [updateById, findById, hx2] using ih

theorem findOneByEmail_updateById (f : Registration → Registration)
    (hem : ∀ r, (f r).email = r.email)
    (l : List Registration) (e : String) (r : Registration)
    (hfind : findOneByEmail l (some (.str e)) = some r)
    (hr : findById l r.id = some r) :
    findOneByEmail (updateById r.id f l) (some (.str e)) = some (f r) := by
  induction l with
  | nil => simp [findOneByEmail] at hfind
  | cons x xs ih =>
    simp only [findOneByEmail, List.find?_cons] at hfind
    simp only [findById, List.find?_cons] at hr
    by_cases hxe : x.email = e
    · have hxe2 : (x.email == e) = true := by simpa using hxe
      rw [hxe2] at hfind
      have hxr : x = r := by simpa using hfind
      subst hxr
      simp [updateById, findOneByEmail, hem, hxe]
    · have hxe2 : (x.email == e) = false := by simpa using hxe
      rw [hxe2] at hfind
      have hre : r.email = e := by
        have := List.find?_some hfind
        simpa using this
      by_cases hxi : x.id = r.id
      · have hxi2 : (x.id == r.id) = true := by simpa using hxi
        rw [hxi2] at hr
        have hxr : x = r := by simpa using hr
        exact absurd (hxr ▸ hre) hxe
      · have hxi2 : (x.id == r.id) = false := by simpa using hxi
        rw [hxi2] at hr
        have h := ih (by simpa [findOneByEmail] using hfind) (by simpa [findById] using hr)
        simpa [updateById, hxi2, findOneByEmail, hxe] using h

/-! ## The update path of `saveRegistrationStep` -/

theorem normalizeStep1_step (body body' : StepBody) (h : normalizeStep1 body = .ok body') :
    body'.step = body.step := by
  unfold normalizeStep1 at h
  split at h
  · split at h
    · cases h
    · split at h
      · cases h
      · split at h
        · cases h
        · cases h; rfl
  · cases h; rfl

theorem normalizeStep1_of_ne (body : StepBody) (h : body.step ≠ some 1) :
    normalizeStep1 body = .ok body := by
  simp [normalizeStep1, h]

/-- The update path in one equation: when the (normalised) payload carries the
e-mail of a stored registration, the first document with that registration's id
receives `$set: cleanedData` and the call answers 200. -/
theorem saveRegistrationStep_update (s : Store) (now : Nat) (mailOk : Bool) (id : String)
    (body body' : StepBody) (n : Int) (P : FormDataStructured) (pi : Obj) (r : Registration)
    (hstep : body.step = some n) (h1 : 1 ≤ n) (h8 : n ≤ 8)
    (hnorm : normalizeStep1 body = .ok body')
    (hdata : body'.stepData = some { formDataStructured := some P })
    (hpi : P.personalInfo = some pi)
    (hfind : findOneByEmail s.registrations (Obj.get? pi "email") = some r)
    (hid : findById s.registrations r.id = some r) :
    saveRegistrationStep s now mailOk id body =
      { store := { s with registrations :=
                     updateById r.id (applySet (updateCleanedData now n P r)) s.registrations },
        response :=
          { status := 200,
            message := "Step " ++ toString n ++ " saved successfully",
            registrationId := some r.id,
            currentStep := some n,
            isComplete :=
              some (truthy (applySet (updateCleanedData now n P r) r).formSubmissionComplete),
            confirmationEmailSent :=
              some (decide (n = 8) &&
                truthy (applySet (updateCleanedData now n P r) r).formSubmissionComplete) },
        mail :=
          if (decide (n = 8) &&
                truthy (applySet (updateCleanedData now n P r) r).formSubmissionComplete) = true
          then some mailOk else none } := by
  have hs : body'.step = some n := by rw [normalizeStep1_step body body' hnorm, hstep]
  have hn0 : ¬ (n = 0 ∨ n < 1 ∨ n > 8) := by omega
  simp only [saveRegistrationStep, saveRegistrationStepTry, hnorm, hs, hn0, if_false, hdata,
    hpi, hfind, updateExisting, hid, applySet_id]

theorem getLast?_setField_ne (o : Obj) (j f : String) (w : JVal) (h : f ≠ j) :
    Obj.getLast? (setField o j w) f = Obj.getLast? o f := by
  have hjf : ¬ j = f := fun e => h e.symm
  induction o with
  | nil => simp [setField, Obj.getLast?, hjf]
  | cons p rest ih =>
    obtain ⟨a, b⟩ := p
    by_cases haj : a = j
    · subst haj
      simp [setField, Obj.getLast?, hjf]
    · simp [setField, Obj.getLast?, haj, ih]

theorem normalizePersonalInfo_get? (pi : Obj) (f : String) (h1 : f ≠ "stateUT")
    (h2 : f ≠ "district") :
    Obj.get? (normalizePersonalInfo pi) f = Obj.get? pi f := by
  have e1 : ¬ "stateUT" = f := fun e => h1 e.symm
  have e2 : ¬ "district" = f := fun e => h2 e.symm
  unfold normalizePersonalInfo
  dsimp only
  split_ifs <;> simp [get?_setField, e1, e2]

theorem normalizePersonalInfo_getLast? (pi : Obj) (f : String) (h1 : f ≠ "stateUT")
    (h2 : f ≠ "district") :
    Obj.getLast? (normalizePersonalInfo pi) f = Obj.getLast? pi f := by
  unfold normalizePersonalInfo
  dsimp only
  split_ifs <;> simp [getLast?_setField_ne, h1, h2]

theorem normalizeStep1_eq (body : StepBody) (n : Int) (P0 : FormDataStructured) (pi0 : Obj)
    (hstep : body.step = some n)
    (hdata : body.stepData = some { formDataStructured := some P0 })
    (hpi : P0.personalInfo = some pi0) :
    normalizeStep1 body =
      .ok { body with stepData := some { formDataStructured := some (payloadAsMerged n P0) } } := by
  obtain ⟨st, sd, tok⟩ := body
  simp only at hstep hdata
  subst hstep hdata
  by_cases hn : n = 1
  · subst hn
    simp [normalizeStep1, payloadAsMerged, hpi]
  · simp [normalizeStep1, payloadAsMerged, hn]

theorem payloadAsMerged_email (n : Int) (P0 : FormDataStructured) (pi0 : Obj)
    (hpi : P0.personalInfo = some pi0) :
    ∃ pi, (payloadAsMerged n P0).personalInfo = some pi ∧
      Obj.get? pi "email" = Obj.get? pi0 "email" := by
  by_cases hn : n = 1
  · refine ⟨normalizePersonalInfo pi0, by simp [payloadAsMerged, hn, hpi], ?_⟩
    exact normalizePersonalInfo_get? pi0 "email" (by decide) (by decide)
  · exact ⟨pi0, by simp [payloadAsMerged, hn, hpi], rfl⟩

/-- The update path, stated on the payload as received. -/
theorem saveRegistrationStep_update_received (s : Store) (now : Nat) (mailOk : Bool)
    (id : String) (body : StepBody) (n : Int) (P0 : FormDataStructured) (pi0 : Obj)
    (r : Registration)
    (hstep : body.step = some n) (h1 : 1 ≤ n) (h8 : n ≤ 8)
    (hdata : body.stepData = some { formDataStructured := some P0 })
    (hpi : P0.personalInfo = some pi0)
    (hfind : findOneByEmail s.registrations (Obj.get? pi0 "email") = some r)
    (hid : findById s.registrations r.id = some r) :
    (saveRegistrationStep s now mailOk id body).store =
        { s with
          registrations :=
            updateById r.id (applySet (updateCleanedData now n (payloadAsMerged n P0) r))
              s.registrations } ∧
      (saveRegistrationStep s now mailOk id body).response.status = 200 := by
  obtain ⟨pi, hpi2, hem⟩ := payloadAsMerged_email n P0 pi0 hpi
  have h := saveRegistrationStep_update s now mailOk id body _ n (payloadAsMerged n P0) pi r
    hstep h1 h8 (normalizeStep1_eq body n P0 pi0 hstep hdata hpi) rfl hpi2 (by rw [hem]; exact hfind)
    hid
  rw [h]
  exact ⟨rfl, rfl⟩

theorem get_mergeFormDataStructured (F P : FormDataStructured) (S : SectionName) :
    (mergeFormDataStructured F P).get S = some (mergeSection (F.get S) (P.get S)) := by
  cases S <;> rfl

theorem get?_mergeSection (a b : Option Obj) (f : String) :
    Obj.get? (mergeSection a b) f =
      match Obj.getLast? (b.getD []) f with
      | some v => some v
      | none => Obj.get? (a.getD []) f := by
  cases b with
  | none => simp [mergeSection, spread, Obj.getLast?]
  | some l => simp only [mergeSection, Option.getD_some, get?_spread]

theorem payloadAsMerged_getLast? (n : Int) (P0 : FormDataStructured) (S : SectionName)
    (f : String) (hex : n = 1 → S = .personalInfo → f ≠ "stateUT" ∧ f ≠ "district") :
    Obj.getLast? (((payloadAsMerged n P0).get S).getD []) f =
      Obj.getLast? ((P0.get S).getD []) f := by
  by_cases hn : n = 1
  · cases hpi : P0.personalInfo with
    | none => simp [payloadAsMerged, hn, hpi]
    | some pi =>
      by_cases hS : S = .personalInfo
      · obtain ⟨h1, h2⟩ := hex hn hS
        subst hS
        simp [payloadAsMerged, hn, hpi, FormDataStructured.get,
          normalizePersonalInfo_getLast? pi f h1 h2]
      · cases S <;> first | exact absurd rfl hS | simp [payloadAsMerged, hn, hpi, FormDataStructured.get]
  · simp [payloadAsMerged, hn]

/-- The stored form after an update: every field is the last value the merged
payload carries for it, else the value stored before. -/
theorem storedField_after_update (s : Store) (now : Nat) (mailOk : Bool) (id : String)
    (body : StepBody) (n : Int) (P0 : FormDataStructured) (pi0 : Obj) (r : Registration)
    (F : FormDataStructured)
    (hstep : body.step = some n) (h1 : 1 ≤ n) (h8 : n ≤ 8)
    (hdata : body.stepData = some { formDataStructured := some P0 })
    (hpi : P0.personalInfo = some pi0)
    (hfind : findOneByEmail s.registrations (Obj.get? pi0 "email") = some r)
    (hid : findById s.registrations r.id = some r)
    (hF : r.formDataStructured = some F) (S : SectionName) (f : String) :
    storedField (saveRegistrationStep s now mailOk id body).store r.id S f =
      match Obj.getLast? (((payloadAsMerged n P0).get S).getD []) f with
      | some v => some v
      | none => Obj.get? ((F.get S).getD []) f := by
  obtain ⟨hs, _⟩ := saveRegistrationStep_update_received s now mailOk id body n P0 pi0 r
    hstep h1 h8 hdata hpi hfind hid
  have hform : (applySet (updateCleanedData now n (payloadAsMerged n P0) r) r).formDataStructured
      = some (mergeFormDataStructured F (payloadAsMerged n P0)) := by
    rw [applySet_form]
    simp [updateCleanedData, hF, setOpt]
  simp only [storedField, hs, findById_updateById _ (applySet_id _) r.id s.registrations, hid,
    Option.map_some', hform, get_mergeFormDataStructured, Option.getD_some, get?_mergeSection]

/-! ## C2: fields omitted from the payload -/

/-- C2, as stated, fails at step 1: the stored registration has
`personalInfo.stateUT = "Kerala"`, the step-1 payload carries only the e-mail
(so `stateUT` is not a key of its `personalInfo`), the save answers 200 and the
stored `stateUT` is `""` afterwards, because the handler itself writes
`stateUT` into a payload whose country is not `"IN"`. -/
theorem saveRegistrationStep_step1_blanks_omitted_field :
    "stateUT" ∉ Obj.keys [("email", JVal.str "a@x.com")] ∧
    storedField exStore 1 .personalInfo "stateUT" = some (.str "Kerala") ∧
    (saveRegistrationStep exStore 10 true "1"
      (stepBody 1 (formOfPersonalInfo [("email", .str "a@x.com")]))).response.status = 200 ∧
    storedField (saveRegistrationStep exStore 10 true "1"
      (stepBody 1 (formOfPersonalInfo [("email", .str "a@x.com")]))).store
      1 .personalInfo "stateUT" = some (.str "") ∧
    storedField (saveRegistrationStep exStore 10 true "1"
      (stepBody 1 (formOfPersonalInfo [("email", .str "a@x.com")]))).store
      1 .personalInfo "stateUT" ≠ storedField exStore 1 .personalInfo "stateUT" := by
  refine ⟨by decide, rfl, rfl, rfl, ?_⟩
  have h1 : storedField (saveRegistrationStep exStore 10 true "1"
      (stepBody 1 (formOfPersonalInfo [("email", .str "a@x.com")]))).store
      1 .personalInfo "stateUT" = some (.str "") := rfl
  have h2 : storedField exStore 1 .personalInfo "stateUT" = some (.str "Kerala") := rfl
  rw [h1, h2]
  simp

/-- C2 (amended): on the update path of `saveRegistrationStep` (a valid step, a
payload whose e-mail is that of a stored registration with a stored form),
every field `f` of every section `S` that is not a key of the received
payload's section `S` keeps its stored value, except that at step 1 the handler
itself writes `personalInfo.stateUT` and `personalInfo.district`, which are
therefore excluded at that step. -/
theorem saveRegistrationStep_keeps_omitted_fields (s : Store) (now : Nat) (mailOk : Bool)
    (id : String) (body : StepBody) (n : Int) (P0 : FormDataStructured) (pi0 : Obj)
    (r : Registration) (F : FormDataStructured)
    (hstep : body.step = some n) (h1 : 1 ≤ n) (h8 : n ≤ 8)
    (hdata : body.stepData = some { formDataStructured := some P0 })
    (hpi : P0.personalInfo = some pi0)
    (hfind : findOneByEmail s.registrations (Obj.get? pi0 "email") = some r)
    (hid : findById s.registrations r.id = some r)
    (hF : r.formDataStructured = some F) (S : SectionName) (f : String)
    (hf : f ∉ Obj.keys ((P0.get S).getD []))
    (hex : n = 1 → S = .personalInfo → f ≠ "stateUT" ∧ f ≠ "district") :
    storedField (saveRegistrationStep s now mailOk id body).store r.id S f =
      Obj.get? ((F.get S).getD []) f := by
  rw [storedField_after_update s now mailOk id body n P0 pi0 r F hstep h1 h8 hdata hpi hfind
    hid hF S f, payloadAsMerged_getLast? n P0 S f hex, getLast?_none_of_not_mem _ f hf]

/-- An instance of C2 (amended): a step-2 save that sends `keySkills` only keeps
the stored `profession`. -/
theorem saveRegistrationStep_keeps_omitted_fields_witness :
    storedField (saveRegistrationStep exStore 10 true "1"
      (stepBody 2 { formOfPersonalInfo [("email", .str "a@x.com")] with
        professional := some [("keySkills", .str "Coq")] })).store
      exRegistration.id .professional "profession" = some (.str "Engineer") :=
  saveRegistrationStep_keeps_omitted_fields exStore 10 true "1"
    (stepBody 2 { formOfPersonalInfo [("email", .str "a@x.com")] with
        professional := some [("keySkills", .str "Coq")] })
    2 _ [("email", .str "a@x.com")] exRegistration exForm rfl (by decide) (by decide) rfl rfl
    rfl rfl rfl .professional "profession" (by decide) (by decide)

/-! ## C3: a `null` in the payload -/

/-- C3, as stated, fails: the stored `professional.profession` is
`"Engineer"`, the step-2 payload carries `profession: null`, and the stored
value is `null` afterwards. -/
theorem saveRegistrationStep_null_erases :
    storedField exStore 1 .professional "profession" = some (.str "Engineer") ∧
    storedField (saveRegistrationStep exStore 10 true "1"
      (stepBody 2 { formOfPersonalInfo [("email", .str "a@x.com")] with
        professional := some [("profession", .null)] })).store
      1 .professional "profession" = some .null ∧
    (some JVal.null : Option JVal) ≠ some (.str "Engineer") :=
  ⟨rfl, rfl, by simp⟩

/-- C3 (amended): on the update path, a payload section (with each key once)
that carries field `f` with the value `null` makes the stored `S.f` equal to
`null`, whatever was stored before; the spread copies `null` like any other
value.  (`personalInfo.stateUT` and `personalInfo.district` at step 1 are
rewritten by the handler and left out.) -/
theorem saveRegistrationStep_null_overwrites (s : Store) (now : Nat) (mailOk : Bool)
    (id : String) (body : StepBody) (n : Int) (P0 : FormDataStructured) (pi0 : Obj)
    (r : Registration) (F : FormDataStructured)
    (hstep : body.step = some n) (h1 : 1 ≤ n) (h8 : n ≤ 8)
    (hdata : body.stepData = some { formDataStructured := some P0 })
    (hpi : P0.personalInfo = some pi0)
    (hfind : findOneByEmail s.registrations (Obj.get? pi0 "email") = some r)
    (hid : findById s.registrations r.id = some r)
    (hF : r.formDataStructured = some F) (S : SectionName) (f : String)
    (hnd : (Obj.keys ((P0.get S).getD [])).Nodup)
    (hnull : Obj.get? ((P0.get S).getD []) f = some .null)
    (hex : n = 1 → S = .personalInfo → f ≠ "stateUT" ∧ f ≠ "district") :
    storedField (saveRegistrationStep s now mailOk id body).store r.id S f = some .null := by
  rw [storedField_after_update s now mailOk id body n P0 pi0 r F hstep h1 h8 hdata hpi hfind
    hid hF S f, payloadAsMerged_getLast? n P0 S f hex, getLast?_eq_get?_of_nodup _ f hnd, hnull]

/-- An instance of C3 (amended): `keySkills: null` at step 2. -/
theorem saveRegistrationStep_null_overwrites_witness :
    storedField exStore 1 .professional "keySkills" = some (.str "Lean") ∧
    storedField (saveRegistrationStep exStore 11 false "new"
      (stepBody 2 { formOfPersonalInfo [("email", .str "a@x.com")] with
        professional := some [("keySkills", .null), ("profession", .str "Teacher")] })).store
      exRegistration.id .professional "keySkills" = some .null :=
  ⟨rfl, saveRegistrationStep_null_overwrites exStore 11 false "new"
    (stepBody 2 { formOfPersonalInfo [("email", .str "a@x.com")] with
        professional := some [("keySkills", .null), ("profession", .str "Teacher")] })
    2 _ [("email", .str "a@x.com")] exRegistration exForm rfl (by decide) (by decide) rfl rfl
    rfl rfl rfl .professional "keySkills" (by decide) rfl (by decide)⟩

/-! ## C4: section isolation -/

/-- C4: a step-3 save whose payload has `personalInfo` carrying just the
unchanged lookup e-mail and no `transportation` leaves the stored
`personalInfo` and `transportation` sections exactly as they were, and more
generally every stored section that the payload does not contain is written
back unchanged. -/
theorem saveRegistrationStep_section_isolation (s : Store) (now : Nat) (mailOk : Bool)
    (id : String) (body : StepBody) (P0 : FormDataStructured) (e : String)
    (r : Registration) (F : FormDataStructured) (pi t : Obj)
    (hstep : body.step = some 3)
    (hdata : body.stepData = some { formDataStructured := some P0 })
    (hpi : P0.personalInfo = some [("email", .str e)])
    (htr : P0.transportation = none)
    (hfind : findOneByEmail s.registrations (some (.str e)) = some r)
    (hid : findById s.registrations r.id = some r)
    (hF : r.formDataStructured = some F)
    (hFpi : F.personalInfo = some pi) (hemail : Obj.get? pi "email" = some (.str e))
    (hFtr : F.transportation = some t) :
    ∃ r' F', findById (saveRegistrationStep s now mailOk id body).store.registrations r.id
        = some r' ∧
      r'.formDataStructured = some F' ∧
      F'.personalInfo = some pi ∧ F'.transportation = some t ∧
      ∀ S o, P0.get S = none → F.get S = some o → F'.get S = some o := by
  have hfind2 : findOneByEmail s.registrations (Obj.get? [("email", JVal.str e)] "email")
      = some r := by simpa [Obj.get?] using hfind
  obtain ⟨hs, _⟩ := saveRegistrationStep_update_received s now mailOk id body 3 P0 _ r
    hstep (by decide) (by decide) hdata hpi hfind2 hid
  have hP : payloadAsMerged 3 P0 = P0 := by simp [payloadAsMerged]
  have hform : (applySet (updateCleanedData now 3 P0 r) r).formDataStructured
      = some (mergeFormDataStructured F P0) := by
    rw [applySet_form]
    simp [updateCleanedData, hF, setOpt]
  refine ⟨applySet (updateCleanedData now 3 P0 r) r, mergeFormDataStructured F P0, ?_, hform,
    ?_, ?_, ?_⟩
  · rw [hs, hP]
    simp only [findById_updateById _ (applySet_id _) r.id s.registrations, hid, Option.map_some']
  · simp [mergeFormDataStructured, mergeSection, hFpi, hpi, spread,
      setField_same pi "email" (.str e) hemail]
  · simp [mergeFormDataStructured, mergeSection, hFtr, htr, spread]
  · intro S o hP0 hFS
    rw [get_mergeFormDataStructured, hP0, hFS]
    simp [mergeSection, spread]

/-- An instance of C4: step 3 with an `eventAttendance` section on the example
store. -/
theorem saveRegistrationStep_section_isolation_witness :
    ∃ r' F', findById (saveRegistrationStep exStore 12 true "1"
        (stepBody 3 { formOfPersonalInfo [("email", .str "a@x.com")] with
          eventAttendance := some [("isAttending", .bool true)] })).store.registrations
        exRegistration.id = some r' ∧
      r'.formDataStructured = some F' ∧
      F'.personalInfo = some exPersonalInfo ∧
      F'.transportation = some [("modeOfTransport", .str "Train"), ("groupSize", .num 2)] ∧
      ∀ S o, FormDataStructured.get
            { formOfPersonalInfo [("email", .str "a@x.com")] with
              eventAttendance := some [("isAttending", .bool true)] } S = none →
          exForm.get S = some o → F'.get S = some o :=
  saveRegistrationStep_section_isolation exStore 12 true "1"
    (stepBody 3 { formOfPersonalInfo [("email", .str "a@x.com")] with
          eventAttendance := some [("isAttending", .bool true)] })
    _ "a@x.com" exRegistration exForm exPersonalInfo
    [("modeOfTransport", .str "Train"), ("groupSize", .num 2)]
    rfl rfl rfl rfl rfl rfl rfl rfl rfl rfl

theorem setOpt_setOpt {α : Type} (a b : Option α) : setOpt a (setOpt a b) = setOpt a b := by
  cases a <;> rfl

theorem setStr_setStr (a : Option JVal) (b : String) : setStr a (setStr a b) = setStr a b := by
  unfold setStr
  split <;> simp

theorem setStepComplete_cases (n : Int) :
    (∀ y, setStepComplete n y = { y with step1Complete := true }) ∨
    (∀ y, setStepComplete n y = { y with step2Complete := true }) ∨
    (∀ y, setStepComplete n y = { y with step3Complete := true }) ∨
    (∀ y, setStepComplete n y = { y with step4Complete := true }) ∨
    (∀ y, setStepComplete n y = { y with step5Complete := true }) ∨
    (∀ y, setStepComplete n y = { y with step6Complete := true }) ∨
    (∀ y, setStepComplete n y = { y with step7Complete := true }) ∨
    (∀ y, setStepComplete n y = { y with step8Complete := true }) ∨
    (∀ y, setStepComplete n y = y) := by
  unfold setStepComplete
  by_cases h1 : n = 1
  · simp [h1]
  by_cases h2 : n = 2
  · simp [h2]
  by_cases h3 : n = 3
  · simp [h3]
  by_cases h4 : n = 4
  · simp [h4]
  by_cases h5 : n = 5
  · simp [h5]
  by_cases h6 : n = 6
  · simp [h6]
  by_cases h7 : n = 7
  · simp [h7]
  by_cases h8 : n = 8
  · simp [h8]
  simp [h1, h2, h3, h4, h5, h6, h7, h8]

theorem applySet_applySet_erase (c : CleanedData) (t : Nat) (x : Registration) :
    eraseLastUpdated (applySet { c with lastUpdated := t } (applySet c x)) =
      eraseLastUpdated (applySet c x) := by
  rcases setStepComplete_cases c.stepComplete with h | h | h | h | h | h | h | h | h <;>
    simp [applySet, eraseLastUpdated, h, setOpt_setOpt, setStr_setStr]

theorem buildCleanedData_now (now1 now2 : Nat) (n : Int) (P : FormDataStructured) (b : Bool) :
    buildCleanedData now2 n P b = { buildCleanedData now1 n P b with lastUpdated := now2 } := by
  unfold buildCleanedData
  dsimp only
  split_ifs
  · cases P.personalInfo <;> cases P.verification <;> rfl
  · rfl
  · rfl
  · rfl

theorem updateCleanedData_again (now1 now2 : Nat) (n : Int) (P F : FormDataStructured)
    (r : Registration) (hF : r.formDataStructured = some F) :
    updateCleanedData now2 n P (applySet (updateCleanedData now1 n P r) r) =
      { updateCleanedData now1 n P r with lastUpdated := now2 } := by
  have hform : (applySet (updateCleanedData now1 n P r) r).formDataStructured
      = some (mergeFormDataStructured F P) := by
    rw [applySet_form]
    simp [updateCleanedData, hF, setOpt]
  have key : ∀ r' : Registration,
      r'.formDataStructured = some (mergeFormDataStructured F P) →
      updateCleanedData now2 n P r' =
        { updateCleanedData now1 n P r with lastUpdated := now2 } := by
    intro r' h
    simp only [updateCleanedData, h, hF, mergeFormDataStructured_idem,
      buildCleanedData_now now1 now2 n P true]
  exact key _ hform

theorem updateById_updateById (f g : Registration → Registration)
    (hf : ∀ r, (f r).id = r.id) (i : Nat) (l : List Registration) :
    updateById i g (updateById i f l) = updateById i (fun x => g (f x)) l := by
  induction l with
  | nil => rfl
  | cons x xs ih =>
    by_cases hx : x.id = i
    · simp [updateById, hx, hf]
    · simp [updateById, hx, ih]

theorem map_erase_updateById (f g : Registration → Registration)
    (h : ∀ x, eraseLastUpdated (g (f x)) = eraseLastUpdated (f x)) (i : Nat)
    (l : List Registration) :
    (updateById i (fun x => g (f x)) l).map eraseLastUpdated =
      (updateById i f l).map eraseLastUpdated := by
  induction l with
  | nil => rfl
  | cons x xs ih =>
    by_cases hx : x.id = i
    · simp [updateById, hx, h]
    · simp [updateById, hx, ih]

theorem applySet_email (c : CleanedData) (x : Registration) :
    (applySet c x).email = setStr c.email x.email := by
  simp [applySet, setStepComplete_email]

theorem findOneByEmail_isStr (l : List Registration) (v : Option JVal) (r : Registration)
    (h : findOneByEmail l v = some r) : ∃ e, v = some (.str e) := by
  unfold findOneByEmail at h
  split at h
  · exact ⟨_, rfl⟩
  · cases h

/-! ## C5: re-submitting a step -/

/-- C5: merging the same payload twice gives the same form as merging it once,
for every stored form and every payload; and on the update path of
`saveRegistrationStep`, re-submitting the same request (at another time, with
another route id) returns the same response and leaves every stored
registration, up to its `lastUpdated` timestamp, and the rest of the store as
the first submission left them. -/
theorem saveRegistrationStep_idempotent (s : Store) (now1 now2 : Nat) (m1 m2 : Bool)
    (id1 id2 : String) (body : StepBody) (n : Int) (P0 : FormDataStructured) (pi0 : Obj)
    (r : Registration) (F : FormDataStructured)
    (hstep : body.step = some n) (h1 : 1 ≤ n) (h8 : n ≤ 8)
    (hdata : body.stepData = some { formDataStructured := some P0 })
    (hpi : P0.personalInfo = some pi0)
    (hfind : findOneByEmail s.registrations (Obj.get? pi0 "email") = some r)
    (hid : findById s.registrations r.id = some r)
    (hF : r.formDataStructured = some F) :
    (∀ F' P' : FormDataStructured,
      mergeFormDataStructured (mergeFormDataStructured F' P') P' = mergeFormDataStructured F' P') ∧
    (saveRegistrationStep (saveRegistrationStep s now1 m1 id1 body).store now2 m2 id2
        body).response = (saveRegistrationStep s now1 m1 id1 body).response ∧
    (saveRegistrationStep (saveRegistrationStep s now1 m1 id1 body).store now2 m2 id2
        body).store.registrations.map eraseLastUpdated =
      (saveRegistrationStep s now1 m1 id1 body).store.registrations.map eraseLastUpdated ∧
    (saveRegistrationStep (saveRegistrationStep s now1 m1 id1 body).store now2 m2 id2
        body).store.otps = (saveRegistrationStep s now1 m1 id1 body).store.otps ∧
    (saveRegistrationStep (saveRegistrationStep s now1 m1 id1 body).store now2 m2 id2
        body).store.transactions = (saveRegistrationStep s now1 m1 id1 body).store.transactions ∧
    (saveRegistrationStep (saveRegistrationStep s now1 m1 id1 body).store now2 m2 id2
        body).store.nextId = (saveRegistrationStep s now1 m1 id1 body).store.nextId := by
  refine ⟨mergeFormDataStructured_idem, ?_⟩
  obtain ⟨pi, hpi2, hem⟩ := payloadAsMerged_email n P0 pi0 hpi
  have hnorm := normalizeStep1_eq body n P0 pi0 hstep hdata hpi
  have hfindP : findOneByEmail s.registrations (Obj.get? pi "email") = some r := by
    rw [hem]; exact hfind
  have ho1 := saveRegistrationStep_update s now1 m1 id1 body _ n (payloadAsMerged n P0) pi r
    hstep h1 h8 hnorm rfl hpi2 hfindP hid
  obtain ⟨e, he⟩ := findOneByEmail_isStr _ _ _ hfindP
  have hce : ∀ x, (applySet (updateCleanedData now1 n (payloadAsMerged n P0) r) x).email
      = x.email := by
    intro x
    rw [applySet_email, updateCleanedData_email]
    rfl
  have hfind2 : findOneByEmail
      (updateById r.id (applySet (updateCleanedData now1 n (payloadAsMerged n P0) r))
        s.registrations) (Obj.get? pi "email")
      = some (applySet (updateCleanedData now1 n (payloadAsMerged n P0) r) r) := by
    rw [he]
    exact findOneByEmail_updateById _ hce _ e r (he ▸ hfindP) hid
  have hid2 : findById
      (updateById r.id (applySet (updateCleanedData now1 n (payloadAsMerged n P0) r))
        s.registrations)
      (applySet (updateCleanedData now1 n (payloadAsMerged n P0) r) r).id
      = some (applySet (updateCleanedData now1 n (payloadAsMerged n P0) r) r) := by
    rw [applySet_id, findById_updateById _ (applySet_id _), hid]
    rfl
  have ho2 := saveRegistrationStep_update
    { s with
      registrations :=
        updateById r.id (applySet (updateCleanedData now1 n (payloadAsMerged n P0) r))
          s.registrations }
    now2 m2 id2 body _ n (payloadAsMerged n P0) pi
    (applySet (updateCleanedData now1 n (payloadAsMerged n P0) r) r)
    hstep h1 h8 hnorm rfl hpi2 hfind2 hid2
  have hagain := updateCleanedData_again now1 now2 n (payloadAsMerged n P0) F r hF
  have herase := applySet_applySet_erase (updateCleanedData now1 n (payloadAsMerged n P0) r) now2
  have hfsc : (applySet (updateCleanedData now2 n (payloadAsMerged n P0)
        (applySet (updateCleanedData now1 n (payloadAsMerged n P0) r) r))
        (applySet (updateCleanedData now1 n (payloadAsMerged n P0) r) r)).formSubmissionComplete
      = (applySet (updateCleanedData now1 n (payloadAsMerged n P0) r) r).formSubmissionComplete := by
    rw [hagain]
    have h := congrArg Registration.formSubmissionComplete (herase r)
    exact h
  rw [ho1]
  dsimp only
  rw [ho2]
  dsimp only
  refine ⟨?_, ?_, rfl, rfl, rfl⟩
  · rw [hfsc, applySet_id]
  · rw [applySet_id, hagain, updateById_updateById _ _ (applySet_id _)]
    exact map_erase_updateById _ _ herase r.id s.registrations

/-! ## C1: contribution after payments -/

theorem recordPayment_registration (s : Store) (i : Nat) (c : PayCall) (r : Registration)
    (hr : findById s.registrations i = some r) (hp : c.purpose = "registration") :
    (recordPayment s i c).response.status = 200 ∧
    ∃ r', findById (recordPayment s i c).store.registrations i = some r' ∧
      r'.contributionAmount = some (.num c.body.amount) := by
  unfold PayCall.purpose at hp
  by_cases hv : c.viaProcessPayment = true
  · simp only [recordPayment, hv, if_true, processPayment, hr]
    refine ⟨trivial, processPaymentSet (makeTransactionId c.now c.rand) c.body c.now r, ?_, rfl⟩
    rw [findById_updateById (processPaymentSet (makeTransactionId c.now c.rand) c.body c.now)
      (fun _ => rfl), hr]
    rfl
  · have hv2 : c.viaProcessPayment = false := by simpa using hv
    simp only [recordPayment, hv2, transactionRegister, hp, if_true, Bool.false_eq_true,
      if_false]
    refine ⟨trivial, transactionSet (makeTransactionId c.now c.rand) c.body.amount c.now r,
      ?_, rfl⟩
    rw [findById_updateById (transactionSet (makeTransactionId c.now c.rand) c.body.amount c.now)
      (fun _ => rfl), hr]
    rfl

theorem recordPayments_exists (calls : List PayCall) (s : Store) (i : Nat) (r : Registration)
    (hr : findById s.registrations i = some r)
    (hp : ∀ c, c ∈ calls → c.purpose = "registration") :
    (∀ st, st ∈ (recordPayments s i calls).2 → st = 200) ∧
    ∃ r', findById (recordPayments s i calls).1.registrations i = some r' := by
  induction calls generalizing s r with
  | nil => exact ⟨by simp [recordPayments], r, hr⟩
  | cons c cs ih =>
    obtain ⟨h200, r1, hr1, _⟩ :=
      recordPayment_registration s i c r hr (hp c (List.mem_cons_self c cs))
    obtain ⟨hs, hex⟩ := ih (recordPayment s i c).store r1 hr1
      (fun d hd => hp d (List.mem_cons_of_mem c hd))
    refine ⟨?_, hex⟩
    intro st hst
    simp only [recordPayments, List.mem_cons] at hst
    rcases hst with hst | hst
    · rw [hst, h200]
    · exact hs st hst

theorem recordPayments_append (xs ys : List PayCall) (s : Store) (i : Nat) :
    recordPayments s i (xs ++ ys) =
      ((recordPayments (recordPayments s i xs).1 i ys).1,
        (recordPayments s i xs).2 ++ (recordPayments (recordPayments s i xs).1 i ys).2) := by
  induction xs generalizing s with
  | nil => simp [recordPayments]
  | cons c cs ih => simp [recordPayments, ih]

/-- C1, as stated, fails: the registration has 500 recorded, one successful
`transactionRegister` call with purpose "registration" and amount 300 leaves
`contributionAmount = 300`, not `500 + 300`; and the result depends on the
order of the calls (300 then 200 gives 200, 200 then 300 gives 300). -/
theorem transactionRegister_replaces_contribution :
    storedContribution exStore 1 = some (.num 500) ∧
    (recordPayments exStore 1 [⟨false, 100, 7, true, payBody 300⟩]).2 = [200] ∧
    storedContribution (recordPayments exStore 1 [⟨false, 100, 7, true, payBody 300⟩]).1 1
      = some (.num 300) ∧
    (some (JVal.num 300) : Option JVal) ≠ some (.num (500 + 300)) ∧
    storedContribution (recordPayments exStore 1
      [⟨false, 100, 7, true, payBody 300⟩, ⟨true, 101, 8, true, payBody 200⟩]).1 1
      = some (.num 200) ∧
    storedContribution (recordPayments exStore 1
      [⟨true, 101, 8, true, payBody 200⟩, ⟨false, 100, 7, true, payBody 300⟩]).1 1
      = some (.num 300) :=
  ⟨rfl, rfl, rfl, by simp, rfl, rfl⟩

/-- C1 (amended): for every registration and every sequence of N >= 1
payment-recording calls (`transactionRegister` / `processPayment`) with purpose
"registration" and amounts a1..aN, every call succeeds (status 200) and the
registration's `contributionAmount` afterwards equals aN, the amount of the last
call: each call overwrites the stored value. -/
theorem recordPayments_contribution_is_last (s : Store) (i : Nat) (r : Registration)
    (pre : List PayCall) (last : PayCall)
    (hr : findById s.registrations i = some r)
    (hp : ∀ c, c ∈ pre ++ [last] → c.purpose = "registration") :
    (∀ st, st ∈ (recordPayments s i (pre ++ [last])).2 → st = 200) ∧
    storedContribution (recordPayments s i (pre ++ [last])).1 i
      = some (.num last.body.amount) := by
  refine ⟨(recordPayments_exists (pre ++ [last]) s i r hr hp).1, ?_⟩
  obtain ⟨_, r1, hr1⟩ := recordPayments_exists pre s i r hr
    (fun c hc => hp c (List.mem_append_left _ hc))
  obtain ⟨_, r2, hr2, hc2⟩ := recordPayment_registration (recordPayments s i pre).1 i last r1 hr1
    (hp last (by simp))
  rw [recordPayments_append]
  simp only [recordPayments, storedContribution, hr2, hc2]

/-- An instance of C1 (amended): 300 through `transactionRegister`, then 200
through `processPayment`, recorded on a registration holding 500. -/
theorem recordPayments_contribution_is_last_witness :
    (∀ st, st ∈ (recordPayments exStore 1
        ([⟨false, 100, 7, true, payBody 300⟩] ++ [⟨true, 101, 8, false, payBody 200⟩])).2 →
      st = 200) ∧
    storedContribution (recordPayments exStore 1
        ([⟨false, 100, 7, true, payBody 300⟩] ++ [⟨true, 101, 8, false, payBody 200⟩])).1 1
      = some (.num 200) :=
  recordPayments_contribution_is_last exStore 1 exRegistration
    [⟨false, 100, 7, true, payBody 300⟩] ⟨true, 101, 8, false, payBody 200⟩ rfl
    (by
      intro c hc
      simp only [List.singleton_append, List.mem_cons, List.mem_singleton, List.not_mem_nil,
        or_false] at hc
      rcases hc with hc | hc <;> subst hc <;> rfl)

/-- An instance of C5: the step-3 request sent twice to the example store. -/
theorem saveRegistrationStep_idempotent_witness :
    (∀ F' P' : FormDataStructured,
      mergeFormDataStructured (mergeFormDataStructured F' P') P' = mergeFormDataStructured F' P') ∧
    (saveRegistrationStep (saveRegistrationStep exStore 20 true "1" (stepBody 3 exStep3Form)).store
        30 false "new" (stepBody 3 exStep3Form)).response
      = (saveRegistrationStep exStore 20 true "1" (stepBody 3 exStep3Form)).response ∧
    (saveRegistrationStep (saveRegistrationStep exStore 20 true "1" (stepBody 3 exStep3Form)).store
        30 false "new" (stepBody 3 exStep3Form)).store.registrations.map eraseLastUpdated
      = (saveRegistrationStep exStore 20 true "1"
          (stepBody 3 exStep3Form)).store.registrations.map eraseLastUpdated ∧
    (saveRegistrationStep (saveRegistrationStep exStore 20 true "1" (stepBody 3 exStep3Form)).store
        30 false "new" (stepBody 3 exStep3Form)).store.otps
      = (saveRegistrationStep exStore 20 true "1" (stepBody 3 exStep3Form)).store.otps ∧
    (saveRegistrationStep (saveRegistrationStep exStore 20 true "1" (stepBody 3 exStep3Form)).store
        30 false "new" (stepBody 3 exStep3Form)).store.transactions
      = (saveRegistrationStep exStore 20 true "1" (stepBody 3 exStep3Form)).store.transactions ∧
    (saveRegistrationStep (saveRegistrationStep exStore 20 true "1" (stepBody 3 exStep3Form)).store
        30 false "new" (stepBody 3 exStep3Form)).store.nextId
      = (saveRegistrationStep exStore 20 true "1" (stepBody 3 exStep3Form)).store.nextId :=
  saveRegistrationStep_idempotent exStore 20 30 true false "1" "new" (stepBody 3 exStep3Form) 3
    exStep3Form [("email", .str "a@x.com")] exRegistration exForm rfl (by decide) (by decide)
    rfl rfl rfl rfl rfl

/-! ## C6, C7, C8: the contribution policy -/

theorem totalExpense_mkAttendees (av an tv tn cv cn dv dn : Nat) (y : Option Int) :
    totalExpense (some (mkAttendees av an tv tn cv cn dv dn)) y =
      if isRecentGraduate y = true then
        ((av : Int) + an - 1) * 500 + 350 + ((tv : Int) + tn) * 350 + ((cv : Int) + cn) * 350
      else
        ((av : Int) + an) * 500 + ((tv : Int) + tn) * 350 + ((cv : Int) + cn) * 350 := by
  simp [totalExpense, mkAttendees, groupCount, orZero]

/-- C6: for all natural attendee counts, with adults, teens and children the
sums of the veg and non-veg counts (toddler counts play no part), the minimum
that `handlePayment` computes on a first payment, and writes to
`proposedAmount`, is `adults*500 + teens*350 + children*350` for a non-recent
graduate and `(adults-1)*500 + 350 + teens*350 + children*350` for a recent
graduate; with 2 adults and 1 teen it is 1350, respectively 1200. -/
theorem handlePayment_minimum (av an tv tn cv cn dv dn : Nat) (y : Option Int) (a : Int)
    (att : Bool) (ha : 0 < a) :
    (handlePayment (firstPayment (some a) (mkAttendees av an tv tn cv cn dv dn) y att)).2 =
      some (if isRecentGraduate y = true then
          ((av : Int) + an - 1) * 500 + 350 + ((tv : Int) + tn) * 350 + ((cv : Int) + cn) * 350
        else
          ((av : Int) + an) * 500 + ((tv : Int) + tn) * 350 + ((cv : Int) + cn) * 350) ∧
    (av + an = 2 → tv + tn = 1 → cv + cn = 0 →
      (handlePayment (firstPayment (some a) (mkAttendees av an tv tn cv cn dv dn) y att)).2 =
        some (if isRecentGraduate y = true then 1200 else 1350)) := by
  have hna : ¬ a ≤ 0 := by omega
  have h2 : (handlePayment (firstPayment (some a) (mkAttendees av an tv tn cv cn dv dn) y att)).2
      = some (totalExpense (some (mkAttendees av an tv tn cv cn dv dn)) y) := by
    simp only [handlePayment, firstPayment, orZero, Option.getD_some, hna, if_false,
      Bool.not_false, if_true]
    split_ifs <;> rfl
  rw [h2, totalExpense_mkAttendees]
  refine ⟨rfl, ?_⟩
  intro h1 h3 h4
  have e1 : (av : Int) + an = 2 := by exact_mod_cast h1
  have e2 : (tv : Int) + tn = 1 := by exact_mod_cast h3
  have e3 : (cv : Int) + cn = 0 := by exact_mod_cast h4
  rw [e1, e2, e3]
  split_ifs <;> rfl

/-- An instance of C6: one veg and one non-veg adult, one teen, two toddlers,
for the class of 2010 and for the class of 2024. -/
theorem handlePayment_minimum_witness :
    (handlePayment (firstPayment (some 2000) (mkAttendees 1 1 0 1 0 0 2 0) (some 2010) true)).2
      = some 1350 ∧
    (handlePayment (firstPayment (some 2000) (mkAttendees 1 1 0 1 0 0 2 0) (some 2024) true)).2
      = some 1200 :=
  ⟨((handlePayment_minimum 1 1 0 1 0 0 2 0 (some 2010) 2000 true (by decide)).2
      rfl rfl rfl).trans rfl,
   ((handlePayment_minimum 1 1 0 1 0 0 2 0 (some 2024) 2000 true (by decide)).2
      rfl rfl rfl).trans rfl⟩

/-- C7 fails on the code: for a recent graduate with no adult the discount
branch is still taken.  With one teen and no adult `handlePayment` computes the
minimum 200, not 350, so an attending registrant offering 250 proceeds to
payment without the financial-difficulty dialog; with every count zero it
computes and stores the minimum -150. -/
theorem handlePayment_recent_graduate_without_adult :
    isRecentGraduate (some 2024) = true ∧
    handlePayment (firstPayment (some 250) (mkAttendees 0 0 1 0 0 0 0 0) (some 2024) true)
      = (.proceedWithPayment 250, some 200) ∧
    (200 : Int) ≠ 1 * 350 + 0 * 350 ∧
    (handlePayment (firstPayment (some 100) (mkAttendees 0 0 0 0 0 0 0 0) (some 2024) false)).2
      = some (-150) := by
  refine ⟨rfl, rfl, by decide, rfl⟩

/-- C8: for a first payment (no previous contribution), `handlePayment` opens
the financial-difficulty dialog instead of proceeding to payment if and only if
the attendee is attending, the proposed amount is strictly positive, and the
proposed amount is strictly less than the computed minimum; an amount equal to
the minimum proceeds to payment.  (The payment button that calls `handlePayment`
is rendered only while the amount is strictly positive, lines 3116-3119, so the
amount in the last clause is positive.) -/
theorem handlePayment_hardship_iff (f : PaymentForm)
    (hfirst : f.hasPreviousContribution = false) :
    ((handlePayment f).1 = .financialDifficultyDialog ↔
      f.isAttending = true ∧ 0 < orZero f.contributionAmount ∧
        orZero f.contributionAmount < totalExpense f.attendees f.yearOfPassing) ∧
    (0 < orZero f.contributionAmount →
      orZero f.contributionAmount = totalExpense f.attendees f.yearOfPassing →
      (handlePayment f).1 = .proceedWithPayment (orZero f.contributionAmount)) := by
  by_cases ha : orZero f.contributionAmount ≤ 0
  · have hna : ¬ 0 < orZero f.contributionAmount := by omega
    simp [handlePayment, ha, hna]
  · have hpos : 0 < orZero f.contributionAmount := by omega
    by_cases hc : f.isAttending = true ∧
        orZero f.contributionAmount < totalExpense f.attendees f.yearOfPassing
    · have hlt := hc.2
      have hne : orZero f.contributionAmount ≠ totalExpense f.attendees f.yearOfPassing := by
        omega
      simp [handlePayment, ha, hfirst, hpos, hc.1, hlt, hne]
    · have hc2 : ¬ (f.isAttending = true ∧ orZero f.contributionAmount > 0 ∧
          orZero f.contributionAmount < totalExpense f.attendees f.yearOfPassing) :=
        fun h => hc ⟨h.1, h.2.2⟩
      have hc3 : ¬ (f.isAttending = true ∧ 0 < orZero f.contributionAmount ∧
          orZero f.contributionAmount < totalExpense f.attendees f.yearOfPassing) :=
        fun h => hc ⟨h.1, h.2.2⟩
      simp only [handlePayment, ha, if_false, hfirst, Bool.not_false, if_true, hc2, hc3,
        iff_false]
      exact ⟨by simp, fun _ _ => trivial⟩

/-- An instance of C8: 500 offered against a minimum of 1350 opens the
dialog, and 1350 offered against 1350 proceeds. -/
theorem handlePayment_hardship_iff_witness :
    ((handlePayment (firstPayment (some 500) (mkAttendees 1 1 0 1 0 0 0 0) (some 2010) true)).1
        = .financialDifficultyDialog ↔
      true = true ∧ 0 < orZero (some 500) ∧
        orZero (some 500) < totalExpense (some (mkAttendees 1 1 0 1 0 0 0 0)) (some 2010)) ∧
    (handlePayment (firstPayment (some 1350) (mkAttendees 1 1 0 1 0 0 0 0) (some 2010) true)).1
      = .proceedWithPayment 1350 :=
  ⟨(handlePayment_hardship_iff
      (firstPayment (some 500) (mkAttendees 1 1 0 1 0 0 0 0) (some 2010) true) rfl).1,
   (handlePayment_hardship_iff
      (firstPayment (some 1350) (mkAttendees 1 1 0 1 0 0 0 0) (some 2010) true) rfl).2
      (by decide) rfl⟩

/-! ## C9, C10: the first step -/

/-- The creation path in one equation: at step 1, when no registration has the
payload e-mail, the outcome is that of `createNew` on the rewritten payload. -/
theorem saveRegistrationStep_create (s : Store) (now : Nat) (mailOk : Bool) (id : String)
    (body : StepBody) (P0 : FormDataStructured) (pi0 : Obj)
    (hstep : body.step = some 1)
    (hdata : body.stepData = some { formDataStructured := some P0 })
    (hpi : P0.personalInfo = some pi0)
    (hnew : findOneByEmail s.registrations (Obj.get? pi0 "email") = none) :
    saveRegistrationStep s now mailOk id body =
      match createNew s now 1 (payloadAsMerged 1 P0) (normalizePersonalInfo pi0) with
      | .ok out => out
      | .error e => saveRegistrationStepCatch s e := by
  have hnorm := normalizeStep1_eq body 1 P0 pi0 hstep hdata hpi
  have hP : (payloadAsMerged 1 P0).personalInfo = some (normalizePersonalInfo pi0) := by
    simp [payloadAsMerged, hpi]
  have hem : Obj.get? (normalizePersonalInfo pi0) "email" = Obj.get? pi0 "email" :=
    normalizePersonalInfo_get? pi0 "email" (by decide) (by decide)
  have hn0 : ¬ ((1 : Int) = 0 ∨ (1 : Int) < 1 ∨ (1 : Int) > 8) := by omega
  simp only [saveRegistrationStep, saveRegistrationStepTry, hnorm, hstep, hn0, if_false, hP,
    hem, hnew]

theorem findVerifiedOtp_none (otps : List OtpVerification) (e c : Option JVal)
    (h : ∀ o, o ∈ otps → o.verified = true → e = some (.str o.email) →
      c = some (.str o.contactNumber) → False) :
    findVerifiedOtp otps e c = none := by
  unfold findVerifiedOtp
  split
  · rename_i e' c'
    rw [List.find?_eq_none]
    intro o ho hp
    simp only [Bool.and_eq_true, beq_iff_eq] at hp
    exact h o ho hp.2 (by rw [hp.1.1]) (by rw [hp.1.2])
  · rfl

/-- C9, as stated, fails: (1) the store has a registration with the submitted
e-mail and no verification record at all, yet the step-1 call answers 200 and
rewrites that registration (its `lastUpdated` and its stored name change);
(2) a step-1 call with a new e-mail and no contact number answers 400, not
401. -/
theorem saveRegistrationStep_step1_update_skips_otp :
    exStore.otps = [] ∧
    (saveRegistrationStep exStore 10 true "new"
      (stepBody 1 (step1Form "a@x.com" "+911234567890"))).response.status = 200 ∧
    storedField exStore 1 .personalInfo "name" = some (.str "Asha") ∧
    storedField (saveRegistrationStep exStore 10 true "new"
      (stepBody 1 (step1Form "a@x.com" "+911234567890"))).store 1 .personalInfo "name"
      = some (.str "Mallory") ∧
    (saveRegistrationStep exStore 10 true "new"
      (stepBody 1 (formOfPersonalInfo [("email", .str "c@x.com")]))).response.status = 400 :=
  ⟨rfl, rfl, rfl, rfl, rfl⟩

/-- C9 (amended): for every step-1 `saveRegistrationStep` call that submits a
non-empty e-mail and contact number, whose e-mail belongs to no existing
registration, and for which no verification record with `verified = true`
matches both the e-mail and the contact number, the call fails with 401 and the
store is unchanged (a call whose e-mail belongs to an existing registration is
an update and checks no verification record). -/
theorem saveRegistrationStep_step1_requires_otp (s : Store) (now : Nat) (mailOk : Bool)
    (id : String) (body : StepBody) (P0 : FormDataStructured) (pi0 : Obj)
    (hstep : body.step = some 1)
    (hdata : body.stepData = some { formDataStructured := some P0 })
    (hpi : P0.personalInfo = some pi0)
    (hemail : truthy (Obj.get? pi0 "email") = true)
    (hcontact : truthy (Obj.get? pi0 "contactNumber") = true)
    (hnew : findOneByEmail s.registrations (Obj.get? pi0 "email") = none)
    (hotp : ∀ o, o ∈ s.otps → o.verified = true →
      Obj.get? pi0 "email" = some (.str o.email) →
      Obj.get? pi0 "contactNumber" = some (.str o.contactNumber) → False) :
    (saveRegistrationStep s now mailOk id body).response.status = 401 ∧
    (saveRegistrationStep s now mailOk id body).response.message =
      "OTP verification required before creating registration" ∧
    (saveRegistrationStep s now mailOk id body).store = s := by
  have hem : Obj.get? (normalizePersonalInfo pi0) "email" = Obj.get? pi0 "email" :=
    normalizePersonalInfo_get? pi0 "email" (by decide) (by decide)
  have hco : Obj.get? (normalizePersonalInfo pi0) "contactNumber"
      = Obj.get? pi0 "contactNumber" :=
    normalizePersonalInfo_get? pi0 "contactNumber" (by decide) (by decide)
  rw [saveRegistrationStep_create s now mailOk id body P0 pi0 hstep hdata hpi hnew]
  simp only [createNew, if_true, hem, hco, hemail, hcontact, Bool.not_true, Bool.or_self,
    Bool.false_eq_true, if_false, findVerifiedOtp_none s.otps _ _ hotp]
  refine ⟨?_, ?_, ?_⟩ <;> first | rfl | trivial

/-- An instance of C9 (amended): a new e-mail on the store without any
verification record. -/
theorem saveRegistrationStep_step1_requires_otp_witness :
    (saveRegistrationStep exStore 10 true "new"
      (stepBody 1 (step1Form "c@x.com" "+919999999999"))).response.status = 401 ∧
    (saveRegistrationStep exStore 10 true "new"
      (stepBody 1 (step1Form "c@x.com" "+919999999999"))).response.message =
      "OTP verification required before creating registration" ∧
    (saveRegistrationStep exStore 10 true "new"
      (stepBody 1 (step1Form "c@x.com" "+919999999999"))).store = exStore :=
  saveRegistrationStep_step1_requires_otp exStore 10 true "new"
    (stepBody 1 (step1Form "c@x.com" "+919999999999")) _ _ rfl rfl rfl rfl rfl rfl
    (by intro o ho; simp [exStore] at ho)

theorem findVerifiedOtp_isSome (otps : List OtpVerification) (o : OtpVerification)
    (ho : o ∈ otps) (hv : o.verified = true) :
    ∃ o', findVerifiedOtp otps (some (.str o.email)) (some (.str o.contactNumber)) = some o' := by
  cases h : findVerifiedOtp otps (some (.str o.email)) (some (.str o.contactNumber)) with
  | some o' => exact ⟨o', rfl⟩
  | none =>
    simp only [findVerifiedOtp, List.find?_eq_none] at h
    have := h o ho
    simp [hv] at this

/-- C10, as stated, fails: a step-1 call carrying the e-mail of an existing
registration answers 200 ("Step 1 saved successfully"), not 400, and rewrites
the stored form of that registration. -/
theorem saveRegistrationStep_step1_existing_email_updates :
    (findOneByEmail exStoreVerified.registrations (some (.str "a@x.com"))).isSome = true ∧
    (saveRegistrationStep exStoreVerified 10 true "new"
      (stepBody 1 (step1Form "a@x.com" "+910000000000"))).response.status = 200 ∧
    (saveRegistrationStep exStoreVerified 10 true "new"
      (stepBody 1 (step1Form "a@x.com" "+910000000000"))).response.message
      = "Step 1 saved successfully" ∧
    storedField exStoreVerified 1 .personalInfo "contactNumber" = none ∧
    storedField (saveRegistrationStep exStoreVerified 10 true "new"
      (stepBody 1 (step1Form "a@x.com" "+910000000000"))).store 1 .personalInfo "contactNumber"
      = some (.str "+910000000000") :=
  ⟨rfl, rfl, by decide, rfl, rfl⟩

/-- C10 (amended): for every step-1 `saveRegistrationStep` call whose e-mail
belongs to no existing registration, whose contact number already belongs to an
existing registration, and which passes the verification gate (a verified
record for the submitted non-empty e-mail and contact number), the call fails
with 400 "A registration with this email or contact number already exists" and
the store is unchanged (a call whose e-mail belongs to an existing registration
is an update of that registration). -/
theorem saveRegistrationStep_step1_duplicate_contact (s : Store) (now : Nat) (mailOk : Bool)
    (id : String) (body : StepBody) (P0 : FormDataStructured) (pi0 : Obj)
    (o : OtpVerification) (r : Registration)
    (hstep : body.step = some 1)
    (hdata : body.stepData = some { formDataStructured := some P0 })
    (hpi : P0.personalInfo = some pi0)
    (hemail : Obj.get? pi0 "email" = some (.str o.email))
    (hcontact : Obj.get? pi0 "contactNumber" = some (.str o.contactNumber))
    (hne : o.email ≠ "") (hnc : o.contactNumber ≠ "")
    (ho : o ∈ s.otps) (hv : o.verified = true)
    (hnew : findOneByEmail s.registrations (Obj.get? pi0 "email") = none)
    (hr : r ∈ s.registrations) (hrc : r.contactNumber = o.contactNumber) :
    (saveRegistrationStep s now mailOk id body).response.status = 400 ∧
    (saveRegistrationStep s now mailOk id body).response.message =
      "A registration with this email or contact number already exists" ∧
    (saveRegistrationStep s now mailOk id body).store = s := by
  have hem : Obj.get? (normalizePersonalInfo pi0) "email" = some (.str o.email) := by
    rw [normalizePersonalInfo_get? pi0 "email" (by decide) (by decide), hemail]
  have hco : Obj.get? (normalizePersonalInfo pi0) "contactNumber"
      = some (.str o.contactNumber) := by
    rw [normalizePersonalInfo_get? pi0 "contactNumber" (by decide) (by decide), hcontact]
  obtain ⟨o', ho'⟩ := findVerifiedOtp_isSome s.otps o ho hv
  have hdup : violatesUnique s.registrations o.email o.contactNumber = true := by
    simp only [violatesUnique, List.any_eq_true]
    exact ⟨r, hr, by simp [hrc]⟩
  rw [saveRegistrationStep_create s now mailOk id body P0 pi0 hstep hdata hpi hnew]
  have ht1 : (o.email != "") = true := by simpa using hne
  have ht2 : (o.contactNumber != "") = true := by simpa using hnc
  simp only [createNew, if_true, hem, hco, truthy, ht1, ht2, Bool.not_true, Bool.or_self,
    Bool.false_eq_true, if_false, ho', createRegistration, registrationData, hdup]
  exact ⟨rfl, rfl, rfl⟩

/-- An instance of C10 (amended): a verified new e-mail with the contact number
of the stored registration. -/
theorem saveRegistrationStep_step1_duplicate_contact_witness :
    (saveRegistrationStep exStoreVerified 10 true "new"
      (stepBody 1 (step1Form "b@x.com" "+911234567890"))).response.status = 400 ∧
    (saveRegistrationStep exStoreVerified 10 true "new"
      (stepBody 1 (step1Form "b@x.com" "+911234567890"))).response.message =
      "A registration with this email or contact number already exists" ∧
    (saveRegistrationStep exStoreVerified 10 true "new"
      (stepBody 1 (step1Form "b@x.com" "+911234567890"))).store = exStoreVerified :=
  saveRegistrationStep_step1_duplicate_contact exStoreVerified 10 true "new"
    (stepBody 1 (step1Form "b@x.com" "+911234567890")) _ _ exOtp exRegistration
    rfl rfl rfl rfl rfl (by decide) (by decide) (by simp [exStoreVerified]) rfl rfl
    (by simp [exStoreVerified, exStore]) rfl

/-! ## C11: a later step for an unknown e-mail -/

/-- C11, as stated, fails on the status: a step-2 save whose e-mail matches no
registration answers 400 ("Cannot create registration starting from step other
than 1"), not 404; the store is unchanged. -/
theorem saveRegistrationStep_unknown_email_is_400 :
    findOneByEmail exStore.registrations (some (.str "z@x.com")) = none ∧
    (saveRegistrationStep exStore 10 true "1"
      (stepBody 2 (formOfPersonalInfo [("email", .str "z@x.com")]))).response.status = 400 ∧
    (saveRegistrationStep exStore 10 true "1"
      (stepBody 2 (formOfPersonalInfo [("email", .str "z@x.com")]))).response.status ≠ 404 ∧
    (saveRegistrationStep exStore 10 true "1"
      (stepBody 2 (formOfPersonalInfo [("email", .str "z@x.com")]))).response.message
      = "Cannot create registration starting from step other than 1" :=
  ⟨rfl, rfl, by decide, by decide⟩

/-- C11 (amended): for every `saveRegistrationStep` call with step in 2..8
whose payload e-mail (`personalInfo.email`) matches no existing registration,
the call fails with 400 "Cannot create registration starting from step other
than 1" and the store is unchanged, so no registration is created. -/
theorem saveRegistrationStep_later_step_unknown_email (s : Store) (now : Nat)
    (mailOk : Bool) (id : String) (body : StepBody) (n : Int) (P0 : FormDataStructured)
    (pi0 : Obj)
    (hstep : body.step = some n) (h2 : 2 ≤ n) (h8 : n ≤ 8)
    (hdata : body.stepData = some { formDataStructured := some P0 })
    (hpi : P0.personalInfo = some pi0)
    (hnew : findOneByEmail s.registrations (Obj.get? pi0 "email") = none) :
    (saveRegistrationStep s now mailOk id body).response.status = 400 ∧
    (saveRegistrationStep s now mailOk id body).response.message =
      "Cannot create registration starting from step other than 1" ∧
    (saveRegistrationStep s now mailOk id body).store = s := by
  have hn1 : ¬ n = 1 := by omega
  have hne : body.step ≠ some 1 := by
    rw [hstep]
    intro h
    exact hn1 (Option.some.inj h)
  have hn0 : ¬ (n = 0 ∨ n < 1 ∨ n > 8) := by omega
  simp only [saveRegistrationStep, saveRegistrationStepTry, normalizeStep1_of_ne body hne, hstep,
    hn0, if_false, hdata, hpi, hnew, createNew, hn1]
  exact ⟨rfl, rfl, trivial⟩

/-- An instance of C11 (amended): step 5 for an e-mail the store does not
know. -/
theorem saveRegistrationStep_later_step_unknown_email_witness :
    (saveRegistrationStep exStore 10 true "1"
      (stepBody 5 (formOfPersonalInfo [("email", .str "z@x.com")]))).response.status = 400 ∧
    (saveRegistrationStep exStore 10 true "1"
      (stepBody 5 (formOfPersonalInfo [("email", .str "z@x.com")]))).response.message =
      "Cannot create registration starting from step other than 1" ∧
    (saveRegistrationStep exStore 10 true "1"
      (stepBody 5 (formOfPersonalInfo [("email", .str "z@x.com")]))).store = exStore :=
  saveRegistrationStep_later_step_unknown_email exStore 10 true "1"
    (stepBody 5 (formOfPersonalInfo [("email", .str "z@x.com")])) 5 _ _ rfl (by decide)
    (by decide) rfl rfl rfl

/-! ## C12: validation of the request -/

/-- C12 fails on the code at step 1: with `stepData` absent the step-1 rewrite
dereferences `stepData.formDataStructured` before the validation runs, and the
call answers 500 "Internal server error".  For comparison, step 2 with
`stepData` absent, step 9 and a missing step all answer 400, and no call
changes the store. -/
theorem saveRegistrationStep_step1_without_data_is_500 :
    (saveRegistrationStep exStore 10 true "new"
      { step := some 1, stepData := none, verificationToken := none }).response.status = 500 ∧
    (saveRegistrationStep exStore 10 true "new"
      { step := some 1, stepData := none, verificationToken := none }).response.message
      = "Internal server error" ∧
    (saveRegistrationStep exStore 10 true "new"
      { step := some 2, stepData := none, verificationToken := none }).response.status = 400 ∧
    (saveRegistrationStep exStore 10 true "new"
      { step := some 2, stepData := none, verificationToken := none }).response.message
      = "No data provided for this step" ∧
    (saveRegistrationStep exStore 10 true "new"
      { step := some 9, stepData := none, verificationToken := none }).response.status = 400 ∧
    (saveRegistrationStep exStore 10 true "new"
      { step := none, stepData := none, verificationToken := none }).response.status = 400 ∧
    (saveRegistrationStep exStore 10 true "new"
      { step := some 1, stepData := none, verificationToken := none }).store = exStore :=
  ⟨rfl, by decide, rfl, by decide, rfl, rfl, rfl⟩

/-! ## C13: `currentStep` -/

theorem setStepComplete_currentStep (n : Int) (r : Registration) :
    (setStepComplete n r).currentStep = r.currentStep := by
  unfold setStepComplete; split_ifs <;> rfl

theorem applySet_currentStep (c : CleanedData) (r : Registration) :
    (applySet c r).currentStep = setOpt c.currentStep r.currentStep := by
  simp [applySet, setStepComplete_currentStep]

/-- C13, as stated, fails: after a successful save of step 5 the stored
`currentStep` is 5, and a following successful save of step 2 (the client went
back and pressed Next) leaves it at 2. -/
theorem saveRegistrationStep_currentStep_regresses :
    storedCurrentStep (runSteps exStore
      [⟨10, true, "1", stepBody 5 (formOfPersonalInfo [("email", .str "a@x.com")])⟩]) 1
      = some (.num 5) ∧
    (saveRegistrationStep (runSteps exStore
      [⟨10, true, "1", stepBody 5 (formOfPersonalInfo [("email", .str "a@x.com")])⟩])
      20 true "1" (stepBody 2 (formOfPersonalInfo [("email", .str "a@x.com")]))).response.status
      = 200 ∧
    storedCurrentStep (runSteps exStore
      [⟨10, true, "1", stepBody 5 (formOfPersonalInfo [("email", .str "a@x.com")])⟩,
       ⟨20, true, "1", stepBody 2 (formOfPersonalInfo [("email", .str "a@x.com")])⟩]) 1
      = some (.num 2) ∧
    (2 : Int) < 5 :=
  ⟨rfl, rfl, rfl, by decide⟩

/-- C13 (amended): for every registration, after every successful
`saveRegistrationStep` update of step `n` the stored `currentStep` equals `n`,
the step of that call, whatever it was before; it is therefore lowered when a
step is saved after a higher one. -/
theorem saveRegistrationStep_currentStep_is_last (s : Store) (now : Nat) (mailOk : Bool)
    (id : String) (body : StepBody) (n : Int) (P0 : FormDataStructured) (pi0 : Obj)
    (r : Registration)
    (hstep : body.step = some n) (h1 : 1 ≤ n) (h8 : n ≤ 8)
    (hdata : body.stepData = some { formDataStructured := some P0 })
    (hpi : P0.personalInfo = some pi0)
    (hfind : findOneByEmail s.registrations (Obj.get? pi0 "email") = some r)
    (hid : findById s.registrations r.id = some r) :
    (saveRegistrationStep s now mailOk id body).response.status = 200 ∧
    storedCurrentStep (saveRegistrationStep s now mailOk id body).store r.id
      = some (.num n) := by
  obtain ⟨hs, h200⟩ := saveRegistrationStep_update_received s now mailOk id body n P0 pi0 r
    hstep h1 h8 hdata hpi hfind hid
  refine ⟨h200, ?_⟩
  simp only [storedCurrentStep, hs, findById_updateById _ (applySet_id _) r.id s.registrations,
    hid, Option.map_some', applySet_currentStep]
  rfl

/-- An instance of C13 (amended): step 2 saved on a registration whose
`currentStep` is 5. -/
theorem saveRegistrationStep_currentStep_is_last_witness :
    (saveRegistrationStep
      { exStore with registrations := [{ exRegistration with currentStep := some (.num 5) }] }
      20 true "1" (stepBody 2 (formOfPersonalInfo [("email", .str "a@x.com")]))).response.status
      = 200 ∧
    storedCurrentStep (saveRegistrationStep
      { exStore with registrations := [{ exRegistration with currentStep := some (.num 5) }] }
      20 true "1" (stepBody 2 (formOfPersonalInfo [("email", .str "a@x.com")]))).store
      exRegistration.id = some (.num 2) :=
  saveRegistrationStep_currentStep_is_last
    { exStore with registrations := [{ exRegistration with currentStep := some (.num 5) }] }
    20 true "1" (stepBody 2 (formOfPersonalInfo [("email", .str "a@x.com")])) 2 _ _
    { exRegistration with currentStep := some (.num 5) } rfl (by decide) (by decide) rfl rfl
    rfl rfl

/-! ## C14: `formSubmissionComplete` needs step 8 -/

theorem buildCleanedData_stepComplete (now : Nat) (n : Int) (P : FormDataStructured)
    (b : Bool) : (buildCleanedData now n P b).stepComplete = n := by
  unfold buildCleanedData
  dsimp only
  split_ifs
  · cases P.personalInfo <;> cases P.verification <;> rfl
  · rfl
  · rfl
  · rfl

theorem buildCleanedData_formSubmissionComplete (now : Nat) (n : Int)
    (P : FormDataStructured) (b : Bool)
    (h : (buildCleanedData now n P b).formSubmissionComplete ≠ none) : n = 8 := by
  unfold buildCleanedData at h
  dsimp only at h
  split_ifs at h with h1 h3 h8
  · cases hp : P.personalInfo <;> cases hv : P.verification <;> simp [hp, hv] at h
  · exact absurd rfl h
  · exact h8.1
  · exact absurd rfl h

theorem setStepComplete_formSubmissionComplete (n : Int) (r : Registration) :
    (setStepComplete n r).formSubmissionComplete = r.formSubmissionComplete := by
  unfold setStepComplete; split_ifs <;> rfl

theorem setStepComplete_step8 (n : Int) (r : Registration)
    (h : n = 8 ∨ r.step8Complete = true) : (setStepComplete n r).step8Complete = true := by
  unfold setStepComplete
  split_ifs <;> first | rfl | (rcases h with h | h <;> first | exact h | omega)

/-- The invariant of C14 on one document. -/
theorem applySet_keeps_step8 (c : CleanedData) (x : Registration)
    (hc : c.formSubmissionComplete ≠ none → c.stepComplete = 8)
    (hx : x.formSubmissionComplete ≠ none → x.step8Complete = true)
    (h : (applySet c x).formSubmissionComplete ≠ none) :
    (applySet c x).step8Complete = true := by
  have hf : (applySet c x).formSubmissionComplete
      = setOpt c.formSubmissionComplete x.formSubmissionComplete := by
    simp [applySet, setStepComplete_formSubmissionComplete]
  rw [hf] at h
  unfold applySet
  apply setStepComplete_step8
  cases hcf : c.formSubmissionComplete with
  | some v => exact Or.inl (hc (by rw [hcf]; simp))
  | none =>
    rw [hcf] at h
    exact Or.inr (hx h)

theorem mem_updateById (i : Nat) (f : Registration → Registration) (l : List Registration)
    (y : Registration) (h : y ∈ updateById i f l) : y ∈ l ∨ ∃ x, x ∈ l ∧ y = f x := by
  induction l with
  | nil => simp [updateById] at h
  | cons x xs ih =>
    by_cases hx : x.id = i
    · simp only [updateById, hx, beq_self_eq_true, if_true, List.mem_cons] at h
      rcases h with h | h
      · exact Or.inr ⟨x, List.mem_cons_self x xs, h⟩
      · exact Or.inl (List.mem_cons_of_mem x h)
    · have hx2 : (x.id == i) = false := by simpa using hx
      simp only [updateById, hx2, Bool.false_eq_true, if_false, List.mem_cons] at h
      rcases h with h | h
      · exact Or.inl (h ▸ List.mem_cons_self x xs)
      · rcases ih h with h' | ⟨z, hz, hy⟩
        · exact Or.inl (List.mem_cons_of_mem x h')
        · exact Or.inr ⟨z, List.mem_cons_of_mem x hz, hy⟩

theorem registrationData_formSubmissionComplete (id now : Nat) (fds : FormDataStructured)
    (pi : Obj) (email contact : String) :
    (registrationData id now (buildCleanedData now 1 fds false) fds pi email
      contact).formSubmissionComplete = none := by
  have hc : (buildCleanedData now 1 fds false).formSubmissionComplete = none := by
    by_contra h
    have := buildCleanedData_formSubmissionComplete now 1 fds false h
    omega
  simp [registrationData, applySet, setStepComplete_formSubmissionComplete, hc, setOpt,
    blankRegistration]

/-- What `createNew` can do to the store: nothing, or append one document whose
`formSubmissionComplete` is unset. -/
theorem createNew_store_cases (s : Store) (now : Nat) (step : Int) (fds : FormDataStructured)
    (pi : Obj) (out : Outcome StepResponse) (h : createNew s now step fds pi = .ok out) :
    out.store = s ∨
      ∃ doc : Registration, doc.formSubmissionComplete = none ∧
        out.store.registrations = s.registrations ++ [doc] := by
  unfold createNew at h
  by_cases h1 : step = 1
  · subst h1
    simp only [if_true] at h
    split at h
    · cases h; exact Or.inl rfl
    · split at h
      · cases h; exact Or.inl rfl
      · split at h
        · rename_i email contact _ _
          by_cases hv : violatesUnique s.registrations
              (registrationData s.nextId now (buildCleanedData now 1 fds false) fds pi email
                contact).email
              (registrationData s.nextId now (buildCleanedData now 1 fds false) fds pi email
                contact).contactNumber = true
          · simp only [createRegistration, hv, if_true] at h
            cases h
          · simp only [createRegistration, hv, if_false] at h
            cases h
            exact Or.inr ⟨_, registrationData_formSubmissionComplete s.nextId now fds pi email
              contact, rfl⟩
        · cases h
  · simp only [h1, if_false] at h
    cases h
    exact Or.inl rfl

/-- What `saveRegistrationStep` can do to the registrations: nothing, one
`$set: cleanedData` on a stored document, or one appended document whose
`formSubmissionComplete` is unset. -/
theorem saveRegistrationStep_store_cases (s : Store) (now : Nat) (mailOk : Bool) (id : String)
    (body : StepBody) :
    (saveRegistrationStep s now mailOk id body).store = s ∨
    (∃ (i : Nat) (n : Int) (P : FormDataStructured) (r : Registration),
      (saveRegistrationStep s now mailOk id body).store.registrations =
        updateById i (applySet (updateCleanedData now n P r)) s.registrations) ∨
    (∃ doc : Registration, doc.formSubmissionComplete = none ∧
      (saveRegistrationStep s now mailOk id body).store.registrations =
        s.registrations ++ [doc]) := by
  cases hn : normalizeStep1 body with
  | error e =>
    left
    simp [saveRegistrationStep, saveRegistrationStepTry, hn, saveRegistrationStepCatch]
  | ok b =>
    cases hs : b.step with
    | none => left; simp [saveRegistrationStep, saveRegistrationStepTry, hn, hs]
    | some n =>
      by_cases hv : (n = 0 ∨ n < 1 ∨ n > 8)
      · left; simp [saveRegistrationStep, saveRegistrationStepTry, hn, hs, hv]
      · cases hd : b.stepData with
        | none => left; simp [saveRegistrationStep, saveRegistrationStepTry, hn, hs, hv, hd]
        | some sd =>
          cases hf : sd.formDataStructured with
          | none =>
            left
            simp [saveRegistrationStep, saveRegistrationStepTry, hn, hs, hv, hd, hf,
              saveRegistrationStepCatch]
          | some fds =>
            cases hp : fds.personalInfo with
            | none =>
              left
              simp [saveRegistrationStep, saveRegistrationStepTry, hn, hs, hv, hd, hf, hp,
                saveRegistrationStepCatch]
            | some pi =>
              cases he : findOneByEmail s.registrations (Obj.get? pi "email") with
              | some existing =>
                cases hid : findById s.registrations existing.id with
                | none =>
                  left
                  simp [saveRegistrationStep, saveRegistrationStepTry, hn, hs, hv, hd, hf, hp,
                    he, updateExisting, hid, saveRegistrationStepCatch]
                | some doc =>
                  right; left
                  refine ⟨existing.id, n, fds, existing, ?_⟩
                  simp [saveRegistrationStep, saveRegistrationStepTry, hn, hs, hv, hd, hf, hp,
                    he, updateExisting, hid]
              | none =>
                have hsave : saveRegistrationStep s now mailOk id body =
                    match createNew s now n fds pi with
                    | .ok out => out
                    | .error e => saveRegistrationStepCatch s e := by
                  simp [saveRegistrationStep, saveRegistrationStepTry, hn, hs, hv, hd, hf, hp,
                    he]
                rw [hsave]
                cases hc : createNew s now n fds pi with
                | error e => left; rfl
                | ok out =>
                  rcases createNew_store_cases s now n fds pi out hc with h | h
                  · exact Or.inl h
                  · exact Or.inr (Or.inr h)

theorem updateCleanedData_step8 (now : Nat) (n : Int) (P : FormDataStructured)
    (r : Registration)
    (h : (updateCleanedData now n P r).formSubmissionComplete ≠ none) :
    (updateCleanedData now n P r).stepComplete = 8 := by
  have h1 : (updateCleanedData now n P r).formSubmissionComplete
      = (buildCleanedData now n P true).formSubmissionComplete := rfl
  have h2 : (updateCleanedData now n P r).stepComplete
      = (buildCleanedData now n P true).stepComplete := rfl
  rw [h2, buildCleanedData_stepComplete]
  rw [h1] at h
  exact buildCleanedData_formSubmissionComplete now n P true h

theorem saveRegistrationStep_keeps_step8 (s : Store) (now : Nat) (mailOk : Bool) (id : String)
    (body : StepBody)
    (hinv : ∀ r, r ∈ s.registrations → r.formSubmissionComplete ≠ none →
      r.step8Complete = true) :
    ∀ r, r ∈ (saveRegistrationStep s now mailOk id body).store.registrations →
      r.formSubmissionComplete ≠ none → r.step8Complete = true := by
  intro y hy hf
  rcases saveRegistrationStep_store_cases s now mailOk id body with h | ⟨i, n, P, r, h⟩ |
    ⟨doc, hdoc, h⟩
  · rw [h] at hy
    exact hinv y hy hf
  · rw [h] at hy
    rcases mem_updateById _ _ _ _ hy with hy' | ⟨x, hx, hyx⟩
    · exact hinv y hy' hf
    · subst hyx
      exact applySet_keeps_step8 _ x (updateCleanedData_step8 now n P r) (hinv x hx) hf
  · rw [h, List.mem_append, List.mem_singleton] at hy
    rcases hy with hy | hy
    · exact hinv y hy hf
    · subst hy
      exact absurd hdoc hf

theorem runSteps_keeps_step8 (calls : List StepCall) (s : Store)
    (hinv : ∀ r, r ∈ s.registrations → r.formSubmissionComplete ≠ none →
      r.step8Complete = true) :
    ∀ r, r ∈ (runSteps s calls).registrations → r.formSubmissionComplete ≠ none →
      r.step8Complete = true := by
  induction calls generalizing s with
  | nil => exact hinv
  | cons c cs ih =>
    exact ih _ (saveRegistrationStep_keeps_step8 s c.now c.mailOk c.id c.body hinv)

/-- C14: in every state reached from a store without registrations by any
sequence of `saveRegistrationStep` calls (creation at step 1, then updates,
with arbitrary bodies), a registration whose `formSubmissionComplete` is true
has `step8Complete = true`; and `cleanedData` carries `formSubmissionComplete`
only when the step is 8. -/
theorem formSubmissionComplete_requires_step8 (s0 : Store) (calls : List StepCall)
    (r : Registration)
    (h0 : s0.registrations = [])
    (hr : r ∈ (runSteps s0 calls).registrations)
    (hc : truthy r.formSubmissionComplete = true) :
    r.step8Complete = true ∧
    ∀ (now : Nat) (n : Int) (P : FormDataStructured) (emailExists : Bool),
      (buildCleanedData now n P emailExists).formSubmissionComplete ≠ none → n = 8 := by
  refine ⟨?_, buildCleanedData_formSubmissionComplete⟩
  apply runSteps_keeps_step8 calls s0 _ r hr
  · intro hn
    rw [hn] at hc
    exact absurd hc (by decide)
  · intro x hx
    rw [h0] at hx
    cases hx

/-- An instance of C14: the registration created at step 1 and completed at
step 8. -/
theorem formSubmissionComplete_requires_step8_witness :
    exCompleted ∈ (runSteps exStoreGate exShortRun).registrations ∧
    truthy exCompleted.formSubmissionComplete = true ∧
    exCompleted.step8Complete = true :=
  ⟨List.Mem.head _, rfl,
    (formSubmissionComplete_requires_step8 exStoreGate exShortRun exCompleted rfl
      (List.Mem.head _) rfl).1⟩

/-! ## Lemmas on the verification records -/

theorem find?_of_filter_singleton (p : OtpVerification → Bool) (l : List OtpVerification)
    (r : OtpVerification) (h : l.filter p = [r]) : l.find? p = some r := by
  induction l with
  | nil => simp at h
  | cons x xs ih =>
    by_cases hx : p x = true
    · simp only [List.filter_cons, hx, if_true] at h
      simp only [List.find?_cons, hx]
      exact congrArg some (List.cons.inj h).1
    · have hx2 : p x = false := by simpa using hx
      simp only [List.filter_cons, hx2, Bool.false_eq_true, if_false] at h
      simp only [List.find?_cons, hx2]
      exact ih h

theorem find?_of_filter_nil (p : OtpVerification → Bool) (l : List OtpVerification)
    (h : l.filter p = []) : l.find? p = none := by
  rw [List.find?_eq_none]
  intro x hx hp
  have : x ∈ l.filter p := List.mem_filter.mpr ⟨hx, hp⟩
  rw [h] at this
  cases this

theorem filter_saveFound (p : OtpVerification → Bool) (l : List OtpVerification)
    (r doc : OtpVerification) (h : l.filter p = [r]) (hdoc : p doc = true) :
    (saveFound p doc l).filter p = [doc] := by
  induction l with
  | nil => simp at h
  | cons x xs ih =>
    by_cases hx : p x = true
    · simp only [List.filter_cons, hx, if_true] at h
      have hxs : xs.filter p = [] := (List.cons.inj h).2
      simp [saveFound, hx, List.filter_cons, hdoc, hxs]
    · have hx2 : p x = false := by simpa using hx
      simp only [List.filter_cons, hx2, Bool.false_eq_true, if_false] at h
      simp [saveFound, hx2, List.filter_cons, ih h]

theorem filter_deleteFound (p : OtpVerification → Bool) (l : List OtpVerification)
    (r : OtpVerification) (h : l.filter p = [r]) :
    (deleteFound p l).filter p = [] := by
  induction l with
  | nil => simp at h
  | cons x xs ih =>
    by_cases hx : p x = true
    · simp only [List.filter_cons, hx, if_true] at h
      simpa [deleteFound, hx] using (List.cons.inj h).2
    · have hx2 : p x = false := by simpa using hx
      simp only [List.filter_cons, hx2, Bool.false_eq_true, if_false] at h
      simp [deleteFound, hx2, List.filter_cons, ih h]

theorem mem_saveFound (p : OtpVerification → Bool) (doc : OtpVerification)
    (l : List OtpVerification) (y : OtpVerification) (h : y ∈ saveFound p doc l) :
    y = doc ∨ y ∈ l := by
  induction l with
  | nil => simp [saveFound] at h
  | cons x xs ih =>
    by_cases hx : p x = true
    · simp only [saveFound, hx, if_true, List.mem_cons] at h
      rcases h with h | h
      · exact Or.inl h
      · exact Or.inr (List.mem_cons_of_mem x h)
    · have hx2 : p x = false := by simpa using hx
      simp only [saveFound, hx2, Bool.false_eq_true, if_false, List.mem_cons] at h
      rcases h with h | h
      · exact Or.inr (h ▸ List.mem_cons_self x xs)
      · rcases ih h with h' | h'
        · exact Or.inl h'
        · exact Or.inr (List.mem_cons_of_mem x h')

theorem mem_deleteFound (p : OtpVerification → Bool) (l : List OtpVerification)
    (y : OtpVerification) (h : y ∈ deleteFound p l) : y ∈ l := by
  induction l with
  | nil => simp [deleteFound] at h
  | cons x xs ih =>
    by_cases hx : p x = true
    · simp only [deleteFound, hx, if_true] at h
      exact List.mem_cons_of_mem x h
    · have hx2 : p x = false := by simpa using hx
      simp only [deleteFound, hx2, Bool.false_eq_true, if_false, List.mem_cons] at h
      rcases h with h | h
      · exact h ▸ List.mem_cons_self x xs
      · exact List.mem_cons_of_mem x (ih h)

theorem find?_saveFound (p : OtpVerification → Bool) (l : List OtpVerification)
    (r doc : OtpVerification) (h : l.find? p = some r) (hdoc : p doc = true) :
    (saveFound p doc l).find? p = some doc := by
  induction l with
  | nil => simp at h
  | cons x xs ih =>
    by_cases hx : p x = true
    · simp [saveFound, hx, List.find?_cons, hdoc]
    · have hx2 : p x = false := by simpa using hx
      simp only [List.find?_cons, hx2] at h
      simp [saveFound, hx2, List.find?_cons, ih h]

theorem find?_append_new (p : OtpVerification → Bool) (l : List OtpVerification)
    (doc : OtpVerification) (h : l.find? p = none) (hdoc : p doc = true) :
    (l ++ [doc]).find? p = some doc := by
  induction l with
  | nil => simp [List.find?_cons, hdoc]
  | cons x xs ih =>
    by_cases hx : p x = true
    · simp [List.find?_cons, hx] at h
    · have hx2 : p x = false := by simpa using hx
      simp only [List.find?_cons, hx2] at h
      simp [List.find?_cons, hx2, ih h]

theorem truthyStr_some (v : String) (h : v ≠ "") : truthyStr (some v) = true := by
  simp [truthyStr, h]

theorem verifyOtp_notFound (s : Store) (now : Nat) (tok email contact code : String)
    (he : email ≠ "") (hc : contact ≠ "") (hcode : code ≠ "")
    (hfind : findOneOtp s.otps email contact = none) :
    verifyOtp s now tok (otpBody email contact code) =
      { store := s, mail := none,
        response :=
          verifyOtpError 404 "No OTP verification found with this email or contact number" } := by
  simp [verifyOtp, otpBody, truthyStr_some, he, hc, hcode, hfind]

theorem verifyOtp_expired (s : Store) (now : Nat) (tok email contact code : String)
    (r : OtpVerification)
    (he : email ≠ "") (hc : contact ≠ "") (hcode : code ≠ "")
    (hfind : findOneOtp s.otps email contact = some r) (hexp : otpExpired r now = true) :
    verifyOtp s now tok (otpBody email contact code) =
      { store := s, mail := none, response := verifyOtpError 400 "OTP has expired" } := by
  simp [verifyOtp, otpBody, truthyStr_some, he, hc, hcode, hfind, hexp]

theorem verifyOtp_exhausted (s : Store) (now : Nat) (tok email contact code : String)
    (r : OtpVerification)
    (he : email ≠ "") (hc : contact ≠ "") (hcode : code ≠ "")
    (hfind : findOneOtp s.otps email contact = some r) (hexp : otpExpired r now = false)
    (h5 : 5 ≤ r.attempts) :
    verifyOtp s now tok (otpBody email contact code) =
      { store := { s with otps := deleteFound (otpMatches email contact) s.otps },
        mail := none,
        response :=
          verifyOtpError 400 "Maximum attempts exceeded. Please request a new OTP." } := by
  have h : r.attempts + 1 > 5 := by omega
  simp [verifyOtp, otpBody, truthyStr_some, he, hc, hcode, hfind, hexp, h]

theorem verifyOtp_wrong (s : Store) (now : Nat) (tok email contact code : String)
    (r : OtpVerification)
    (he : email ≠ "") (hc : contact ≠ "") (hcode : code ≠ "")
    (hfind : findOneOtp s.otps email contact = some r) (hexp : otpExpired r now = false)
    (h5 : r.attempts < 5) (hne : code ≠ r.otp) :
    verifyOtp s now tok (otpBody email contact code) =
      { store := { s with
                   otps := saveFound (otpMatches email contact)
                     { r with attempts := r.attempts + 1 } s.otps },
        mail := none,
        response :=
          verifyOtpError 401
            ("Invalid OTP. " ++ toString (5 - (r.attempts + 1)) ++ " attempts remaining.") } := by
  have h : ¬ r.attempts + 1 > 5 := by omega
  have hne2 : (r.otp != code) = true := by
    simp only [bne_iff_ne, ne_eq]
    exact fun e => hne e.symm
  simp [verifyOtp, otpBody, truthyStr_some, he, hc, hcode, hfind, hexp, h, hne2]

theorem verifyOtp_correct (s : Store) (now : Nat) (tok email contact : String)
    (r : OtpVerification)
    (he : email ≠ "") (hc : contact ≠ "") (hcode : r.otp ≠ "")
    (hfind : findOneOtp s.otps email contact = some r) (hexp : otpExpired r now = false)
    (h5 : r.attempts < 5) :
    verifyOtp s now tok (otpBody email contact r.otp) =
      { store := { s with
                   otps := saveFound (otpMatches email contact)
                     { r with attempts := r.attempts + 1, verified := true,
                              verifiedAt := some now } s.otps },
        mail := none,
        response :=
          { status := 200, message := "OTP verified successfully",
            verified := some true, verificationToken := some tok,
            existingRegistration :=
              some (findOneByEmailOrContact s.registrations email contact).isSome,
            registrationId :=
              (findOneByEmailOrContact s.registrations email contact).map Registration.id } } := by
  have h : ¬ r.attempts + 1 > 5 := by omega
  simp [verifyOtp, otpBody, truthyStr_some, he, hc, hcode, hfind, hexp, h]

/-! ## C15: five wrong codes -/

theorem verifyAll_cons (s : Store) (email contact : String) (t : Nat × String × String)
    (ts : List (Nat × String × String)) :
    verifyAll s email contact (t :: ts) =
      verifyAll (verifyOtp s t.1 t.2.1 (otpBody email contact t.2.2)).store email contact ts :=
  rfl

theorem verifyAll_notFound (tries : List (Nat × String × String)) (s : Store)
    (email contact : String) (he : email ≠ "") (hc : contact ≠ "")
    (hcodes : ∀ t, t ∈ tries → t.2.2 ≠ "")
    (hnone : s.otps.filter (otpMatches email contact) = []) :
    verifyAll s email contact tries = s := by
  induction tries with
  | nil => rfl
  | cons t ts ih =>
    rw [verifyAll_cons, verifyOtp_notFound s t.1 t.2.1 email contact t.2.2 he hc
      (hcodes t (List.mem_cons_self t ts)) (find?_of_filter_nil _ _ hnone)]
    exact ih (fun u hu => hcodes u (List.mem_cons_of_mem t hu))

theorem matches_of_filter (email contact : String) (l : List OtpVerification)
    (r : OtpVerification) (h : l.filter (otpMatches email contact) = [r]) :
    otpMatches email contact r = true := by
  have : r ∈ l.filter (otpMatches email contact) := by rw [h]; exact List.mem_singleton_self r
  exact (List.mem_filter.mp this).2

/-- Wrong codes that still fit under the limit only count up. -/
theorem verifyAll_wrong_counts (tries : List (Nat × String × String)) (s : Store)
    (email contact : String) (r : OtpVerification)
    (he : email ≠ "") (hc : contact ≠ "")
    (huniq : s.otps.filter (otpMatches email contact) = [r])
    (hwrong : ∀ t, t ∈ tries → t.2.2 ≠ "" ∧ t.2.2 ≠ r.otp ∧ otpExpired r t.1 = false)
    (hfit : r.attempts + tries.length ≤ 5) :
    (verifyAll s email contact tries).otps.filter (otpMatches email contact) =
      [{ r with attempts := r.attempts + tries.length }] := by
  induction tries generalizing s r with
  | nil => simpa using huniq
  | cons t ts ih =>
    obtain ⟨h1, h2, h3⟩ := hwrong t (List.mem_cons_self t ts)
    have hlen : (t :: ts).length = ts.length + 1 := rfl
    rw [hlen] at hfit
    rw [verifyAll_cons, verifyOtp_wrong s t.1 t.2.1 email contact t.2.2 r he hc h1
      (find?_of_filter_singleton _ _ _ huniq) h3 (by omega) h2]
    have hstep := filter_saveFound (otpMatches email contact) s.otps r
      { r with attempts := r.attempts + 1 } huniq (matches_of_filter email contact _ r huniq)
    have := ih
      { s with
        otps := saveFound (otpMatches email contact) { r with attempts := r.attempts + 1 } s.otps }
      { r with attempts := r.attempts + 1 } hstep
      (fun u hu => hwrong u (List.mem_cons_of_mem t hu)) (by simp only; omega)
    rw [this, hlen]
    simp only [Nat.add_assoc, Nat.add_comm 1]

/-- Wrong codes that pass the limit remove the record. -/
theorem verifyAll_wrong_deletes (tries : List (Nat × String × String)) (s : Store)
    (email contact : String) (r : OtpVerification)
    (he : email ≠ "") (hc : contact ≠ "")
    (huniq : s.otps.filter (otpMatches email contact) = [r])
    (hwrong : ∀ t, t ∈ tries → t.2.2 ≠ "" ∧ t.2.2 ≠ r.otp ∧ otpExpired r t.1 = false)
    (hlen : 1 ≤ tries.length) (hover : 5 < r.attempts + tries.length) :
    (verifyAll s email contact tries).otps.filter (otpMatches email contact) = [] := by
  induction tries generalizing s r with
  | nil => simp at hlen
  | cons t ts ih =>
    obtain ⟨h1, h2, h3⟩ := hwrong t (List.mem_cons_self t ts)
    have hl : (t :: ts).length = ts.length + 1 := rfl
    rw [hl] at hover
    rw [verifyAll_cons]
    by_cases h5 : 5 ≤ r.attempts
    · rw [verifyOtp_exhausted s t.1 t.2.1 email contact t.2.2 r he hc h1
        (find?_of_filter_singleton _ _ _ huniq) h3 h5]
      have hgone := filter_deleteFound (otpMatches email contact) s.otps r huniq
      rw [verifyAll_notFound ts _ email contact he hc
        (fun u hu => (hwrong u (List.mem_cons_of_mem t hu)).1) hgone]
      exact hgone
    · rw [verifyOtp_wrong s t.1 t.2.1 email contact t.2.2 r he hc h1
        (find?_of_filter_singleton _ _ _ huniq) h3 (by omega) h2]
      have hstep := filter_saveFound (otpMatches email contact) s.otps r
        { r with attempts := r.attempts + 1 } huniq (matches_of_filter email contact _ r huniq)
      exact ih
        { s with
          otps := saveFound (otpMatches email contact) { r with attempts := r.attempts + 1 }
            s.otps }
        { r with attempts := r.attempts + 1 } hstep
        (fun u hu => hwrong u (List.mem_cons_of_mem t hu)) (by omega) (by simp only; omega)

/-- C15 (amended): let an unexpired verification record be the only record
that matches the e-mail or the contact number of the calls.  After five
`verifyOtp` calls with a wrong code a sixth call carrying the correct code does
not succeed.  With the five wrong calls being the first five (`attempts = 0`
before them) the sixth fails with 400 "Maximum attempts exceeded. Please request
a new OTP." and deletes the record; had attempts been counted before, one of the
five wrong calls has already deleted it and the sixth fails with 404.  In both
cases no record is found for the pair afterwards and every further `verifyOtp`
call for it fails with 404 NotFound. -/
theorem verifyOtp_after_five_wrong (s : Store) (email contact : String)
    (r : OtpVerification) (tries : List (Nat × String × String)) (now6 : Nat) (tok6 : String)
    (he : email ≠ "") (hc : contact ≠ "") (hotp : r.otp ≠ "")
    (huniq : s.otps.filter (otpMatches email contact) = [r])
    (hlen : tries.length = 5)
    (hwrong : ∀ t, t ∈ tries → t.2.2 ≠ "" ∧ t.2.2 ≠ r.otp ∧ otpExpired r t.1 = false)
    (hnow : otpExpired r now6 = false) :
    (r.attempts = 0 →
      (verifyOtp (verifyAll s email contact tries) now6 tok6
        (otpBody email contact r.otp)).response.status = 400 ∧
      (verifyOtp (verifyAll s email contact tries) now6 tok6
        (otpBody email contact r.otp)).response.message
        = "Maximum attempts exceeded. Please request a new OTP.") ∧
    (1 ≤ r.attempts →
      (verifyOtp (verifyAll s email contact tries) now6 tok6
        (otpBody email contact r.otp)).response.status = 404) ∧
    findOneOtp (verifyOtp (verifyAll s email contact tries) now6 tok6
      (otpBody email contact r.otp)).store.otps email contact = none ∧
    ∀ (now : Nat) (tok code : String), code ≠ "" →
      (verifyOtp (verifyOtp (verifyAll s email contact tries) now6 tok6
        (otpBody email contact r.otp)).store now tok
        (otpBody email contact code)).response.status = 404 := by
  by_cases h0 : r.attempts = 0
  · have h5 := verifyAll_wrong_counts tries s email contact r he hc huniq hwrong (by omega)
    have hfind := find?_of_filter_singleton _ _ _ h5
    have hex := verifyOtp_exhausted (verifyAll s email contact tries) now6 tok6 email contact
      r.otp { r with attempts := r.attempts + tries.length } he hc hotp hfind hnow
      (by simp only; omega)
    have hgone := filter_deleteFound _ _ _ h5
    rw [hex]
    refine ⟨fun _ => ⟨rfl, rfl⟩, fun h => by omega, find?_of_filter_nil _ _ hgone, ?_⟩
    intro now tok code hcode
    rw [verifyOtp_notFound _ now tok email contact code he hc hcode
      (find?_of_filter_nil _ _ hgone)]
    rfl
  · have hgone := verifyAll_wrong_deletes tries s email contact r he hc huniq hwrong
      (by omega) (by omega)
    have hnf := verifyOtp_notFound (verifyAll s email contact tries) now6 tok6 email contact
      r.otp he hc hotp (find?_of_filter_nil _ _ hgone)
    rw [hnf]
    refine ⟨fun h => absurd h h0, fun _ => rfl, find?_of_filter_nil _ _ hgone, ?_⟩
    intro now tok code hcode
    rw [verifyOtp_notFound _ now tok email contact code he hc hcode
      (find?_of_filter_nil _ _ hgone)]
    rfl

/-- An instance of C15 (amended): the freshly issued record of the example store, five
wrong codes, then the right one. -/
theorem verifyOtp_after_five_wrong_witness :
    (verifyOtp (verifyAll exStoreIssued "n@x.com" "+915555555555" fiveWrong) 7000 "t6"
      (otpBody "n@x.com" "+915555555555" exOtpIssued.otp)).response.status = 400 ∧
    (verifyOtp (verifyAll exStoreIssued "n@x.com" "+915555555555" fiveWrong) 7000 "t6"
      (otpBody "n@x.com" "+915555555555" exOtpIssued.otp)).response.message
      = "Maximum attempts exceeded. Please request a new OTP." ∧
    findOneOtp (verifyOtp (verifyAll exStoreIssued "n@x.com" "+915555555555" fiveWrong) 7000
      "t6" (otpBody "n@x.com" "+915555555555" exOtpIssued.otp)).store.otps
      "n@x.com" "+915555555555" = none :=
  have h := verifyOtp_after_five_wrong exStoreIssued "n@x.com" "+915555555555" exOtpIssued
    fiveWrong 7000 "t6" (by decide) (by decide) (by decide) rfl rfl
    (by
      intro t ht
      simp only [fiveWrong, List.mem_cons, List.mem_singleton, List.not_mem_nil, or_false] at ht
      rcases ht with ht | ht | ht | ht | ht <;> subst ht <;>
        exact ⟨by decide, by decide, rfl⟩)
    rfl
  ⟨(h.1 rfl).1, (h.1 rfl).2, h.2.2.1⟩

/-! ## C16: the attempts counter -/

theorem sendOtp_store (s : Store) (now : Nat) (otp : String) (ip ua : Option String)
    (emailOk whatsappOk production : Bool) (body : OtpBody) :
    (sendOtp s now otp ip ua emailOk whatsappOk production body).store =
      if (!truthyStr body.email || !truthyStr body.contactNumber) = true then s
      else
        match findOneOtp s.otps (body.email.getD "") (body.contactNumber.getD "") with
        | some found =>
          { s with
            otps := saveFound (otpMatches (body.email.getD "") (body.contactNumber.getD ""))
              (reissue found otp now ip ua) s.otps }
        | none =>
          { s with
            otps := s.otps ++ [newOtpVerification s.nextId (body.email.getD "")
              (body.contactNumber.getD "") otp now ip ua],
            nextId := s.nextId + 1 } := by
  unfold sendOtp
  by_cases h : (!truthyStr body.email || !truthyStr body.contactNumber) = true
  · simp only [h, if_true]
  · simp only [h, Bool.false_eq_true, if_false]
    cases findOneOtp s.otps (body.email.getD "") (body.contactNumber.getD "") <;>
      by_cases hd : (emailOk && whatsappOk) = true <;>
      simp only [hd, Bool.false_eq_true, if_true, if_false]

/-- The record `sendOtp` leaves for the requested pair: the reissued first match,
or a new record. -/
theorem sendOtp_found (s : Store) (now : Nat) (otp : String) (ip ua : Option String)
    (emailOk whatsappOk production : Bool) (email contact : String) (code : Option String)
    (he : email ≠ "") (hc : contact ≠ "") :
    findOneOtp (sendOtp s now otp ip ua emailOk whatsappOk production
        { email := some email, contactNumber := some contact, otp := code }).store.otps
        email contact =
      some (match findOneOtp s.otps email contact with
        | some found => reissue found otp now ip ua
        | none => newOtpVerification s.nextId email contact otp now ip ua) := by
  have hstore : (sendOtp s now otp ip ua emailOk whatsappOk production
        { email := some email, contactNumber := some contact, otp := code }).store =
      match findOneOtp s.otps email contact with
      | some found =>
        { s with otps := saveFound (otpMatches email contact) (reissue found otp now ip ua)
                   s.otps }
      | none =>
        { s with otps := s.otps ++ [newOtpVerification s.nextId email contact otp now ip ua],
                 nextId := s.nextId + 1 } := by
    rw [sendOtp_store]
    simp only [truthyStr_some, he, hc, ne_eq, not_false_eq_true, Bool.not_true,
      Bool.or_self, Bool.false_eq_true, if_false, Option.getD_some]
  rw [hstore]
  cases hf : findOneOtp s.otps email contact with
  | some found =>
    have hm : otpMatches email contact found = true := List.find?_some hf
    exact find?_saveFound _ _ found _ hf hm
  | none =>
    exact find?_append_new _ _ _ hf (by simp [otpMatches, newOtpVerification])

theorem sendOtp_store_cases (s : Store) (now : Nat) (otp : String) (ip ua : Option String)
    (emailOk whatsappOk production : Bool) (body : OtpBody) :
    (sendOtp s now otp ip ua emailOk whatsappOk production body).store.otps = s.otps ∨
    ∃ (p : OtpVerification → Bool) (doc : OtpVerification), doc.attempts = 0 ∧
      ((sendOtp s now otp ip ua emailOk whatsappOk production body).store.otps
          = saveFound p doc s.otps ∨
       (sendOtp s now otp ip ua emailOk whatsappOk production body).store.otps
          = s.otps ++ [doc]) := by
  rw [sendOtp_store]
  by_cases h : (!truthyStr body.email || !truthyStr body.contactNumber) = true
  · simp only [h, if_true]
    first | exact Or.inl rfl | exact Or.inl trivial
  · simp only [h, Bool.false_eq_true, if_false]
    right
    cases findOneOtp s.otps (body.email.getD "") (body.contactNumber.getD "") with
    | some found => exact ⟨_, reissue found otp now ip ua, rfl, Or.inl rfl⟩
    | none => exact ⟨fun _ => false, _, rfl, Or.inr rfl⟩

theorem verifyOtp_store_cases (s : Store) (now : Nat) (token : String) (body : OtpBody) :
    (verifyOtp s now token body).store.otps = s.otps ∨
    (∃ p : OtpVerification → Bool,
      (verifyOtp s now token body).store.otps = deleteFound p s.otps) ∨
    ∃ (p : OtpVerification → Bool) (doc : OtpVerification), doc.attempts ≤ 5 ∧
      (verifyOtp s now token body).store.otps = saveFound p doc s.otps := by
  unfold verifyOtp
  by_cases h : (!truthyStr body.email || !truthyStr body.contactNumber ||
      !truthyStr body.otp) = true
  · simp only [h, if_true]
    first | exact Or.inl rfl | exact Or.inl trivial
  · simp only [h, Bool.false_eq_true, if_false]
    cases hf : findOneOtp s.otps (body.email.getD "") (body.contactNumber.getD "") with
    | none => exact Or.inl rfl
    | some found =>
      by_cases hexp : otpExpired found now = true
      · simp only [hexp, if_true]
        first | exact Or.inl rfl | exact Or.inl trivial
      · simp only [hexp, Bool.false_eq_true, if_false]
        by_cases h5 : found.attempts + 1 > 5
        · simp only [h5, if_true]
          exact Or.inr (Or.inl ⟨_, rfl⟩)
        · simp only [h5, if_false]
          have hle : found.attempts + 1 ≤ 5 := by omega
          by_cases hne : (found.otp != body.otp.getD "") = true
          · simp only [hne, if_true]
            exact Or.inr (Or.inr ⟨_, _, hle, rfl⟩)
          · simp only [hne, Bool.false_eq_true, if_false]
            exact Or.inr (Or.inr ⟨_, _, hle, rfl⟩)

theorem runOtpCall_keeps_bound (s : Store) (c : OtpCall)
    (hinv : ∀ o, o ∈ s.otps → o.attempts ≤ 5) :
    ∀ o, o ∈ (runOtpCall s c).otps → o.attempts ≤ 5 := by
  intro o ho
  cases c with
  | send now otp ip ua emailOk whatsappOk production body =>
    simp only [runOtpCall] at ho
    rcases sendOtp_store_cases s now otp ip ua emailOk whatsappOk production body with
      h | ⟨p, doc, hdoc, h | h⟩
    · rw [h] at ho; exact hinv o ho
    · rw [h] at ho
      rcases mem_saveFound p doc s.otps o ho with h' | h'
      · rw [h', hdoc]; omega
      · exact hinv o h'
    · rw [h, List.mem_append, List.mem_singleton] at ho
      rcases ho with h' | h'
      · exact hinv o h'
      · rw [h', hdoc]; omega
  | verify now token body =>
    simp only [runOtpCall] at ho
    rcases verifyOtp_store_cases s now token body with h | ⟨p, h⟩ | ⟨p, doc, hdoc, h⟩
    · rw [h] at ho; exact hinv o ho
    · rw [h] at ho; exact hinv o (mem_deleteFound p s.otps o ho)
    · rw [h] at ho
      rcases mem_saveFound p doc s.otps o ho with h' | h'
      · rw [h']; exact hdoc
      · exact hinv o h'

theorem runOtpCalls_keeps_bound (calls : List OtpCall) (s : Store)
    (hinv : ∀ o, o ∈ s.otps → o.attempts ≤ 5) :
    ∀ o, o ∈ (runOtpCalls s calls).otps → o.attempts ≤ 5 := by
  induction calls generalizing s with
  | nil => exact hinv
  | cons c cs ih => exact ih (runOtpCall s c) (runOtpCall_keeps_bound s c hinv)

/-- C16: in every state reached from the empty store through `sendOtp` and
`verifyOtp` calls, every stored verification record has `attempts ≤ 5` (the
counter is a natural number, so `0 ≤ attempts` always); a `verifyOtp` call on
an unexpired record that already has 5 attempts deletes the record instead of
saving it; and after every `sendOtp` call that carries an e-mail and a contact
number the record found for the pair has `attempts = 0`. -/
theorem otp_attempts_at_most_five (calls : List OtpCall) (o : OtpVerification)
    (ho : o ∈ (runOtpCalls emptyStore calls).otps) :
    (0 ≤ o.attempts ∧ o.attempts ≤ 5) ∧
    (∀ (s : Store) (now : Nat) (tok email contact code : String) (r : OtpVerification),
      email ≠ "" → contact ≠ "" → code ≠ "" →
      findOneOtp s.otps email contact = some r → otpExpired r now = false →
      5 ≤ r.attempts →
      (verifyOtp s now tok (otpBody email contact code)).store.otps
        = deleteFound (otpMatches email contact) s.otps) ∧
    (∀ (s : Store) (now : Nat) (otp : String) (ip ua : Option String)
      (emailOk whatsappOk production : Bool) (email contact : String) (code : Option String),
      email ≠ "" → contact ≠ "" →
      ∃ d, findOneOtp (sendOtp s now otp ip ua emailOk whatsappOk production
          { email := some email, contactNumber := some contact, otp := code }).store.otps
          email contact = some d ∧ d.attempts = 0) := by
  refine ⟨⟨Nat.zero_le _, ?_⟩, ?_, ?_⟩
  · exact runOtpCalls_keeps_bound calls emptyStore (by intro x hx; cases hx) o ho
  · intro s now tok email contact code r he hc hcode hfind hexp h5
    rw [verifyOtp_exhausted s now tok email contact code r he hc hcode hfind hexp h5]
  · intro s now otp ip ua emailOk whatsappOk production email contact code he hc
    refine ⟨_, sendOtp_found s now otp ip ua emailOk whatsappOk production email contact code
      he hc, ?_⟩
    cases findOneOtp s.otps email contact <;> rfl

/-- An instance of C16: a code is issued, two wrong codes are tried and a new
code is requested; the stored record has `attempts = 0`. -/
theorem otp_attempts_at_most_five_witness :
    exGateRecord ∈ (runOtpCalls emptyStore exGateRun).otps ∧
    exGateRecord.attempts = 0 ∧
    (0 ≤ exGateRecord.attempts ∧ exGateRecord.attempts ≤ 5) :=
  ⟨List.Mem.head _, rfl,
    (otp_attempts_at_most_five exGateRun exGateRecord (List.Mem.head _)).1⟩

/-! ## C17: the validity window -/

/-- C17 fails on the code: the record was issued at 1000 ms, and ten minutes
later (601000 ms) `verifyOtp` with the stored code answers 200 and stores
`verified = true`, although the e-mail sent with the code says it expires in 5
minutes.  The window that is enforced is 60 minutes: one hour and one
millisecond after issuance the same call answers 400 "OTP has expired". -/
theorem verifyOtp_accepts_after_ten_minutes :
    exOtpIssued.createdAt = 1000 ∧
    (1000 : Nat) + 5 * 60 * 1000 < 601000 ∧
    (verifyOtp exStoreIssued 601000 "tok"
      (otpBody "n@x.com" "+915555555555" "123456")).response.status = 200 ∧
    (verifyOtp exStoreIssued 601000 "tok"
      (otpBody "n@x.com" "+915555555555" "123456")).response.verified = some true ∧
    ((findOneOtp (verifyOtp exStoreIssued 601000 "tok"
      (otpBody "n@x.com" "+915555555555" "123456")).store.otps "n@x.com"
      "+915555555555").map OtpVerification.verified) = some true ∧
    (verifyOtp exStoreIssued 3601000 "tok"
      (otpBody "n@x.com" "+915555555555" "123456")).response.status = 200 ∧
    (verifyOtp exStoreIssued 3601001 "tok"
      (otpBody "n@x.com" "+915555555555" "123456")).response.status = 400 ∧
    (verifyOtp exStoreIssued 3601001 "tok"
      (otpBody "n@x.com" "+915555555555" "123456")).response.message = "OTP has expired" :=
  ⟨rfl, by decide, rfl, rfl, rfl, rfl, rfl, by decide⟩

/-! ## C18: a second code request -/

theorem sendOtp_found_fresh (s : Store) (now : Nat) (otp : String) (ip ua : Option String)
    (emailOk whatsappOk production : Bool) (email contact : String) (code : Option String)
    (he : email ≠ "") (hc : contact ≠ "") :
    ∃ d, findOneOtp (sendOtp s now otp ip ua emailOk whatsappOk production
          { email := some email, contactNumber := some contact, otp := code }).store.otps
          email contact = some d ∧
      d.otp = otp ∧ d.createdAt = now ∧ d.attempts = 0 ∧ d.verified = false := by
  refine ⟨_, sendOtp_found s now otp ip ua emailOk whatsappOk production email contact code
    he hc, ?_⟩
  cases findOneOtp s.otps email contact <;> exact ⟨rfl, rfl, rfl, rfl⟩

/-- A wrong or late code leaves the record found for the pair unverified. -/
theorem verifyOtp_other_code (s : Store) (now : Nat) (tok email contact code : String)
    (d : OtpVerification)
    (he : email ≠ "") (hc : contact ≠ "") (hcode : code ≠ "")
    (hfind : findOneOtp s.otps email contact = some d)
    (hne : code ≠ d.otp) (h0 : d.attempts = 0) (hv : d.verified = false) :
    (otpExpired d now = false →
      (verifyOtp s now tok (otpBody email contact code)).response.status = 401) ∧
    (otpExpired d now = true →
      (verifyOtp s now tok (otpBody email contact code)).response.status = 400 ∧
      (verifyOtp s now tok (otpBody email contact code)).response.message
        = "OTP has expired") ∧
    (verifyOtp s now tok (otpBody email contact code)).response.verified = none ∧
    ∃ d', findOneOtp (verifyOtp s now tok (otpBody email contact code)).store.otps
        email contact = some d' ∧ d'.verified = false := by
  have hm : otpMatches email contact d = true := List.find?_some hfind
  cases hexp : otpExpired d now with
  | true =>
    rw [verifyOtp_expired s now tok email contact code d he hc hcode hfind hexp]
    refine ⟨?_, ?_, rfl, d, hfind, hv⟩
    · intro h; cases h
    · intro _; exact ⟨rfl, rfl⟩
  | false =>
    rw [verifyOtp_wrong s now tok email contact code d he hc hcode hfind hexp (by omega) hne]
    refine ⟨?_, ?_, rfl, { d with attempts := d.attempts + 1 }, ?_, hv⟩
    · intro _; rfl
    · intro h; cases h
    · exact find?_saveFound _ _ d _ hfind hm

/-- C18, as stated, fails in two ways: (1) when the second request generates
the same code as the first, the first code is the current code and `verifyOtp`
answers 200 and marks the record verified; (2) with different codes, a
`verifyOtp` call more than 60 minutes after the second request fails with 400
"OTP has expired", which is neither InvalidCode nor NotFound. -/
theorem verifyOtp_first_code_can_succeed :
    (verifyOtp (requestTwice emptyStore "n@x.com" "+915555555555" none none true
        1000 "123456" 2000 "123456") 3000 "tok"
      (otpBody "n@x.com" "+915555555555" "123456")).response.status = 200 ∧
    ((findOneOtp (verifyOtp (requestTwice emptyStore "n@x.com" "+915555555555" none none true
        1000 "123456" 2000 "123456") 3000 "tok"
      (otpBody "n@x.com" "+915555555555" "123456")).store.otps "n@x.com"
      "+915555555555").map OtpVerification.verified) = some true ∧
    (verifyOtp (requestTwice emptyStore "n@x.com" "+915555555555" none none true
        1000 "123456" 2000 "654321") 3602001 "tok"
      (otpBody "n@x.com" "+915555555555" "123456")).response.status = 400 ∧
    (verifyOtp (requestTwice emptyStore "n@x.com" "+915555555555" none none true
        1000 "123456" 2000 "654321") 3602001 "tok"
      (otpBody "n@x.com" "+915555555555" "123456")).response.message = "OTP has expired" :=
  ⟨rfl, rfl, rfl, by decide⟩

/-- C18 (amended): for every (email, contactNumber), after two successful
`sendOtp` calls for that pair that issued different codes, a `verifyOtp` call
carrying the code issued by the first call does not succeed: it fails with
InvalidCode (401) when made within 60 minutes of the second request and with
Expired (400 "OTP has expired") later, it returns no `verified` flag, and the
record found for the pair stays `verified = false`. -/
theorem verifyOtp_first_code_after_second_request (s : Store) (email contact : String)
    (ip ua : Option String) (production : Bool) (t1 t2 t3 : Nat) (c1 c2 tok : String)
    (he : email ≠ "") (hc : contact ≠ "") (hc1 : c1 ≠ "") (hne : c1 ≠ c2) :
    (t3 ≤ t2 + 60 * 60 * 1000 →
      (verifyOtp (requestTwice s email contact ip ua production t1 c1 t2 c2) t3 tok
        (otpBody email contact c1)).response.status = 401) ∧
    (t2 + 60 * 60 * 1000 < t3 →
      (verifyOtp (requestTwice s email contact ip ua production t1 c1 t2 c2) t3 tok
        (otpBody email contact c1)).response.status = 400 ∧
      (verifyOtp (requestTwice s email contact ip ua production t1 c1 t2 c2) t3 tok
        (otpBody email contact c1)).response.message = "OTP has expired") ∧
    (verifyOtp (requestTwice s email contact ip ua production t1 c1 t2 c2) t3 tok
      (otpBody email contact c1)).response.verified = none ∧
    ∃ d, findOneOtp (verifyOtp (requestTwice s email contact ip ua production t1 c1 t2 c2)
        t3 tok (otpBody email contact c1)).store.otps email contact = some d ∧
      d.verified = false := by
  obtain ⟨d, hfind, hotp, hcreated, h0, hv⟩ := sendOtp_found_fresh
    (sendOtp s t1 c1 ip ua true true production
      { email := some email, contactNumber := some contact, otp := none }).store
    t2 c2 ip ua true true production email contact none he hc
  have hne2 : c1 ≠ d.otp := by rw [hotp]; exact hne
  obtain ⟨ha, hb, hcv, hd⟩ := verifyOtp_other_code
    (requestTwice s email contact ip ua production t1 c1 t2 c2) t3 tok email contact c1 d
    he hc hc1 hfind hne2 h0 hv
  refine ⟨?_, ?_, hcv, hd⟩
  · intro h
    apply ha
    simp only [otpExpired, hcreated, decide_eq_false_iff_not]
    omega
  · intro h
    apply hb
    simp only [otpExpired, hcreated, decide_eq_true_eq]
    omega

/-- An instance of C18 (amended): codes 123456 and 654321, the first tried one
second after the second request. -/
theorem verifyOtp_first_code_after_second_request_witness :
    (verifyOtp (requestTwice emptyStore "n@x.com" "+915555555555" none none true
        1000 "123456" 2000 "654321") 3000 "tok"
      (otpBody "n@x.com" "+915555555555" "123456")).response.status = 401 ∧
    (verifyOtp (requestTwice emptyStore "n@x.com" "+915555555555" none none true
        1000 "123456" 2000 "654321") 3000 "tok"
      (otpBody "n@x.com" "+915555555555" "123456")).response.verified = none :=
  have h := verifyOtp_first_code_after_second_request emptyStore "n@x.com" "+915555555555"
    none none true 1000 2000 3000 "123456" "654321" "tok" (by decide) (by decide) (by decide)
    (by decide)
  ⟨h.1 (by decide), h.2.2.1⟩

/-! ## C19: a verified record -/

/-- C19, as stated, fails: (1) the record of the example store is verified, and
a `sendOtp` call for its pair leaves it with `verified = false`; (2) a verified
record that has 5 attempts counted is removed by the next `verifyOtp` call,
even with the correct code. -/
theorem verified_is_not_terminal :
    (findOneOtp exStoreVerified.otps "b@x.com" "+911234567890").map OtpVerification.verified
      = some true ∧
    (findOneOtp (sendOtp exStoreVerified 5000 "999999" none none true true true
        (otpBody "b@x.com" "+911234567890" "")).store.otps "b@x.com"
      "+911234567890").map OtpVerification.verified = some false ∧
    (verifyOtp { exStoreVerified with otps := [{ exOtp with attempts := 5 }] } 6000 "tok"
      (otpBody "b@x.com" "+911234567890" "123456")).response.status = 400 ∧
    findOneOtp (verifyOtp { exStoreVerified with otps := [{ exOtp with attempts := 5 }] } 6000
      "tok" (otpBody "b@x.com" "+911234567890" "123456")).store.otps "b@x.com"
      "+911234567890" = none :=
  ⟨rfl, rfl, rfl, rfl⟩

/-- C19 (amended): Verified is not a terminal state.  Once the record found for
an identity has `verified = true`, every `sendOtp` call for that identity leaves
it with `verified = false`, and a `verifyOtp` call on it while it is unexpired
and has 5 attempts counted deletes it; a `verifyOtp` call on it while it is
expired or has fewer than 5 attempts counted leaves it verified. -/
theorem verified_record_transitions (s : Store) (email contact : String)
    (r : OtpVerification)
    (he : email ≠ "") (hc : contact ≠ "")
    (hfind : findOneOtp s.otps email contact = some r) (hv : r.verified = true) :
    (∀ (now : Nat) (otp : String) (ip ua : Option String)
      (emailOk whatsappOk production : Bool) (code : Option String),
      ∃ d, findOneOtp (sendOtp s now otp ip ua emailOk whatsappOk production
          { email := some email, contactNumber := some contact, otp := code }).store.otps
          email contact = some d ∧ d.verified = false) ∧
    (∀ (now : Nat) (tok code : String), code ≠ "" → otpExpired r now = false →
      5 ≤ r.attempts →
      (verifyOtp s now tok (otpBody email contact code)).store.otps
        = deleteFound (otpMatches email contact) s.otps) ∧
    (∀ (now : Nat) (tok code : String), code ≠ "" →
      (otpExpired r now = true ∨ r.attempts < 5) →
      ∃ d, findOneOtp (verifyOtp s now tok (otpBody email contact code)).store.otps
          email contact = some d ∧ d.verified = true) := by
  have hm : otpMatches email contact r = true := List.find?_some hfind
  refine ⟨?_, ?_, ?_⟩
  · intro now otp ip ua emailOk whatsappOk production code
    obtain ⟨d, hd, _, _, _, hdv⟩ := sendOtp_found_fresh s now otp ip ua emailOk whatsappOk
      production email contact code he hc
    exact ⟨d, hd, hdv⟩
  · intro now tok code hcode hexp h5
    rw [verifyOtp_exhausted s now tok email contact code r he hc hcode hfind hexp h5]
  · intro now tok code hcode hcase
    cases hexp : otpExpired r now with
    | true =>
      rw [verifyOtp_expired s now tok email contact code r he hc hcode hfind hexp]
      exact ⟨r, hfind, hv⟩
    | false =>
      have h5 : r.attempts < 5 := by
        rcases hcase with h | h
        · rw [hexp] at h; cases h
        · exact h
      by_cases heq : code = r.otp
      · subst heq
        rw [verifyOtp_correct s now tok email contact r he hc hcode hfind hexp h5]
        exact ⟨_, find?_saveFound _ _ r _ hfind hm, rfl⟩
      · rw [verifyOtp_wrong s now tok email contact code r he hc hcode hfind hexp h5 heq]
        exact ⟨_, find?_saveFound _ _ r _ hfind hm, hv⟩

/-- An instance of C19 (amended): a new code requested for the verified record
of the example store. -/
theorem verified_record_transitions_witness :
    ∃ d, findOneOtp (sendOtp exStoreVerified 5000 "999999" none none true true true
        { email := some "b@x.com", contactNumber := some "+911234567890",
          otp := none }).store.otps "b@x.com" "+911234567890" = some d ∧
      d.verified = false :=
  (verified_record_transitions exStoreVerified "b@x.com" "+911234567890" exOtp (by decide)
    (by decide) rfl rfl).1 5000 "999999" none none true true true none

/-! ## C20: delivery of the code -/

theorem sendOtp_response (s : Store) (now : Nat) (otp : String) (ip ua : Option String)
    (emailOk whatsappOk production : Bool) (email contact : String) (code : Option String)
    (he : email ≠ "") (hc : contact ≠ "") :
    (sendOtp s now otp ip ua emailOk whatsappOk production
        { email := some email, contactNumber := some contact, otp := code }).response =
      if (emailOk && whatsappOk) = true then
        { status := 200, message := "OTP sent successfully",
          otpId := some (match findOneOtp s.otps email contact with
            | some found => reissue found otp now ip ua
            | none => newOtpVerification s.nextId email contact otp now ip ua).id,
          otp := if production = true then none else some otp }
      else sendOtpError 500 "Internal server error" := by
  simp only [sendOtp, truthyStr_some, he, hc, ne_eq, not_false_eq_true, Bool.not_true,
    Bool.or_self, Bool.false_eq_true, if_false, Option.getD_some]
  split_ifs <;> rfl

/-- C20, as stated, fails: with the e-mail dispatch throwing (and the WhatsApp
dispatch returning) `sendOtp` answers 500 "Internal server error" and returns no
`otpId`, although the record with the new code has been stored; the same
happens when only the WhatsApp dispatch throws. -/
theorem sendOtp_delivery_failure_is_500 :
    (sendOtp emptyStore 1000 "123456" none none false true true
      (otpBody "n@x.com" "+915555555555" "")).response.status = 500 ∧
    (sendOtp emptyStore 1000 "123456" none none false true true
      (otpBody "n@x.com" "+915555555555" "")).response.otpId = none ∧
    ((findOneOtp (sendOtp emptyStore 1000 "123456" none none false true true
      (otpBody "n@x.com" "+915555555555" "")).store.otps "n@x.com"
      "+915555555555").map OtpVerification.otp) = some "123456" ∧
    (sendOtp emptyStore 1000 "123456" none none true false true
      (otpBody "n@x.com" "+915555555555" "")).response.status = 500 :=
  ⟨rfl, rfl, rfl, rfl⟩

/-- C20 (amended): for every `sendOtp` call with email and contactNumber
present, the record with the new code is stored first; the call then returns
success (200) with the `otpId` of that record when both dispatches, e-mail and
WhatsApp, return, and fails with 500 "Internal server error" when either of them
throws. -/
theorem sendOtp_delivery (s : Store) (now : Nat) (otp : String) (ip ua : Option String)
    (emailOk whatsappOk production : Bool) (email contact : String) (code : Option String)
    (he : email ≠ "") (hc : contact ≠ "") :
    (∃ d, findOneOtp (sendOtp s now otp ip ua emailOk whatsappOk production
          { email := some email, contactNumber := some contact, otp := code }).store.otps
          email contact = some d ∧ d.otp = otp ∧
        ((emailOk = true ∧ whatsappOk = true) →
          (sendOtp s now otp ip ua emailOk whatsappOk production
            { email := some email, contactNumber := some contact,
              otp := code }).response.otpId = some d.id)) ∧
    ((emailOk = true ∧ whatsappOk = true) →
      (sendOtp s now otp ip ua emailOk whatsappOk production
        { email := some email, contactNumber := some contact, otp := code }).response.status
        = 200) ∧
    ((emailOk = false ∨ whatsappOk = false) →
      (sendOtp s now otp ip ua emailOk whatsappOk production
        { email := some email, contactNumber := some contact, otp := code }).response.status
        = 500 ∧
      (sendOtp s now otp ip ua emailOk whatsappOk production
        { email := some email, contactNumber := some contact, otp := code }).response.message
        = "Internal server error") := by
  have hresp := sendOtp_response s now otp ip ua emailOk whatsappOk production email contact
    code he hc
  have hfound := sendOtp_found s now otp ip ua emailOk whatsappOk production email contact
    code he hc
  refine ⟨⟨_, hfound, ?_, ?_⟩, ?_, ?_⟩
  · cases findOneOtp s.otps email contact <;> rfl
  · intro h
    rw [hresp]
    simp [h.1, h.2]
  · intro h
    rw [hresp]
    simp [h.1, h.2]
  · intro h
    rw [hresp]
    rcases h with h | h <;> simp [h, sendOtpError]

/-- An instance of C20 (amended): both dispatches return, on the empty
store. -/
theorem sendOtp_delivery_witness :
    (sendOtp emptyStore 1000 "123456" none none true true true
      { email := some "n@x.com", contactNumber := some "+915555555555",
        otp := none }).response.status = 200 :=
  (sendOtp_delivery emptyStore 1000 "123456" none none true true true "n@x.com"
    "+915555555555" none (by decide) (by decide)).2.1 ⟨rfl, rfl⟩

/-! ## C21: the purpose of a payment -/

/-- For a purpose other than "registration", `transactionRegister` appends the
transaction and leaves the registrations alone. -/
theorem transactionRegister_other_purpose (s : Store) (now rand : Nat) (mailOk : Bool)
    (id : Option Nat) (body : PaymentBody)
    (hp : body.purpose.getD "registration" ≠ "registration") :
    (transactionRegister s now rand mailOk id body).store.registrations = s.registrations ∧
    (transactionRegister s now rand mailOk id body).store.transactions.length
      = s.transactions.length + 1 ∧
    (transactionRegister s now rand mailOk id body).response.status = 200 := by
  simp [transactionRegister, hp]

/-- C21 fails on the code for `processPayment`: with purpose "donation" it
answers 200, creates the transaction, and still rewrites the registration
(`contributionAmount` 500 becomes 50, `paymentStatus` becomes "Completed").
`transactionRegister` with the same body leaves the registrations as they
were. -/
theorem processPayment_ignores_purpose :
    storedContribution exStore 1 = some (.num 500) ∧
    (processPayment exStore 100 7 true (some 1)
      { payBody 50 with purpose := some "donation" }).response.status = 200 ∧
    (processPayment exStore 100 7 true (some 1)
      { payBody 50 with purpose := some "donation" }).store.transactions.length = 1 ∧
    storedContribution (processPayment exStore 100 7 true (some 1)
      { payBody 50 with purpose := some "donation" }).store 1 = some (.num 50) ∧
    (findById (processPayment exStore 100 7 true (some 1)
      { payBody 50 with purpose := some "donation" }).store.registrations 1).bind
        (fun r => r.paymentStatus) = some (.str "Completed") ∧
    (transactionRegister exStore 100 7 true (some 1)
      { payBody 50 with purpose := some "donation" }).store.registrations
      = exStore.registrations ∧
    (transactionRegister exStore 100 7 true (some 1)
      { payBody 50 with purpose := some "donation" }).store.transactions.length = 1 :=
  ⟨rfl, rfl, rfl, rfl, rfl, rfl, rfl⟩

/-! ## C22: the payment confirmation e-mail -/

/-- Whatever the mail result, the two handlers give the same response and
store as when the e-mail succeeds. -/
theorem payment_outcome_ignores_mail (s : Store) (now rand : Nat) (m : Bool)
    (id : Option Nat) (body : PaymentBody) :
    (transactionRegister s now rand m id body).response
      = (transactionRegister s now rand true id body).response ∧
    (transactionRegister s now rand m id body).store
      = (transactionRegister s now rand true id body).store ∧
    (processPayment s now rand m id body).response
      = (processPayment s now rand true id body).response ∧
    (processPayment s now rand m id body).store
      = (processPayment s now rand true id body).store := by
  refine ⟨?_, ?_, ?_, ?_⟩
  · unfold transactionRegister
    dsimp only
    split_ifs
    · cases id <;> rfl
    · rfl
  · unfold transactionRegister
    dsimp only
    split_ifs
    · cases id <;> rfl
    · rfl
  · cases id with
    | none => rfl
    | some i =>
      simp only [processPayment]
      cases findById s.registrations i <;> rfl
  · cases id with
    | none => rfl
    | some i =>
      simp only [processPayment]
      cases findById s.registrations i <;> rfl

/-- With `isAnonymous = true` neither handler attempts the e-mail. -/
theorem payment_anonymous_sends_no_mail (s : Store) (now rand : Nat) (m : Bool)
    (id : Option Nat) (body : PaymentBody) :
    (transactionRegister s now rand m id { body with isAnonymous := some true }).mail = none ∧
    (processPayment s now rand m id { body with isAnonymous := some true }).mail = none := by
  refine ⟨?_, ?_⟩
  · unfold transactionRegister
    dsimp only
    split_ifs
    · cases id <;> simp
    · rfl
  · cases id with
    | none => rfl
    | some i =>
      simp only [processPayment]
      cases findById s.registrations i <;> simp

/-- C22: take a payment-recording call for a stored registration, with purpose
"registration" and not anonymous, in which the confirmation e-mail is attempted
and throws.  Both `transactionRegister` and `processPayment` still answer 200
with the generated `transactionId`; the transaction is appended to the stored
transactions with that id, the amount and the registration id; the registration
read back by id carries the payment update; response and store are equal to
those of the same call with the e-mail succeeding.  With `isAnonymous = true` no
e-mail is attempted, whatever the id and the mail result. -/
theorem payment_mail_failure_is_isolated (s : Store) (now rand i : Nat) (r : Registration)
    (body : PaymentBody)
    (hr : findById s.registrations i = some r)
    (hp : body.purpose.getD "registration" = "registration")
    (hanon : body.isAnonymous.getD false = false) :
    ((transactionRegister s now rand false (some i) body).mail = some false ∧
     (transactionRegister s now rand false (some i) body).response.status = 200 ∧
     (transactionRegister s now rand false (some i) body).response.transactionId
       = some (makeTransactionId now rand) ∧
     (∃ t, (transactionRegister s now rand false (some i) body).store.transactions
         = s.transactions ++ [t] ∧
       t.transactionId = makeTransactionId now rand ∧ t.amount = body.amount ∧
       t.registrationId = some i ∧ t.status = "completed") ∧
     findById (transactionRegister s now rand false (some i) body).store.registrations i
       = some (transactionSet (makeTransactionId now rand) body.amount now r) ∧
     (transactionRegister s now rand false (some i) body).response
       = (transactionRegister s now rand true (some i) body).response ∧
     (transactionRegister s now rand false (some i) body).store
       = (transactionRegister s now rand true (some i) body).store) ∧
    ((processPayment s now rand false (some i) body).mail = some false ∧
     (processPayment s now rand false (some i) body).response.status = 200 ∧
     (processPayment s now rand false (some i) body).response.transactionId
       = some (makeTransactionId now rand) ∧
     (∃ t, (processPayment s now rand false (some i) body).store.transactions
         = s.transactions ++ [t] ∧
       t.transactionId = makeTransactionId now rand ∧ t.amount = body.amount ∧
       t.registrationId = some i ∧ t.status = "completed") ∧
     findById (processPayment s now rand false (some i) body).store.registrations i
       = some (processPaymentSet (makeTransactionId now rand) body now r) ∧
     (processPayment s now rand false (some i) body).response
       = (processPayment s now rand true (some i) body).response ∧
     (processPayment s now rand false (some i) body).store
       = (processPayment s now rand true (some i) body).store) ∧
    (∀ (m : Bool) (id : Option Nat),
      (transactionRegister s now rand m id { body with isAnonymous := some true }).mail = none ∧
      (processPayment s now rand m id { body with isAnonymous := some true }).mail = none) := by
  obtain ⟨e1, e2, e3, e4⟩ := payment_outcome_ignores_mail s now rand false (some i) body
  refine ⟨⟨?_, ?_, ?_, ?_, ?_, e1, e2⟩, ⟨?_, ?_, ?_, ?_, ?_, e3, e4⟩,
    fun m id => payment_anonymous_sends_no_mail s now rand m id body⟩
  · simp [transactionRegister, hp, hr, hanon]
  · simp [transactionRegister, hp]
  · simp [transactionRegister, hp]
  · refine ⟨{ transactionId := makeTransactionId now rand, registrationId := some i,
               name := body.name, email := body.email, contact := body.contact,
               amount := body.amount, paymentMethod := body.paymentMethod,
               paymentGatewayResponse := body.paymentGatewayResponse,
               isAnonymous := body.isAnonymous.getD false, status := "completed",
               purpose := body.purpose.getD "registration", notes := body.notes,
               completedAt := none }, ?_, rfl, rfl, rfl, rfl⟩
    simp only [transactionRegister, hp, if_true]
  · simp only [transactionRegister, hp, if_true]
    rw [findById_updateById (transactionSet (makeTransactionId now rand) body.amount now)
      (fun _ => rfl), hr]
    rfl
  · simp [processPayment, hr, hanon]
  · simp [processPayment, hr]
  · simp [processPayment, hr]
  · refine ⟨{ transactionId := makeTransactionId now rand, registrationId := some i,
               name := r.name, email := some (.str r.email),
               contact := some (.str r.contactNumber), amount := body.amount,
               paymentMethod := body.paymentMethod,
               paymentGatewayResponse := body.paymentGatewayResponse,
               isAnonymous := body.isAnonymous.getD false, status := "completed",
               purpose := body.purpose.getD "registration", notes := body.notes,
               completedAt := some now }, ?_, rfl, rfl, rfl, rfl⟩
    simp only [processPayment, hr]
  · simp only [processPayment, hr]
    rw [findById_updateById (processPaymentSet (makeTransactionId now rand) body now)
      (fun _ => rfl), hr]
    rfl

/-- Instance of `payment_mail_failure_is_isolated`: a payment of 300 for the
example registration with the e-mail throwing. -/
theorem payment_mail_failure_is_isolated_witness :
    (transactionRegister exStore 100 7 false (some 1) (payBody 300)).mail = some false ∧
    (transactionRegister exStore 100 7 false (some 1) (payBody 300)).response.status = 200 ∧
    (transactionRegister exStore 100 7 false (some 1) (payBody 300)).response.transactionId
      = some (makeTransactionId 100 7) ∧
    findById (transactionRegister exStore 100 7 false (some 1)
        (payBody 300)).store.registrations 1
      = some (transactionSet (makeTransactionId 100 7) (payBody 300).amount 100
          exRegistration) ∧
    (processPayment exStore 100 7 false (some 1) (payBody 300)).mail = some false ∧
    (processPayment exStore 100 7 false (some 1) (payBody 300)).response.status = 200 ∧
    findById (processPayment exStore 100 7 false (some 1) (payBody 300)).store.registrations 1
      = some (processPaymentSet (makeTransactionId 100 7) (payBody 300) 100 exRegistration) ∧
    (processPayment exStore 100 7 false (some 1) (payBody 300)).store
      = (processPayment exStore 100 7 true (some 1) (payBody 300)).store :=
  have h := payment_mail_failure_is_isolated exStore 100 7 1 exRegistration (payBody 300)
    rfl rfl rfl
  ⟨h.1.1, h.1.2.1, h.1.2.2.1, h.1.2.2.2.2.1, h.2.1.1, h.2.1.2.1, h.2.1.2.2.2.2.1,
    h.2.1.2.2.2.2.2.2⟩

/-! ## C23: the hardship fallback -/

/-- C23 fails on the code: the dialog calls the prop `onProceedWithPayment`,
which the form never passes (it passes its handler as `onConfirm`).  Confirming
the second dialog closes the dialog and then throws; `registrationStatus` stays
"complete", `paymentStatus` stays unset, no step is saved and no transaction is
created.  With the handler passed under the name the dialog reads, the same
click gives "incomplete" / "financial-difficulty", saves step 8 and creates no
transaction. -/
theorem hardship_confirm_never_reaches_form :
    (handleFirstDialogCancel exHardshipForm).showSecondDialog = true ∧
    (formDialogProps.lookup "onProceedWithPayment").isNone = true ∧
    (handleSecondDialogConfirm formDialogProps exHardshipForm).threw = true ∧
    (handleSecondDialogConfirm formDialogProps exHardshipForm).form.registrationStatus
      = "complete" ∧
    (handleSecondDialogConfirm formDialogProps exHardshipForm).form.paymentStatus = none ∧
    (handleSecondDialogConfirm formDialogProps exHardshipForm).form.savedSteps = [] ∧
    (handleSecondDialogConfirm formDialogProps exHardshipForm).form.transactions = 0 ∧
    (handleSecondDialogConfirm rewiredDialogProps exHardshipForm).form.registrationStatus
      = "incomplete" ∧
    (handleSecondDialogConfirm rewiredDialogProps exHardshipForm).form.paymentStatus
      = some "financial-difficulty" ∧
    (handleSecondDialogConfirm rewiredDialogProps exHardshipForm).form.savedSteps = [8] ∧
    (handleSecondDialogConfirm rewiredDialogProps exHardshipForm).form.transactions = 0 := by
  refine ⟨?_, ?_, ?_, ?_, ?_, ?_, ?_, ?_, ?_, ?_, ?_⟩ <;> rfl

/-! ## C25: the recent-graduate window -/

/-- Every selectable year lies between 1993 and 2025. -/
theorem mem_yearOptions (y : Int) : y ∈ yearOptions ↔ 1993 ≤ y ∧ y ≤ 2025 := by
  simp only [yearOptions, List.mem_map, List.mem_range]
  constructor
  · rintro ⟨i, hi, rfl⟩
    have hi2 : i < 33 := hi
    constructor <;> omega
  · rintro ⟨h1, h2⟩
    refine ⟨(y - 1993).toNat, ?_, ?_⟩
    · show (y - 1993).toNat < 33
      omega
    · omega

/-- C25 (amended): for every selectable year, `handlePayment` treats the
attendee as a recent graduate exactly when the year is 2022, 2023, 2024 or 2025;
for a first contribution of a positive amount the proposed amount is then the
standard total less 150, and the plain standard total for every other year. -/
theorem handlePayment_recent_graduate_window (f : PaymentForm) (y : Int)
    (hy : y ∈ yearOptions) (hyear : f.yearOfPassing = some y)
    (hamount : 0 < orZero f.contributionAmount) (hfirst : f.hasPreviousContribution = false) :
    (isRecentGraduate (some y) = true ↔ y = 2022 ∨ y = 2023 ∨ y = 2024 ∨ y = 2025) ∧
    (isRecentGraduate (some y) = false ↔ y ∈ yearOptions.filter (fun z => decide (z ≤ 2021))) ∧
    (handlePayment f).2 =
      some (groupCount (f.attendees.bind Attendees.adults) * 500
            + groupCount (f.attendees.bind Attendees.teens) * 350
            + groupCount (f.attendees.bind Attendees.children) * 350
            - (if y = 2022 ∨ y = 2023 ∨ y = 2024 ∨ y = 2025 then 150 else 0)) := by
  have hwin : isRecentGraduate (some y) = true ↔ y = 2022 ∨ y = 2023 ∨ y = 2024 ∨ y = 2025 := by
    simp only [isRecentGraduate, Bool.and_eq_true, decide_eq_true_eq]
    omega
  have hrange := (mem_yearOptions y).mp hy
  have hold : isRecentGraduate (some y) = false ↔
      y ∈ yearOptions.filter (fun z => decide (z ≤ 2021)) := by
    rw [List.mem_filter, decide_eq_true_eq, ← Bool.not_eq_true, hwin]
    constructor
    · intro h
      exact ⟨hy, by omega⟩
    · rintro ⟨_, h⟩
      omega
  refine ⟨hwin, hold, ?_⟩
  have hpos : ¬ orZero f.contributionAmount ≤ 0 := by omega
  have htotal : (handlePayment f).2 = some (totalExpense f.attendees (some y)) := by
    unfold handlePayment
    dsimp only
    rw [if_neg hpos, hfirst, hyear]
    simp only [Bool.not_false, if_true]
    split_ifs <;> rfl
  rw [htotal]
  unfold totalExpense
  dsimp only
  by_cases hr : isRecentGraduate (some y) = true
  · rw [if_pos hr, if_pos (hwin.mp hr)]
    congr 1
    ring
  · rw [if_neg hr, if_neg (fun h => hr (hwin.mpr h))]
    congr 1
    ring

/-- Instance of `handlePayment_recent_graduate_window`: the year 2023 with two
adults and an amount of 1000. -/
theorem handlePayment_recent_graduate_window_witness :
    (isRecentGraduate (some 2023) = true ↔
      (2023 : Int) = 2022 ∨ (2023 : Int) = 2023 ∨ (2023 : Int) = 2024 ∨ (2023 : Int) = 2025) ∧
    (isRecentGraduate (some 2023) = false ↔
      (2023 : Int) ∈ yearOptions.filter (fun z => decide (z ≤ 2021))) ∧
    (handlePayment (yearForm 2023 1000 2)).2 =
      some (groupCount ((yearForm 2023 1000 2).attendees.bind Attendees.adults) * 500
            + groupCount ((yearForm 2023 1000 2).attendees.bind Attendees.teens) * 350
            + groupCount ((yearForm 2023 1000 2).attendees.bind Attendees.children) * 350
            - (if (2023 : Int) = 2022 ∨ (2023 : Int) = 2023 ∨ (2023 : Int) = 2024
                  ∨ (2023 : Int) = 2025 then 150 else 0)) :=
  handlePayment_recent_graduate_window (yearForm 2023 1000 2) 2023 (by decide) rfl
    (by decide) rfl

/-- Counterexample to C25 as stated: 2022 and 2023 are selectable, are neither
2024 nor 2025, and are charged at the reduced rate (one adult: 350, not 500). -/
theorem handlePayment_2022_is_recent :
    (2022 : Int) ∈ yearOptions ∧ (2023 : Int) ∈ yearOptions ∧
    isRecentGraduate (some 2022) = true ∧ isRecentGraduate (some 2023) = true ∧
    (handlePayment (yearForm 2022 1000 1)).2 = some 350 ∧
    (handlePayment (yearForm 2023 1000 1)).2 = some 350 ∧
    (handlePayment (yearForm 2021 1000 1)).2 = some 500 := by
  refine ⟨?_, ?_, ?_, ?_, ?_, ?_, ?_⟩ <;> decide

/-! ## C27: the route parameter and the verification token -/

/-- C27: `saveRegistrationStep` reads neither the route parameter `id` nor
`verificationToken`: two calls on the same store with the same `step` and
`stepData` give the same response, the same store and the same mail outcome,
whatever the two ids and the two tokens are. -/
theorem saveRegistrationStep_ignores_id_and_token (s : Store) (now : Nat) (mailOk : Bool)
    (id1 id2 : String) (t1 t2 : Option String) (body : StepBody) :
    saveRegistrationStep s now mailOk id1 { body with verificationToken := t1 }
      = saveRegistrationStep s now mailOk id2 { body with verificationToken := t2 } := by
  obtain ⟨step, stepData, token⟩ := body
  simp only [saveRegistrationStep, saveRegistrationStepTry, normalizeStep1]
  by_cases h : step = some 1
  · simp only [h, if_true]
    rcases stepData with _ | ⟨_ | ⟨v, _ | pi, pr, ea, sp, tr, ac, op, fi⟩⟩ <;> rfl
  · simp only [h, if_false]

/-! ## C26: the stored code is accepted -/

theorem findOneByEmailOrContact_isSome (regs : List Registration) (email contact : String) :
    (findOneByEmailOrContact regs email contact).isSome = true ↔
      ∃ g, g ∈ regs ∧ (g.email = email ∨ g.contactNumber = contact) := by
  unfold findOneByEmailOrContact
  rw [List.find?_isSome]
  simp only [Bool.or_eq_true, beq_iff_eq]

/-- C26: when the record found for the identifiers is unexpired and has fewer
than five attempts, `verifyOtp` with the stored code answers 200 with
`verified = true` and the token; `existingRegistration` is true exactly when a
registration with that e-mail or that contact number exists; `registrationId` is
the id of the registration found (absent exactly when there is none); afterwards
the record found for the identifiers is the old one with `verified = true`,
`verifiedAt` the time of the call and one more attempt; registrations are
untouched. -/
theorem verifyOtp_stored_code_succeeds (s : Store) (now : Nat) (tok email contact : String)
    (r : OtpVerification)
    (he : email ≠ "") (hc : contact ≠ "") (hcode : r.otp ≠ "")
    (hfind : findOneOtp s.otps email contact = some r) (hexp : otpExpired r now = false)
    (h5 : r.attempts < 5) :
    (verifyOtp s now tok (otpBody email contact r.otp)).response.status = 200 ∧
    (verifyOtp s now tok (otpBody email contact r.otp)).response.verified = some true ∧
    (verifyOtp s now tok (otpBody email contact r.otp)).response.verificationToken = some tok ∧
    ((verifyOtp s now tok (otpBody email contact r.otp)).response.existingRegistration
        = some true ↔
      ∃ g, g ∈ s.registrations ∧ (g.email = email ∨ g.contactNumber = contact)) ∧
    (verifyOtp s now tok (otpBody email contact r.otp)).response.registrationId
      = (findOneByEmailOrContact s.registrations email contact).map Registration.id ∧
    ((verifyOtp s now tok (otpBody email contact r.otp)).response.registrationId = none ↔
      ¬ ∃ g, g ∈ s.registrations ∧ (g.email = email ∨ g.contactNumber = contact)) ∧
    findOneOtp (verifyOtp s now tok (otpBody email contact r.otp)).store.otps email contact
      = some { r with attempts := r.attempts + 1, verified := true, verifiedAt := some now } ∧
    (verifyOtp s now tok (otpBody email contact r.otp)).store.registrations
      = s.registrations := by
  rw [verifyOtp_correct s now tok email contact r he hc hcode hfind hexp h5]
  have hex := findOneByEmailOrContact_isSome s.registrations email contact
  have hm : otpMatches email contact r = true := by
    unfold findOneOtp at hfind
    exact List.find?_some hfind
  refine ⟨rfl, rfl, rfl, ?_, rfl, ?_, ?_, rfl⟩
  · rw [← hex]
    simp only [Option.some.injEq]
  · rw [← hex]
    cases findOneByEmailOrContact s.registrations email contact <;> simp
  · exact find?_saveFound (otpMatches email contact) s.otps r _ hfind hm

/-- Instance of `verifyOtp_stored_code_succeeds`: the code 123456 issued at time
1000 is presented at time 2000. -/
theorem verifyOtp_stored_code_succeeds_witness :
    (verifyOtp exStoreIssued 2000 "tok" (otpBody "n@x.com" "+915555555555"
      exOtpIssued.otp)).response.status = 200 ∧
    (verifyOtp exStoreIssued 2000 "tok" (otpBody "n@x.com" "+915555555555"
      exOtpIssued.otp)).response.verified = some true ∧
    (verifyOtp exStoreIssued 2000 "tok" (otpBody "n@x.com" "+915555555555"
      exOtpIssued.otp)).response.verificationToken = some "tok" ∧
    ((verifyOtp exStoreIssued 2000 "tok" (otpBody "n@x.com" "+915555555555"
      exOtpIssued.otp)).response.existingRegistration = some true ↔
      ∃ g, g ∈ exStoreIssued.registrations ∧
        (g.email = "n@x.com" ∨ g.contactNumber = "+915555555555")) ∧
    (verifyOtp exStoreIssued 2000 "tok" (otpBody "n@x.com" "+915555555555"
      exOtpIssued.otp)).response.registrationId
      = (findOneByEmailOrContact exStoreIssued.registrations "n@x.com"
          "+915555555555").map Registration.id ∧
    ((verifyOtp exStoreIssued 2000 "tok" (otpBody "n@x.com" "+915555555555"
      exOtpIssued.otp)).response.registrationId = none ↔
      ¬ ∃ g, g ∈ exStoreIssued.registrations ∧
        (g.email = "n@x.com" ∨ g.contactNumber = "+915555555555")) ∧
    findOneOtp (verifyOtp exStoreIssued 2000 "tok" (otpBody "n@x.com" "+915555555555"
      exOtpIssued.otp)).store.otps "n@x.com" "+915555555555"
      = some { exOtpIssued with attempts := exOtpIssued.attempts + 1, verified := true,
                                verifiedAt := some 2000 } ∧
    (verifyOtp exStoreIssued 2000 "tok" (otpBody "n@x.com" "+915555555555"
      exOtpIssued.otp)).store.registrations = exStoreIssued.registrations :=
  verifyOtp_stored_code_succeeds exStoreIssued 2000 "tok" "n@x.com" "+915555555555"
    exOtpIssued (by decide) (by decide) (by decide) rfl rfl (by decide)

/-! ## C28: the record after a code request -/

/-- When no record matches the e-mail or the contact number, a `sendOtp` call
creates a record bound to exactly the requested pair. -/
theorem sendOtp_creates_bound_record (s : Store) (now : Nat) (otp : String)
    (ip ua : Option String) (emailOk whatsappOk production : Bool) (email contact : String)
    (code : Option String) (he : email ≠ "") (hc : contact ≠ "")
    (hnone : findOneOtp s.otps email contact = none) :
    ∃ d, findOneOtp (sendOtp s now otp ip ua emailOk whatsappOk production
          { email := some email, contactNumber := some contact, otp := code }).store.otps
          email contact = some d ∧
      otpSummary d = (email, contact, otp, 0, false) := by
  refine ⟨_, sendOtp_found s now otp ip ua emailOk whatsappOk production email contact code
    he hc, ?_⟩
  rw [hnone]
  rfl

/-- C28 fails on the code: a record for (`a@x.com`, `+911111111111`) exists and
`sendOtp` is called for (`a@x.com`, `+912222222222`).  The call answers 200, but
the update branch does not assign `email` or `contactNumber`: the only record
afterwards is still bound to the old contact number (with the new code,
attempts 0, verified false).  `verifyOtp` with the new code succeeds, yet the
lookup of the first step by both identifiers finds nothing, and the step-1 save
answers 401.  On an empty store the same request creates a record bound to the
requested pair. -/
theorem sendOtp_update_keeps_old_binding :
    (sendOtp
      (sendOtp emptyStore 1000 "111111" none none true true true
        (otpBody "a@x.com" "+911111111111" "")).store
      2000 "222222" none none true true true
      (otpBody "a@x.com" "+912222222222" "")).response.status = 200 ∧
    exRebindStore.otps.map otpSummary
      = [("a@x.com", "+911111111111", "222222", 0, false)] ∧
    (verifyOtp exRebindStore 3000 "tok"
      (otpBody "a@x.com" "+912222222222" "222222")).response.status = 200 ∧
    (verifyOtp exRebindStore 3000 "tok"
      (otpBody "a@x.com" "+912222222222" "222222")).store.otps.map otpSummary
      = [("a@x.com", "+911111111111", "222222", 1, true)] ∧
    (findVerifiedOtp (verifyOtp exRebindStore 3000 "tok"
      (otpBody "a@x.com" "+912222222222" "222222")).store.otps
      (some (.str "a@x.com")) (some (.str "+912222222222"))).isNone = true ∧
    (saveRegistrationStep (verifyOtp exRebindStore 3000 "tok"
        (otpBody "a@x.com" "+912222222222" "222222")).store 4000 true "new"
      (stepBody 1 (step1Form "a@x.com" "+912222222222"))).response.status = 401 ∧
    (sendOtp emptyStore 2000 "222222" none none true true true
      (otpBody "a@x.com" "+912222222222" "")).store.otps.map otpSummary
      = [("a@x.com", "+912222222222", "222222", 0, false)] := by
  refine ⟨?_, ?_, ?_, ?_, ?_, ?_, ?_⟩ <;> rfl

/-! ## C30: the merge is one level deep -/

/-- C30: on the update path, a payload section (with each key once) that
carries field `f` with an object value makes the stored `S.f` equal to that
object, whatever was stored before: a sub-field `g` that the incoming object
omits is absent afterwards, also when the stored object had it.
(`personalInfo.stateUT` and `personalInfo.district` at step 1 are rewritten by
the handler and left out.) -/
theorem saveRegistrationStep_merge_one_level (s : Store) (now : Nat) (mailOk : Bool)
    (id : String) (body : StepBody) (n : Int) (P0 : FormDataStructured) (pi0 : Obj)
    (r : Registration) (F : FormDataStructured)
    (hstep : body.step = some n) (h1 : 1 ≤ n) (h8 : n ≤ 8)
    (hdata : body.stepData = some { formDataStructured := some P0 })
    (hpi : P0.personalInfo = some pi0)
    (hfind : findOneByEmail s.registrations (Obj.get? pi0 "email") = some r)
    (hid : findById s.registrations r.id = some r)
    (hF : r.formDataStructured = some F) (S : SectionName) (f g : String) (inc : Obj)
    (hnd : (Obj.keys ((P0.get S).getD [])).Nodup)
    (hval : Obj.get? ((P0.get S).getD []) f = some (.obj inc))
    (homit : Obj.get? inc g = none)
    (hex : n = 1 → S = .personalInfo → f ≠ "stateUT" ∧ f ≠ "district") :
    storedField (saveRegistrationStep s now mailOk id body).store r.id S f = some (.obj inc) ∧
    subField (storedField (saveRegistrationStep s now mailOk id body).store r.id S f) g
      = none := by
  have hstored :
      storedField (saveRegistrationStep s now mailOk id body).store r.id S f
        = some (.obj inc) := by
    rw [storedField_after_update s now mailOk id body n P0 pi0 r F hstep h1 h8 hdata hpi hfind
      hid hF S f, payloadAsMerged_getLast? n P0 S f hex, getLast?_eq_get?_of_nodup _ f hnd,
      hval]
  refine ⟨hstored, ?_⟩
  rw [hstored]
  exact homit

/-- Instance of `saveRegistrationStep_merge_one_level`: the stored
`hotelRequirements` has `adults` and `children`, the payload sends `adults`
only, and `children` is gone afterwards. -/
theorem saveRegistrationStep_merge_one_level_witness :
    subField (storedField exNestedStore 1 .accommodation "hotelRequirements") "children"
      = some (.num 1) ∧
    (storedField (saveRegistrationStep exNestedStore 11 true "1"
        (stepBody 6 exNestedPayload)).store exNestedRegistration.id .accommodation
        "hotelRequirements" = some (.obj [("adults", .num 3)]) ∧
     subField (storedField (saveRegistrationStep exNestedStore 11 true "1"
        (stepBody 6 exNestedPayload)).store exNestedRegistration.id .accommodation
        "hotelRequirements") "children" = none) :=
  ⟨rfl, saveRegistrationStep_merge_one_level exNestedStore 11 true "1"
    (stepBody 6 exNestedPayload) 6 exNestedPayload [("email", .str "a@x.com")]
    exNestedRegistration exNestedForm rfl (by decide) (by decide) rfl rfl rfl rfl rfl
    .accommodation "hotelRequirements" "children" [("adults", .num 3)] (by decide) rfl rfl
    (by decide)⟩

/-! ## The root-level fields written by an update -/

theorem buildCleanedData_existing (now : Nat) (n : Int) (P : FormDataStructured) :
    buildCleanedData now n P true =
      { lastUpdated := now, stepComplete := n, name := none, email := none,
        contactNumber := none, country := none, school := none, yearOfPassing := none,
        emailVerified := none, captchaVerified := none, verificationQuizPassed := none,
        isAttending :=
          if n = 3 then P.eventAttendance.bind (fun ea => Obj.get? ea "isAttending") else none,
        attendees :=
          if n = 3 then P.eventAttendance.bind (fun ea => Obj.get? ea "attendees") else none,
        willContribute :=
          if n = 8 then P.financial.bind (fun fin => Obj.get? fin "willContribute") else none,
        contributionAmount :=
          if n = 8 then P.financial.bind (fun fin => Obj.get? fin "contributionAmount")
          else none,
        formSubmissionComplete :=
          if n = 8 ∧ P.financial.isSome = true then some (.bool true) else none,
        formDataStructured := none, currentStep := none } := by
  unfold buildCleanedData
  dsimp only
  simp only [Bool.true_eq_false, and_false, if_false]
  by_cases h3 : n = 3
  · subst h3
    cases P.eventAttendance <;> simp
  · by_cases h8 : n = 8
    · subst h8
      cases P.financial <;> simp
    · simp [h3, h8]

theorem stepFlag_setStepComplete (k n : Int) (r : Registration) (h1 : 1 ≤ n) (h8 : n ≤ 8) :
    stepFlag k (setStepComplete n r) = if k = n then true else stepFlag k r := by
  have hn : n = 1 ∨ n = 2 ∨ n = 3 ∨ n = 4 ∨ n = 5 ∨ n = 6 ∨ n = 7 ∨ n = 8 := by omega
  rcases hn with h | h | h | h | h | h | h | h <;> subst h <;>
    by_cases hk : k = 1 <;> (try subst hk) <;> (try rfl) <;>
    by_cases hk2 : k = 2 <;> (try subst hk2) <;> (try rfl) <;>
    by_cases hk3 : k = 3 <;> (try subst hk3) <;> (try rfl) <;>
    by_cases hk4 : k = 4 <;> (try subst hk4) <;> (try rfl) <;>
    by_cases hk5 : k = 5 <;> (try subst hk5) <;> (try rfl) <;>
    by_cases hk6 : k = 6 <;> (try subst hk6) <;> (try rfl) <;>
    by_cases hk7 : k = 7 <;> (try subst hk7) <;> (try rfl) <;>
    by_cases hk8 : k = 8 <;> (try subst hk8) <;> (try rfl) <;>
    simp [stepFlag, setStepComplete, hk, hk2, hk3, hk4, hk5, hk6, hk7, hk8]

theorem applySet_untouched (c : CleanedData) (r : Registration)
    (hname : c.name = none) (hemail : c.email = none) (hcontact : c.contactNumber = none)
    (hcountry : c.country = none) (hschool : c.school = none)
    (hyear : c.yearOfPassing = none) (hev : c.emailVerified = none)
    (hcv : c.captchaVerified = none) (hq : c.verificationQuizPassed = none) :
    untouchedFields (applySet c r) = untouchedFields r := by
  rcases setStepComplete_cases c.stepComplete with h | h | h | h | h | h | h | h | h <;>
    simp [applySet, untouchedFields, h, setOpt, setStr, hname, hemail, hcontact, hcountry,
      hschool, hyear, hev, hcv, hq]

theorem applySet_written (c : CleanedData) (r : Registration) :
    (applySet c r).lastUpdated = some c.lastUpdated ∧
    (applySet c r).isAttending = setOpt c.isAttending r.isAttending ∧
    (applySet c r).attendees = setOpt c.attendees r.attendees ∧
    (applySet c r).willContribute = setOpt c.willContribute r.willContribute ∧
    (applySet c r).contributionAmount = setOpt c.contributionAmount r.contributionAmount ∧
    (applySet c r).formSubmissionComplete
      = setOpt c.formSubmissionComplete r.formSubmissionComplete := by
  rcases setStepComplete_cases c.stepComplete with h | h | h | h | h | h | h | h | h <;>
    simp [applySet, h]

theorem stepFlag_applySet (k : Int) (c : CleanedData) (r : Registration)
    (h1 : 1 ≤ c.stepComplete) (h8 : c.stepComplete ≤ 8) :
    stepFlag k (applySet c r) = if k = c.stepComplete then true else stepFlag k r := by
  unfold applySet
  rw [stepFlag_setStepComplete k c.stepComplete _ h1 h8]
  rfl

/-- The document an update stores, field by field. -/
theorem updated_document (now : Nat) (n : Int) (P : FormDataStructured) (r : Registration)
    (h1 : 1 ≤ n) (h8 : n ≤ 8) :
    untouchedFields (applySet (updateCleanedData now n P r) r) = untouchedFields r ∧
    (applySet (updateCleanedData now n P r) r).lastUpdated = some now ∧
    (applySet (updateCleanedData now n P r) r).currentStep = some (.num n) ∧
    (applySet (updateCleanedData now n P r) r).formDataStructured
      = some (match r.formDataStructured with
              | none => P
              | some F => mergeFormDataStructured F P) ∧
    (∀ k, stepFlag k (applySet (updateCleanedData now n P r) r)
      = if k = n then true else stepFlag k r) ∧
    (applySet (updateCleanedData now n P r) r).isAttending
      = (if n = 3 then
          setOpt (P.eventAttendance.bind (fun ea => Obj.get? ea "isAttending")) r.isAttending
         else r.isAttending) ∧
    (applySet (updateCleanedData now n P r) r).attendees
      = (if n = 3 then
          setOpt (P.eventAttendance.bind (fun ea => Obj.get? ea "attendees")) r.attendees
         else r.attendees) ∧
    (applySet (updateCleanedData now n P r) r).willContribute
      = (if n = 8 then
          setOpt (P.financial.bind (fun fin => Obj.get? fin "willContribute")) r.willContribute
         else r.willContribute) ∧
    (applySet (updateCleanedData now n P r) r).contributionAmount
      = (if n = 8 then
          setOpt (P.financial.bind (fun fin => Obj.get? fin "contributionAmount"))
            r.contributionAmount
         else r.contributionAmount) ∧
    (applySet (updateCleanedData now n P r) r).formSubmissionComplete
      = (if n = 8 ∧ P.financial.isSome = true then some (.bool true)
         else r.formSubmissionComplete) := by
  have hc : updateCleanedData now n P r =
      { buildCleanedData now n P true with
        formDataStructured := some (match r.formDataStructured with
              | none => P
              | some F => mergeFormDataStructured F P),
        currentStep := some (.num n) } := rfl
  rw [buildCleanedData_existing] at hc
  obtain ⟨w1, w2, w3, w4, w5, w6⟩ := applySet_written (updateCleanedData now n P r) r
  have hsc : (updateCleanedData now n P r).stepComplete = n := by rw [hc]
  refine ⟨?_, ?_, ?_, ?_, ?_, ?_, ?_, ?_, ?_, ?_⟩
  · apply applySet_untouched <;> rw [hc]
  · rw [w1, hc]
  · rw [applySet_currentStep, hc]
    rfl
  · rw [applySet_form, hc]
    rfl
  · intro k
    rw [stepFlag_applySet k _ r (by rw [hsc]; exact h1) (by rw [hsc]; exact h8), hsc]
  · rw [w2, hc]
    dsimp only
    split_ifs <;> rfl
  · rw [w3, hc]
    dsimp only
    split_ifs <;> rfl
  · rw [w4, hc]
    dsimp only
    split_ifs <;> rfl
  · rw [w5, hc]
    dsimp only
    split_ifs <;> rfl
  · rw [w6, hc]
    dsimp only
    split_ifs <;> rfl

theorem payloadAsMerged_of_ne (n : Int) (P : FormDataStructured) (h : n ≠ 1) :
    payloadAsMerged n P = P := by
  simp [payloadAsMerged, h]

/-- The document stored by a successful update, read back by id. -/
theorem stored_after_update (s : Store) (now : Nat) (mailOk : Bool) (id : String)
    (body : StepBody) (n : Int) (P0 : FormDataStructured) (pi0 : Obj) (r : Registration)
    (hstep : body.step = some n) (h1 : 1 ≤ n) (h8 : n ≤ 8)
    (hdata : body.stepData = some { formDataStructured := some P0 })
    (hpi : P0.personalInfo = some pi0)
    (hfind : findOneByEmail s.registrations (Obj.get? pi0 "email") = some r)
    (hid : findById s.registrations r.id = some r) :
    findById (saveRegistrationStep s now mailOk id body).store.registrations r.id
      = some (applySet (updateCleanedData now n (payloadAsMerged n P0) r) r) := by
  obtain ⟨hs, _⟩ := saveRegistrationStep_update_received s now mailOk id body n P0 pi0 r
    hstep h1 h8 hdata hpi hfind hid
  rw [hs]
  simp only [findById_updateById _ (applySet_id _) r.id s.registrations, hid, Option.map_some']

/-! ## C29: the frame of a save -/

/-- Counterexample to C29 as stated: a step-8 save whose payload has no
`financial` section succeeds and sets `step8Complete`, but writes neither
`formSubmissionComplete` (it stays unset) nor `contributionAmount` (it stays
500); a step-3 save without `eventAttendance` succeeds and leaves `isAttending`
unset. -/
theorem saveRegistrationStep_step8_without_financial :
    (saveRegistrationStep exStore 20 true "1"
      (stepBody 8 (formOfPersonalInfo [("email", .str "a@x.com")]))).response.status = 200 ∧
    (findById (saveRegistrationStep exStore 20 true "1"
      (stepBody 8 (formOfPersonalInfo [("email", .str "a@x.com")]))).store.registrations 1).map
        (fun r => r.step8Complete) = some true ∧
    (findById (saveRegistrationStep exStore 20 true "1"
      (stepBody 8 (formOfPersonalInfo [("email", .str "a@x.com")]))).store.registrations 1).bind
        (fun r => r.formSubmissionComplete) = none ∧
    storedContribution (saveRegistrationStep exStore 20 true "1"
      (stepBody 8 (formOfPersonalInfo [("email", .str "a@x.com")]))).store 1
      = some (.num 500) ∧
    (saveRegistrationStep exStore 20 true "1"
      (stepBody 3 (formOfPersonalInfo [("email", .str "a@x.com")]))).response.status = 200 ∧
    (findById (saveRegistrationStep exStore 20 true "1"
      (stepBody 3 (formOfPersonalInfo [("email", .str "a@x.com")]))).store.registrations 1).bind
        (fun r => r.isAttending) = none := by
  refine ⟨?_, ?_, ?_, ?_, ?_, ?_⟩ <;> rfl

/-- C29 (amended): a save of step N in 2..8 for the e-mail of a stored
registration answers 200, leaves verification records and transactions alone,
and stores a document `d` in which: `id`, `registrationType`, `name`, `email`,
`contactNumber`, `country`, `school`, `yearOfPassing`, the three verification
fields, `paymentStatus`, `paymentId`, `paymentDetails` and `registrationDate`
are unchanged; `lastUpdated` is the time of the call, `currentStep` is N, the
form is the merged form; `step{N}Complete` is true, every other step flag is
unchanged, so no flag is reset; `isAttending` and `attendees` take the value the
payload's `eventAttendance` section carries when N = 3 and are unchanged when
the section or the value is missing or N is not 3; `willContribute` and
`contributionAmount` likewise for `financial` and N = 8; and
`formSubmissionComplete` becomes true exactly when N = 8 and the payload has a
`financial` section, and is unchanged otherwise. -/
theorem saveRegistrationStep_frame (s : Store) (now : Nat) (mailOk : Bool) (id : String)
    (body : StepBody) (n : Int) (P0 : FormDataStructured) (pi0 : Obj) (r : Registration)
    (hstep : body.step = some n) (h2 : 2 ≤ n) (h8 : n ≤ 8)
    (hdata : body.stepData = some { formDataStructured := some P0 })
    (hpi : P0.personalInfo = some pi0)
    (hfind : findOneByEmail s.registrations (Obj.get? pi0 "email") = some r)
    (hid : findById s.registrations r.id = some r) :
    (saveRegistrationStep s now mailOk id body).response.status = 200 ∧
    (saveRegistrationStep s now mailOk id body).store.otps = s.otps ∧
    (saveRegistrationStep s now mailOk id body).store.transactions = s.transactions ∧
    ∃ d, findById (saveRegistrationStep s now mailOk id body).store.registrations r.id
        = some d ∧
      untouchedFields d = untouchedFields r ∧
      d.lastUpdated = some now ∧
      d.currentStep = some (.num n) ∧
      d.formDataStructured
        = some (match r.formDataStructured with
                | none => P0
                | some F => mergeFormDataStructured F P0) ∧
      stepFlag n d = true ∧
      (∀ k, k ≠ n → stepFlag k d = stepFlag k r) ∧
      (∀ k, stepFlag k r = true → stepFlag k d = true) ∧
      d.isAttending
        = (if n = 3 then
            setOpt (P0.eventAttendance.bind (fun ea => Obj.get? ea "isAttending"))
              r.isAttending
           else r.isAttending) ∧
      d.attendees
        = (if n = 3 then
            setOpt (P0.eventAttendance.bind (fun ea => Obj.get? ea "attendees")) r.attendees
           else r.attendees) ∧
      d.willContribute
        = (if n = 8 then
            setOpt (P0.financial.bind (fun fin => Obj.get? fin "willContribute"))
              r.willContribute
           else r.willContribute) ∧
      d.contributionAmount
        = (if n = 8 then
            setOpt (P0.financial.bind (fun fin => Obj.get? fin "contributionAmount"))
              r.contributionAmount
           else r.contributionAmount) ∧
      d.formSubmissionComplete
        = (if n = 8 ∧ P0.financial.isSome = true then some (.bool true)
           else r.formSubmissionComplete) := by
  have h1 : 1 ≤ n := by omega
  have hn : n ≠ 1 := by omega
  obtain ⟨hs, h200⟩ := saveRegistrationStep_update_received s now mailOk id body n P0 pi0 r
    hstep h1 h8 hdata hpi hfind hid
  have hd := stored_after_update s now mailOk id body n P0 pi0 r hstep h1 h8 hdata hpi hfind hid
  rw [payloadAsMerged_of_ne n P0 hn] at hd
  obtain ⟨u1, u2, u3, u4, u5, u6, u7, u8, u9, u10⟩ := updated_document now n P0 r h1 h8
  refine ⟨h200, by rw [hs], by rw [hs], _, hd, u1, u2, u3, u4, ?_, ?_, ?_, u6, u7, u8, u9, u10⟩
  · rw [u5 n, if_pos rfl]
  · intro k hk
    rw [u5 k, if_neg hk]
  · intro k hk
    rw [u5 k]
    split_ifs
    · rfl
    · exact hk

/-- Instance of `saveRegistrationStep_frame`: the step-3 request on the example
store. -/
theorem saveRegistrationStep_frame_witness :
    (saveRegistrationStep exStore 20 true "1" (stepBody 3 exStep3Form)).response.status = 200 ∧
    (saveRegistrationStep exStore 20 true "1" (stepBody 3 exStep3Form)).store.otps
      = exStore.otps ∧
    (saveRegistrationStep exStore 20 true "1" (stepBody 3 exStep3Form)).store.transactions
      = exStore.transactions ∧
    ∃ d, findById (saveRegistrationStep exStore 20 true "1"
          (stepBody 3 exStep3Form)).store.registrations exRegistration.id = some d ∧
      untouchedFields d = untouchedFields exRegistration ∧
      d.lastUpdated = some 20 ∧
      d.currentStep = some (.num 3) ∧
      d.formDataStructured
        = some (match exRegistration.formDataStructured with
                | none => exStep3Form
                | some F => mergeFormDataStructured F exStep3Form) ∧
      stepFlag 3 d = true ∧
      (∀ k, k ≠ 3 → stepFlag k d = stepFlag k exRegistration) ∧
      (∀ k, stepFlag k exRegistration = true → stepFlag k d = true) ∧
      d.isAttending
        = (if (3 : Int) = 3 then
            setOpt (exStep3Form.eventAttendance.bind (fun ea => Obj.get? ea "isAttending"))
              exRegistration.isAttending
           else exRegistration.isAttending) ∧
      d.attendees
        = (if (3 : Int) = 3 then
            setOpt (exStep3Form.eventAttendance.bind (fun ea => Obj.get? ea "attendees"))
              exRegistration.attendees
           else exRegistration.attendees) ∧
      d.willContribute
        = (if (3 : Int) = 8 then
            setOpt (exStep3Form.financial.bind (fun fin => Obj.get? fin "willContribute"))
              exRegistration.willContribute
           else exRegistration.willContribute) ∧
      d.contributionAmount
        = (if (3 : Int) = 8 then
            setOpt (exStep3Form.financial.bind (fun fin => Obj.get? fin "contributionAmount"))
              exRegistration.contributionAmount
           else exRegistration.contributionAmount) ∧
      d.formSubmissionComplete
        = (if (3 : Int) = 8 ∧ exStep3Form.financial.isSome = true then some (.bool true)
           else exRegistration.formSubmissionComplete) :=
  saveRegistrationStep_frame exStore 20 true "1" (stepBody 3 exStep3Form) 3 exStep3Form
    [("email", .str "a@x.com")] exRegistration rfl (by decide) (by decide) rfl rfl rfl rfl

/-! ## C24: can the stored contribution go down? -/

/-- Counterexample to C24 as stated: the registration has 500 stored; a
`transactionRegister` call with amount 300, a `processPayment` call with amount
200 and a step-8 save whose payload carries `contributionAmount: 100` each
answer 200 and leave the smaller amount stored. -/
theorem contribution_can_be_lowered :
    storedContribution exStore 1 = some (.num 500) ∧
    (transactionRegister exStore 100 7 true (some 1) (payBody 300)).response.status = 200 ∧
    storedContribution (transactionRegister exStore 100 7 true (some 1) (payBody 300)).store 1
      = some (.num 300) ∧
    (processPayment exStore 100 7 true (some 1) (payBody 200)).response.status = 200 ∧
    storedContribution (processPayment exStore 100 7 true (some 1) (payBody 200)).store 1
      = some (.num 200) ∧
    (saveRegistrationStep exStore 100 true "1" (stepBody 8 exLowerForm)).response.status
      = 200 ∧
    storedContribution (saveRegistrationStep exStore 100 true "1"
      (stepBody 8 exLowerForm)).store 1 = some (.num 100) ∧
    amountOf (some (.num 300)) < amountOf (some (.num 500)) ∧
    amountOf (some (.num 200)) < amountOf (some (.num 500)) ∧
    amountOf (some (.num 100)) < amountOf (some (.num 500)) := by
  refine ⟨?_, ?_, ?_, ?_, ?_, ?_, ?_, ?_, ?_, ?_⟩ <;> first | rfl | decide

/-- C24 (amended): a payment-recording call with purpose "registration"
overwrites the stored `contributionAmount` with the amount of the call, so the
stored amount is not lowered exactly when the amount of the call is at least the
stored one; a save of a step other than 8 leaves `contributionAmount` unchanged;
a step-8 save whose `financial` section carries `contributionAmount` stores that
value, and a step-8 save without a `financial` section leaves it unchanged. -/
theorem contribution_overwritten_not_accumulated (s : Store) (now : Nat) (mailOk : Bool)
    (id : String) (body : StepBody) (n : Int) (P0 : FormDataStructured) (pi0 : Obj)
    (r : Registration) (c : PayCall)
    (hstep : body.step = some n) (h1 : 1 ≤ n) (h8 : n ≤ 8)
    (hdata : body.stepData = some { formDataStructured := some P0 })
    (hpi : P0.personalInfo = some pi0)
    (hfind : findOneByEmail s.registrations (Obj.get? pi0 "email") = some r)
    (hid : findById s.registrations r.id = some r)
    (hp : c.purpose = "registration") :
    storedContribution (recordPayment s r.id c).store r.id = some (.num c.body.amount) ∧
    (amountOf (storedContribution s r.id)
        ≤ amountOf (storedContribution (recordPayment s r.id c).store r.id) ↔
      amountOf r.contributionAmount ≤ c.body.amount) ∧
    (n ≠ 8 →
      storedContribution (saveRegistrationStep s now mailOk id body).store r.id
        = r.contributionAmount) ∧
    (n = 8 → ∀ fin v, P0.financial = some fin → Obj.get? fin "contributionAmount" = some v →
      storedContribution (saveRegistrationStep s now mailOk id body).store r.id = some v) ∧
    (n = 8 → P0.financial = none →
      storedContribution (saveRegistrationStep s now mailOk id body).store r.id
        = r.contributionAmount) := by
  have hpay : storedContribution (recordPayment s r.id c).store r.id
      = some (.num c.body.amount) := by
    obtain ⟨_, d, hd, hc⟩ := recordPayment_registration s r.id c r hid hp
    simp only [storedContribution, hd, hc]
  have hd := stored_after_update s now mailOk id body n P0 pi0 r hstep h1 h8 hdata hpi hfind hid
  have hc := (updated_document now n (payloadAsMerged n P0) r h1 h8).2.2.2.2.2.2.2.2.1
  have hsave : storedContribution (saveRegistrationStep s now mailOk id body).store r.id
      = (applySet (updateCleanedData now n (payloadAsMerged n P0) r) r).contributionAmount := by
    simp only [storedContribution, hd]
  refine ⟨hpay, ?_, ?_, ?_, ?_⟩
  · rw [hpay]
    simp only [storedContribution, hid, amountOf]
  · intro hn
    rw [hsave, hc, if_neg hn]
  · intro hn fin v hfin hv
    have h18 : n ≠ 1 := by omega
    rw [hsave, hc, if_pos hn, payloadAsMerged_of_ne n P0 h18, hfin]
    show setOpt (Obj.get? fin "contributionAmount") r.contributionAmount = some v
    rw [hv]
    rfl
  · intro hn hfin
    have h18 : n ≠ 1 := by omega
    rw [hsave, hc, if_pos hn, payloadAsMerged_of_ne n P0 h18, hfin]
    rfl

/-- Instance of `contribution_overwritten_not_accumulated`: a payment of 300 and
a step-3 save on the example store. -/
theorem contribution_overwritten_not_accumulated_witness :
    storedContribution (recordPayment exStore exRegistration.id
      ⟨false, 100, 7, true, payBody 300⟩).store exRegistration.id
      = some (.num (PayCall.mk false 100 7 true (payBody 300)).body.amount) ∧
    (amountOf (storedContribution exStore exRegistration.id)
        ≤ amountOf (storedContribution (recordPayment exStore exRegistration.id
            ⟨false, 100, 7, true, payBody 300⟩).store exRegistration.id) ↔
      amountOf exRegistration.contributionAmount
        ≤ (PayCall.mk false 100 7 true (payBody 300)).body.amount) ∧
    ((3 : Int) ≠ 8 →
      storedContribution (saveRegistrationStep exStore 20 true "1"
        (stepBody 3 exStep3Form)).store exRegistration.id
        = exRegistration.contributionAmount) ∧
    ((3 : Int) = 8 → ∀ fin v, exStep3Form.financial = some fin →
      Obj.get? fin "contributionAmount" = some v →
      storedContribution (saveRegistrationStep exStore 20 true "1"
        (stepBody 3 exStep3Form)).store exRegistration.id = some v) ∧
    ((3 : Int) = 8 → exStep3Form.financial = none →
      storedContribution (saveRegistrationStep exStore 20 true "1"
        (stepBody 3 exStep3Form)).store exRegistration.id
        = exRegistration.contributionAmount) :=
  contribution_overwritten_not_accumulated exStore 20 true "1" (stepBody 3 exStep3Form) 3
    exStep3Form [("email", .str "a@x.com")] exRegistration ⟨false, 100, 7, true, payBody 300⟩
    rfl (by decide) (by decide) rfl rfl rfl rfl rfl

/-! ## C15: requests that match two records -/

theorem distinctIds_saveFound (p : OtpVerification → Bool) (found doc : OtpVerification)
    (l : List OtpVerification) (hl : distinctIds l) (hf : l.find? p = some found)
    (he : doc.email = found.email) (hc : doc.contactNumber = found.contactNumber) :
    distinctIds (saveFound p doc l) := by
  unfold distinctIds at hl ⊢
  induction l with
  | nil => simp at hf
  | cons x xs ih =>
    rw [List.pairwise_cons] at hl
    by_cases hx : p x = true
    · simp only [List.find?_cons, hx, Option.some.injEq] at hf
      simp only [saveFound, hx, if_true]
      rw [List.pairwise_cons]
      refine ⟨fun y hy => ?_, hl.2⟩
      rw [he, hc, ← hf]
      exact hl.1 y hy
    · have hx2 : p x = false := by simpa using hx
      simp only [List.find?_cons, hx2] at hf
      simp only [saveFound, hx2, Bool.false_eq_true, if_false]
      rw [List.pairwise_cons]
      refine ⟨fun y hy => ?_, ih hl.2 hf⟩
      rcases mem_saveFound p doc xs y hy with h | h
      · rw [h, he, hc]
        exact hl.1 found (List.mem_of_find?_eq_some hf)
      · exact hl.1 y h

theorem deleteFound_sublist (p : OtpVerification → Bool) (l : List OtpVerification) :
    List.Sublist (deleteFound p l) l := by
  induction l with
  | nil => exact List.Sublist.slnil
  | cons x xs ih =>
    by_cases hx : p x = true
    · simp only [deleteFound, hx, if_true]
      exact List.sublist_cons_self x xs
    · have hx2 : p x = false := by simpa using hx
      simp only [deleteFound, hx2, Bool.false_eq_true, if_false]
      exact List.Sublist.cons₂ x ih

theorem distinctIds_append_new (l : List OtpVerification) (doc : OtpVerification)
    (hl : distinctIds l)
    (hnone : l.find? (otpMatches doc.email doc.contactNumber) = none) :
    distinctIds (l ++ [doc]) := by
  unfold distinctIds at hl ⊢
  rw [List.pairwise_append]
  refine ⟨hl, List.pairwise_singleton _ _, ?_⟩
  intro a ha b hb
  rw [List.mem_singleton] at hb
  subst hb
  rw [List.find?_eq_none] at hnone
  have := hnone a ha
  simp only [otpMatches, Bool.or_eq_true, beq_iff_eq, not_or] at this
  exact this

/-- In a store without shared identifiers, a request carrying a record's own
e-mail and contact number matches that record only. -/
theorem own_pair_matches_once (l : List OtpVerification) (r : OtpVerification)
    (hl : distinctIds l) (hr : r ∈ l) :
    l.filter (otpMatches r.email r.contactNumber) = [r] := by
  unfold distinctIds at hl
  induction l with
  | nil => cases hr
  | cons x xs ih =>
    rw [List.pairwise_cons] at hl
    rcases List.mem_cons.mp hr with h | h
    · subst h
      have hself : otpMatches r.email r.contactNumber r = true := by simp [otpMatches]
      have hrest : xs.filter (otpMatches r.email r.contactNumber) = [] := by
        rw [List.filter_eq_nil_iff]
        intro y hy
        have := hl.1 y hy
        simp only [otpMatches, Bool.or_eq_true, beq_iff_eq, not_or]
        exact ⟨fun e => this.1 e.symm, fun e => this.2 e.symm⟩
      rw [List.filter_cons, hself, if_pos rfl, hrest]
    · have hx : otpMatches r.email r.contactNumber x = false := by
        have := hl.1 r h
        simp only [otpMatches, Bool.or_eq_false_iff, beq_eq_false_iff_ne, ne_eq]
        exact this
      rw [List.filter_cons, hx]
      exact ih hl.2 h

theorem sendOtp_keeps_distinct (s : Store) (now : Nat) (otp : String) (ip ua : Option String)
    (emailOk whatsappOk production : Bool) (body : OtpBody) (h : distinctIds s.otps) :
    distinctIds (sendOtp s now otp ip ua emailOk whatsappOk production body).store.otps := by
  rw [sendOtp_store]
  by_cases hbad : (!truthyStr body.email || !truthyStr body.contactNumber) = true
  · simp only [hbad, if_true]
    exact h
  · simp only [hbad, Bool.false_eq_true, if_false]
    cases hf : findOneOtp s.otps (body.email.getD "") (body.contactNumber.getD "") with
    | some found =>
      exact distinctIds_saveFound _ found _ s.otps h hf rfl rfl
    | none =>
      exact distinctIds_append_new s.otps
        (newOtpVerification s.nextId (body.email.getD "") (body.contactNumber.getD "") otp now
          ip ua) h hf

theorem verifyOtp_keeps_distinct (s : Store) (now : Nat) (token : String) (body : OtpBody)
    (h : distinctIds s.otps) : distinctIds (verifyOtp s now token body).store.otps := by
  unfold verifyOtp
  by_cases hbad : (!truthyStr body.email || !truthyStr body.contactNumber ||
      !truthyStr body.otp) = true
  · simp only [hbad, if_true]
    exact h
  · simp only [hbad, Bool.false_eq_true, if_false]
    cases hf : findOneOtp s.otps (body.email.getD "") (body.contactNumber.getD "") with
    | none => exact h
    | some found =>
      by_cases hexp : otpExpired found now = true
      · simp only [hexp, if_true]
        exact h
      · simp only [hexp, Bool.false_eq_true, if_false]
        by_cases h5 : found.attempts + 1 > 5
        · simp only [h5, if_true]
          exact List.Pairwise.sublist (deleteFound_sublist _ _) h
        · simp only [h5, if_false]
          by_cases hne : (found.otp != body.otp.getD "") = true
          · simp only [hne, if_true]
            exact distinctIds_saveFound _ found _ s.otps h hf rfl rfl
          · simp only [hne, Bool.false_eq_true, if_false]
            exact distinctIds_saveFound _ found _ s.otps h hf rfl rfl

theorem runOtpCalls_keeps_distinct (calls : List OtpCall) (s : Store)
    (h : distinctIds s.otps) : distinctIds (runOtpCalls s calls).otps := by
  induction calls generalizing s with
  | nil => exact h
  | cons c cs ih =>
    apply ih (runOtpCall s c)
    cases c with
    | send now otp ip ua emailOk whatsappOk production body =>
      exact sendOtp_keeps_distinct s now otp ip ua emailOk whatsappOk production body h
    | verify now token body => exact verifyOtp_keeps_distinct s now token body h

/-- In every state reached from the empty store through `sendOtp` and
`verifyOtp` calls, a request carrying a stored record's own e-mail and contact
number matches that record only. -/
theorem reachable_own_pair_matches_once (calls : List OtpCall) (r : OtpVerification)
    (hr : r ∈ (runOtpCalls emptyStore calls).otps) :
    (runOtpCalls emptyStore calls).otps.filter (otpMatches r.email r.contactNumber) = [r] :=
  own_pair_matches_once _ r (runOtpCalls_keeps_distinct calls emptyStore List.Pairwise.nil) hr

/-- Counterexample to C15 as stated: records for (`a@x.com`, `+911111111111`)
and (`b@x.com`, `+912222222222`) are stored, both unexpired, and the calls carry
the pair (`a@x.com`, `+912222222222`), which matches both.  The lookup returns
the first record; five wrong codes and a sixth call with its code 111111 answer
400 "Maximum attempts exceeded" and delete it.  A further call for the same pair
now finds the second record: with the code 222222 it answers 200, with a wrong
code 401, not 404. -/
theorem verifyOtp_mixed_pair_after_exhaustion :
    exTwoRecords.otps.map otpSummary
      = [("a@x.com", "+911111111111", "111111", 0, false),
         ("b@x.com", "+912222222222", "222222", 0, false)] ∧
    (exTwoRecords.otps.filter (otpMatches "a@x.com" "+912222222222")).length = 2 ∧
    (verifyOtp (verifyAll exTwoRecords "a@x.com" "+912222222222" fiveWrong) 7000 "t6"
      (otpBody "a@x.com" "+912222222222" "111111")).response.status = 400 ∧
    (verifyOtp (verifyAll exTwoRecords "a@x.com" "+912222222222" fiveWrong) 7000 "t6"
      (otpBody "a@x.com" "+912222222222" "111111")).response.message
      = "Maximum attempts exceeded. Please request a new OTP." ∧
    exTwoRecordsAfterSix.otps.map otpSummary
      = [("b@x.com", "+912222222222", "222222", 0, false)] ∧
    (verifyOtp exTwoRecordsAfterSix 8000 "t7"
      (otpBody "a@x.com" "+912222222222" "222222")).response.status = 200 ∧
    (verifyOtp exTwoRecordsAfterSix 8000 "t7"
      (otpBody "a@x.com" "+912222222222" "000000")).response.status = 401 := by
  refine ⟨?_, ?_, ?_, ?_, ?_, ?_, ?_⟩ <;> rfl

end Unma
